import Mathlib

/-!
# CinderTango: pose sampling and camera-transform composition

A shallow embedding of the pose/extrinsics sampling code of `CinderTango.cpp`
(and its twin `tango_data.cpp`), of the per-frame composition in
`CinderTangoApp::update`, and of `tango_gl::util::DecomposeMatrix`.

Conventions.
* C++ `float`/`double` values are idealised as elements of a type `K`
  (a field where arithmetic is needed).  The definitions named after the source
  functions compute exactly.  Where rounding decides a property, a second
  definition with the suffix `_float` takes the rounding of each `float` operation
  (or the conversion from `double` to `float`) as a parameter; `binary32.round` is
  that rounding for IEEE 754 single precision, on rational numbers.
* `glm::mat4` is column major: `m c r` stands for the C++ expression `m[c][r]`.
* glm is an external header library; the functions the sources call
  (`translate`, `mat4_cast`, `quat_cast`, `determinant`, `inverse`, `length`)
  are written out as glm implements them.  The square root is a parameter of
  the functions that need one.
* The Tango pose service is an external collaborator.  It is modelled as an
  arbitrary function of the query and of the list of queries issued before it,
  so two queries of one call may receive unrelated answers.
-/

/-! ## Tango client API types -/

/-- Enum `TangoErrorType` of the Tango client API, kept as the underlying integer. -/
abbrev TangoErrorType := Int

/-- Value `TANGO_SUCCESS` of the Tango client API. -/
def TANGO_SUCCESS : TangoErrorType := 0

/-- Enum `TangoPoseStatusType` of the Tango client API, kept as the underlying integer. -/
abbrev TangoPoseStatusType := Int

/-- Value `TANGO_POSE_INITIALIZING` of the Tango client API. -/
def TANGO_POSE_INITIALIZING : TangoPoseStatusType := 0
/-- Value `TANGO_POSE_VALID` of the Tango client API. -/
def TANGO_POSE_VALID : TangoPoseStatusType := 1
/-- Value `TANGO_POSE_INVALID` of the Tango client API. -/
def TANGO_POSE_INVALID : TangoPoseStatusType := 2
/-- Value `TANGO_POSE_UNKNOWN` of the Tango client API. -/
def TANGO_POSE_UNKNOWN : TangoPoseStatusType := 3

/-- Enum `TangoCoordinateFrameType`: the frames the sources name
(`TANGO_COORDINATE_FRAME_` is dropped from each name). -/
inductive TangoCoordinateFrameType where
  | AREA_DESCRIPTION
  | START_OF_SERVICE
  | DEVICE
  | IMU
  | CAMERA_COLOR
deriving DecidableEq

/-- Struct `TangoCoordinateFramePair`. -/
structure TangoCoordinateFramePair where
  base : TangoCoordinateFrameType
  target : TangoCoordinateFrameType
deriving DecidableEq

/-- Struct `TangoPoseData`: the fields the sources read.  `translation` is
`double[3]` and `orientation` is `double[4]` in the order (x, y, z, w). -/
structure TangoPoseData (K : Type) where
  translation : Fin 3 → K
  orientation : Fin 4 → K
  status_code : TangoPoseStatusType

/-- One call of `TangoService_getPoseAtTime`: its timestamp and frame pair. -/
structure PoseQuery (K : Type) where
  timestamp : K
  frame : TangoCoordinateFramePair

/-- The pose service: given the queries issued so far and the current query,
the returned error code and the pose written to the out parameter. -/
abbrev PoseService (K : Type) :=
  List (PoseQuery K) → PoseQuery K → TangoErrorType × TangoPoseData K

/-- Call `TangoService_getPoseAtTime(timestamp, frame, &pose)`: the answer of the
service and the query log extended by this call. -/
def TangoService_getPoseAtTime {K : Type} (svc : PoseService K) (log : List (PoseQuery K))
    (timestamp : K) (frame : TangoCoordinateFramePair) :
    (TangoErrorType × TangoPoseData K) × List (PoseQuery K) :=
  (svc log ⟨timestamp, frame⟩, log ++ [⟨timestamp, frame⟩])

/-- A query answer is usable: the call returned `TANGO_SUCCESS` and the pose has
status `TANGO_POSE_VALID`. -/
def PoseOk {K : Type} (r : TangoErrorType × TangoPoseData K) : Prop :=
  r.1 = TANGO_SUCCESS ∧ r.2.status_code = TANGO_POSE_VALID

instance {K : Type} (r : TangoErrorType × TangoPoseData K) : Decidable (PoseOk r) := by
  unfold PoseOk; infer_instance

/-- A pose service that answers the `n`-th query of a run (counting from 0) with
the `n`-th entry of `answers`, and with `dflt` once the script is used up. -/
def scriptedService {K : Type} (answers : List (TangoErrorType × TangoPoseData K))
    (dflt : TangoErrorType × TangoPoseData K) : PoseService K :=
  fun log _ => answers.getD log.length dflt

/-! ## glm value types -/

namespace glm

/-- Type `glm::vec3`. -/
structure vec3 (K : Type) where
  x : K
  y : K
  z : K
deriving DecidableEq

/-- Type `glm::quat`; the constructor takes its arguments in the order (w, x, y, z),
as `glm::quat(w, x, y, z)` does. -/
structure quat (K : Type) where
  w : K
  x : K
  y : K
  z : K
deriving DecidableEq

/-- Component access `q[i]` of `glm::quat`, whose storage order is (x, y, z, w);
`util::PrintQuaternion` reads a quaternion this way. -/
def quat.get {K : Type} (q : quat K) : Fin 4 → K :=
  ![q.x, q.y, q.z, q.w]

/-- Type `glm::vec4`, indexed as `v[i]`. -/
abbrev vec4 (K : Type) := Fin 4 → K

/-- Type `glm::mat4`, column major: `m c r` is `m[c][r]` (column `c`, row `r`). -/
abbrev mat4 (K : Type) := Fin 4 → Fin 4 → K

/-- The identity matrix `glm::mat4(1.0f)`. -/
def mat4.identity {K : Type} [Zero K] [One K] : mat4 K :=
  fun c r => if c = r then 1 else 0

/-- Matrix product `a * b` of two `glm::mat4`: column `c` of the result is the
linear combination of the columns of `a` with the entries of column `c` of `b`. -/
def mat4.mul {K : Type} [Add K] [Mul K] (a b : mat4 K) : mat4 K :=
  fun c r => a 0 r * b c 0 + a 1 r * b c 1 + a 2 r * b c 2 + a 3 r * b c 3

instance {K : Type} [Add K] [Mul K] : Mul (mat4 K) := ⟨mat4.mul⟩

/-- Matrix times scalar, `m * s`. -/
def mat4.smul {K : Type} [Mul K] (m : mat4 K) (s : K) : mat4 K :=
  fun c r => m c r * s

/-- Function `glm::translate(m, v)`: columns 0-2 of `m` are kept and column 3
becomes `m[0] * v[0] + m[1] * v[1] + m[2] * v[2] + m[3]`. -/
def translate {K : Type} [Add K] [Mul K] (m : mat4 K) (v : vec3 K) : mat4 K :=
  fun c r => if c = 3 then m 0 r * v.x + m 1 r * v.y + m 2 r * v.z + m 3 r else m c r

/-- Function `glm::mat4_cast(q)`: the 3x3 matrix `glm::mat3_cast(q)` extended by
the fourth row and column of the identity. -/
def mat4_cast {K : Type} [Ring K] (q : quat K) : mat4 K :=
  let qxx := q.x * q.x
  let qyy := q.y * q.y
  let qzz := q.z * q.z
  let qxz := q.x * q.z
  let qxy := q.x * q.y
  let qyz := q.y * q.z
  let qwx := q.w * q.x
  let qwy := q.w * q.y
  let qwz := q.w * q.z
  ![![1 - 2 * (qyy + qzz), 2 * (qxy + qwz), 2 * (qxz - qwy), 0],
    ![2 * (qxy - qwz), 1 - 2 * (qxx + qzz), 2 * (qyz + qwx), 0],
    ![2 * (qxz + qwy), 2 * (qyz - qwx), 1 - 2 * (qxx + qyy), 0],
    ![0, 0, 0, 1]]

/-- Function `glm::determinant` for `mat4`, by the cofactor expansion glm uses. -/
def determinant {K : Type} [Ring K] (m : mat4 K) : K :=
  let SubFactor00 := m 2 2 * m 3 3 - m 3 2 * m 2 3
  let SubFactor01 := m 2 1 * m 3 3 - m 3 1 * m 2 3
  let SubFactor02 := m 2 1 * m 3 2 - m 3 1 * m 2 2
  let SubFactor03 := m 2 0 * m 3 3 - m 3 0 * m 2 3
  let SubFactor04 := m 2 0 * m 3 2 - m 3 0 * m 2 2
  let SubFactor05 := m 2 0 * m 3 1 - m 3 0 * m 2 1
  let DetCof0 := m 1 1 * SubFactor00 - m 1 2 * SubFactor01 + m 1 3 * SubFactor02
  let DetCof1 := -(m 1 0 * SubFactor00 - m 1 2 * SubFactor03 + m 1 3 * SubFactor04)
  let DetCof2 := m 1 0 * SubFactor01 - m 1 1 * SubFactor03 + m 1 3 * SubFactor05
  let DetCof3 := -(m 1 0 * SubFactor02 - m 1 1 * SubFactor04 + m 1 2 * SubFactor05)
  m 0 0 * DetCof0 + m 0 1 * DetCof1 + m 0 2 * DetCof2 + m 0 3 * DetCof3

/-- The local matrix `Inverse` of `glm::inverse` for `mat4`: the signed cofactors
of `m`, before the division by the determinant. -/
def inverseCofactors {K : Type} [Ring K] (m : mat4 K) : mat4 K :=
  let Coef00 := m 2 2 * m 3 3 - m 3 2 * m 2 3
  let Coef02 := m 1 2 * m 3 3 - m 3 2 * m 1 3
  let Coef03 := m 1 2 * m 2 3 - m 2 2 * m 1 3
  let Coef04 := m 2 1 * m 3 3 - m 3 1 * m 2 3
  let Coef06 := m 1 1 * m 3 3 - m 3 1 * m 1 3
  let Coef07 := m 1 1 * m 2 3 - m 2 1 * m 1 3
  let Coef08 := m 2 1 * m 3 2 - m 3 1 * m 2 2
  let Coef10 := m 1 1 * m 3 2 - m 3 1 * m 1 2
  let Coef11 := m 1 1 * m 2 2 - m 2 1 * m 1 2
  let Coef12 := m 2 0 * m 3 3 - m 3 0 * m 2 3
  let Coef14 := m 1 0 * m 3 3 - m 3 0 * m 1 3
  let Coef15 := m 1 0 * m 2 3 - m 2 0 * m 1 3
  let Coef16 := m 2 0 * m 3 2 - m 3 0 * m 2 2
  let Coef18 := m 1 0 * m 3 2 - m 3 0 * m 1 2
  let Coef19 := m 1 0 * m 2 2 - m 2 0 * m 1 2
  let Coef20 := m 2 0 * m 3 1 - m 3 0 * m 2 1
  let Coef22 := m 1 0 * m 3 1 - m 3 0 * m 1 1
  let Coef23 := m 1 0 * m 2 1 - m 2 0 * m 1 1
  let Fac0 : vec4 K := ![Coef00, Coef00, Coef02, Coef03]
  let Fac1 : vec4 K := ![Coef04, Coef04, Coef06, Coef07]
  let Fac2 : vec4 K := ![Coef08, Coef08, Coef10, Coef11]
  let Fac3 : vec4 K := ![Coef12, Coef12, Coef14, Coef15]
  let Fac4 : vec4 K := ![Coef16, Coef16, Coef18, Coef19]
  let Fac5 : vec4 K := ![Coef20, Coef20, Coef22, Coef23]
  let Vec0 : vec4 K := ![m 1 0, m 0 0, m 0 0, m 0 0]
  let Vec1 : vec4 K := ![m 1 1, m 0 1, m 0 1, m 0 1]
  let Vec2 : vec4 K := ![m 1 2, m 0 2, m 0 2, m 0 2]
  let Vec3 : vec4 K := ![m 1 3, m 0 3, m 0 3, m 0 3]
  let Inv0 : vec4 K := fun i => Vec1 i * Fac0 i - Vec2 i * Fac1 i + Vec3 i * Fac2 i
  let Inv1 : vec4 K := fun i => Vec0 i * Fac0 i - Vec2 i * Fac3 i + Vec3 i * Fac4 i
  let Inv2 : vec4 K := fun i => Vec0 i * Fac1 i - Vec1 i * Fac3 i + Vec3 i * Fac5 i
  let Inv3 : vec4 K := fun i => Vec0 i * Fac2 i - Vec1 i * Fac4 i + Vec2 i * Fac5 i
  let SignA : vec4 K := ![1, -1, 1, -1]
  let SignB : vec4 K := ![-1, 1, -1, 1]
  ![fun i => Inv0 i * SignA i, fun i => Inv1 i * SignB i,
    fun i => Inv2 i * SignA i, fun i => Inv3 i * SignB i]

/-- Function `glm::inverse` for `mat4`: the matrix of signed cofactors multiplied
by one over the determinant, which glm recomputes as the dot product of column 0
of `m` with row 0 of the cofactor matrix.  In a field `1 / 0 = 0`, where the
floating-point code produces infinities. -/
def inverse {K : Type} [Field K] (m : mat4 K) : mat4 K :=
  let Inverse : mat4 K := inverseCofactors m
  let Row0 : vec4 K := ![Inverse 0 0, Inverse 1 0, Inverse 2 0, Inverse 3 0]
  let Dot0 : vec4 K := fun i => m 0 i * Row0 i
  let Dot1 := (Dot0 0 + Dot0 1) + (Dot0 2 + Dot0 3)
  let OneOverDeterminant := 1 / Dot1
  mat4.smul Inverse OneOverDeterminant

/-- Function `glm::scale(m, v)`: columns 0, 1, 2 of `m` multiplied by `v[0]`,
`v[1]`, `v[2]`, column 3 kept. -/
def scale {K : Type} [Mul K] (m : mat4 K) (v : vec3 K) : mat4 K :=
  fun c r =>
    if c = 0 then m 0 r * v.x
    else if c = 1 then m 1 r * v.y
    else if c = 2 then m 2 r * v.z
    else m 3 r

/-- The upper-left 3x3 block of a `mat4` as a mathematical matrix: the entry in
row `r` and column `c` is `m[c][r]`. -/
def upper3x3 {K : Type} (m : mat4 K) : Matrix (Fin 3) (Fin 3) K :=
  !![m 0 0, m 1 0, m 2 0; m 0 1, m 1 1, m 2 1; m 0 2, m 1 2, m 2 2]

/-- A quaternion of unit norm. -/
def quat.IsUnit {K : Type} [Add K] [Mul K] [One K] (q : quat K) : Prop :=
  q.w * q.w + q.x * q.x + q.y * q.y + q.z * q.z = 1

/-- A rigid transform: bottom row (0, 0, 0, 1) and an orthogonal upper-left 3x3
block of determinant 1. -/
def IsRigid {K : Type} [CommRing K] (m : mat4 K) : Prop :=
  (m 0 3 = 0 ∧ m 1 3 = 0 ∧ m 2 3 = 0 ∧ m 3 3 = 1) ∧
  (upper3x3 m).transpose * upper3x3 m = 1 ∧ (upper3x3 m).det = 1

/-- A pure rotation: a rigid transform without translation. -/
def IsPureRotation {K : Type} [CommRing K] (m : mat4 K) : Prop :=
  IsRigid m ∧ m 3 0 = 0 ∧ m 3 1 = 0 ∧ m 3 2 = 0

/-- Function `glm::dot` for `vec3`. -/
def dot {K : Type} [Add K] [Mul K] (a b : vec3 K) : K :=
  a.x * b.x + a.y * b.y + a.z * b.z

/-- Function `glm::length` for `vec3`: the square root of `dot(v, v)`.  The square
root function of the number type is a parameter. -/
def length {K : Type} [Add K] [Mul K] (sqrt : K → K) (v : vec3 K) : K :=
  sqrt (dot v v)

/-- Function `glm::quat_cast` for `mat4`: it reads the upper-left 3x3 block only,
picks the largest of the four candidate components and derives the others from it. -/
def quat_cast {K : Type} [LinearOrderedField K] (sqrt : K → K) (m : mat4 K) : quat K :=
  let fourXSquaredMinus1 := m 0 0 - m 1 1 - m 2 2
  let fourYSquaredMinus1 := m 1 1 - m 0 0 - m 2 2
  let fourZSquaredMinus1 := m 2 2 - m 0 0 - m 1 1
  let fourWSquaredMinus1 := m 0 0 + m 1 1 + m 2 2
  let s0 : Nat × K := (0, fourWSquaredMinus1)
  let s1 : Nat × K := if fourXSquaredMinus1 > s0.2 then (1, fourXSquaredMinus1) else s0
  let s2 : Nat × K := if fourYSquaredMinus1 > s1.2 then (2, fourYSquaredMinus1) else s1
  let s3 : Nat × K := if fourZSquaredMinus1 > s2.2 then (3, fourZSquaredMinus1) else s2
  let biggestIndex := s3.1
  let fourBiggestSquaredMinus1 := s3.2
  let biggestVal := sqrt (fourBiggestSquaredMinus1 + 1) * (1 / 2)
  let mult := (1 / 4) / biggestVal
  match biggestIndex with
  | 0 => quat.mk biggestVal ((m 1 2 - m 2 1) * mult) ((m 2 0 - m 0 2) * mult)
           ((m 0 1 - m 1 0) * mult)
  | 1 => quat.mk ((m 1 2 - m 2 1) * mult) biggestVal ((m 0 1 + m 1 0) * mult)
           ((m 2 0 + m 0 2) * mult)
  | 2 => quat.mk ((m 2 0 - m 0 2) * mult) ((m 0 1 + m 1 0) * mult) biggestVal
           ((m 1 2 + m 2 1) * mult)
  | 3 => quat.mk ((m 0 1 - m 1 0) * mult) ((m 2 0 + m 0 2) * mult)
           ((m 1 2 + m 2 1) * mult) biggestVal
  | _ => quat.mk 1 0 0 0

/-- Function `glm::dot` for `vec3` in `float` arithmetic: glm multiplies the vectors
componentwise and returns `tmp.x + tmp.y + tmp.z`; `fl` rounds the result of each
operation (a multiplication and an addition are not fused into one rounding). -/
def dot_float {K : Type} [Add K] [Mul K] (fl : K → K) (a b : vec3 K) : K :=
  fl (fl (fl (a.x * b.x) + fl (a.y * b.y)) + fl (a.z * b.z))

/-- Function `glm::length` for `vec3` in `float` arithmetic. -/
def length_float {K : Type} [Add K] [Mul K] (fl sqrt : K → K) (v : vec3 K) : K :=
  sqrt (dot_float fl v v)

/-- Function `glm::determinant` for `mat4` in `float` arithmetic: the cofactor
expansion of `determinant`, with the result of each multiplication, subtraction and
addition rounded by `fl`.  Negation is exact. -/
def determinant_float {K : Type} [Ring K] (fl : K → K) (m : mat4 K) : K :=
  let SubFactor00 := fl (fl (m 2 2 * m 3 3) - fl (m 3 2 * m 2 3))
  let SubFactor01 := fl (fl (m 2 1 * m 3 3) - fl (m 3 1 * m 2 3))
  let SubFactor02 := fl (fl (m 2 1 * m 3 2) - fl (m 3 1 * m 2 2))
  let SubFactor03 := fl (fl (m 2 0 * m 3 3) - fl (m 3 0 * m 2 3))
  let SubFactor04 := fl (fl (m 2 0 * m 3 2) - fl (m 3 0 * m 2 2))
  let SubFactor05 := fl (fl (m 2 0 * m 3 1) - fl (m 3 0 * m 2 1))
  let DetCof0 :=
    fl (fl (fl (m 1 1 * SubFactor00) - fl (m 1 2 * SubFactor01)) + fl (m 1 3 * SubFactor02))
  let DetCof1 :=
    -fl (fl (fl (m 1 0 * SubFactor00) - fl (m 1 2 * SubFactor03)) + fl (m 1 3 * SubFactor04))
  let DetCof2 :=
    fl (fl (fl (m 1 0 * SubFactor01) - fl (m 1 1 * SubFactor03)) + fl (m 1 3 * SubFactor05))
  let DetCof3 :=
    -fl (fl (fl (m 1 0 * SubFactor02) - fl (m 1 1 * SubFactor04)) + fl (m 1 2 * SubFactor05))
  fl (fl (fl (fl (m 0 0 * DetCof0) + fl (m 0 1 * DetCof1)) + fl (m 0 2 * DetCof2))
    + fl (m 0 3 * DetCof3))

/-- Function `glm::quat_cast` for `mat4` in `float` arithmetic: `quat_cast` with the
result of each operation rounded by `fl`. -/
def quat_cast_float {K : Type} [LinearOrderedField K] (fl sqrt : K → K) (m : mat4 K) :
    quat K :=
  let fourXSquaredMinus1 := fl (fl (m 0 0 - m 1 1) - m 2 2)
  let fourYSquaredMinus1 := fl (fl (m 1 1 - m 0 0) - m 2 2)
  let fourZSquaredMinus1 := fl (fl (m 2 2 - m 0 0) - m 1 1)
  let fourWSquaredMinus1 := fl (fl (m 0 0 + m 1 1) + m 2 2)
  let s0 : Nat × K := (0, fourWSquaredMinus1)
  let s1 : Nat × K := if fourXSquaredMinus1 > s0.2 then (1, fourXSquaredMinus1) else s0
  let s2 : Nat × K := if fourYSquaredMinus1 > s1.2 then (2, fourYSquaredMinus1) else s1
  let s3 : Nat × K := if fourZSquaredMinus1 > s2.2 then (3, fourZSquaredMinus1) else s2
  let biggestIndex := s3.1
  let fourBiggestSquaredMinus1 := s3.2
  let biggestVal := fl (sqrt (fl (fourBiggestSquaredMinus1 + 1)) * (1 / 2))
  let mult := fl ((1 / 4) / biggestVal)
  match biggestIndex with
  | 0 => quat.mk biggestVal (fl (fl (m 1 2 - m 2 1) * mult)) (fl (fl (m 2 0 - m 0 2) * mult))
           (fl (fl (m 0 1 - m 1 0) * mult))
  | 1 => quat.mk (fl (fl (m 1 2 - m 2 1) * mult)) biggestVal (fl (fl (m 0 1 + m 1 0) * mult))
           (fl (fl (m 2 0 + m 0 2) * mult))
  | 2 => quat.mk (fl (fl (m 2 0 - m 0 2) * mult)) (fl (fl (m 0 1 + m 1 0) * mult)) biggestVal
           (fl (fl (m 1 2 + m 2 1) * mult))
  | 3 => quat.mk (fl (fl (m 0 1 - m 1 0) * mult)) (fl (fl (m 2 0 + m 0 2) * mult))
           (fl (fl (m 1 2 + m 2 1) * mult)) biggestVal
  | _ => quat.mk 1 0 0 0

end glm

/-! ## Session state (`CinderTango.h`) -/

/-- The fields of class `CinderTango` (and of its twin `TangoData`) that the
pose, extrinsics and configuration code reads or writes. -/
structure CinderTango (K : Type) where
  tango_position : glm.vec3 K
  tango_rotation : glm.quat K
  status_count : Fin 3 → Int
  imu_p_device : glm.vec3 K
  imu_q_device : glm.quat K
  imu_p_cc : glm.vec3 K
  imu_q_cc : glm.quat K
  is_localized : Bool
  cur_uuid : String
  timestamp : K

namespace CinderTango

/-- Method `CinderTango::GetPoseAtTime` (CinderTango.cpp 213-263): the returned
boolean, the session afterwards and the query log afterwards. -/
def GetPoseAtTime {K : Type} [Zero K] (svc : PoseService K) (log : List (PoseQuery K))
    (self : CinderTango K) : Bool × CinderTango K × List (PoseQuery K) :=
  let frame_pair : TangoCoordinateFramePair :=
    { base := if self.is_localized then TangoCoordinateFrameType.AREA_DESCRIPTION
              else TangoCoordinateFrameType.START_OF_SERVICE,
      target := TangoCoordinateFrameType.DEVICE }
  let r_latest := TangoService_getPoseAtTime svc log 0 frame_pair
  let result_latest := r_latest.1.1
  let pose_latest := r_latest.1.2
  let r_texture := TangoService_getPoseAtTime svc r_latest.2 self.timestamp frame_pair
  let result_texture := r_texture.1.1
  let pose_texture := r_texture.1.2
  let ok_latest : Bool :=
    decide (result_latest = TANGO_SUCCESS) && decide (pose_latest.status_code = TANGO_POSE_VALID)
  let ok_texture : Bool :=
    decide (result_texture = TANGO_SUCCESS) && decide (pose_texture.status_code = TANGO_POSE_VALID)
  if ok_latest then
    let pose := if ok_texture then pose_texture else pose_latest
    (true,
     { self with
       tango_position := glm.vec3.mk (pose.translation 0) (pose.translation 1) (pose.translation 2),
       tango_rotation := glm.quat.mk (pose.orientation 3) (pose.orientation 0)
                                     (pose.orientation 1) (pose.orientation 2) },
     r_texture.2)
  else
    (true, self, r_texture.2)

/-- The frame pair `GetPoseAtTime` builds from `is_localized`
(CinderTango.cpp 217-220), as a function of that flag. -/
def poseFramePair (is_localized : Bool) : TangoCoordinateFramePair :=
  { base := if is_localized then TangoCoordinateFrameType.AREA_DESCRIPTION
            else TangoCoordinateFrameType.START_OF_SERVICE,
    target := TangoCoordinateFrameType.DEVICE }

/-- The answer the service gives to the first query of `GetPoseAtTime`, the one at
timestamp 0 ("now"): `(result_latest, pose_latest)`. -/
def latestAnswer {K : Type} [Zero K] (svc : PoseService K) (log : List (PoseQuery K))
    (self : CinderTango K) : TangoErrorType × TangoPoseData K :=
  svc log ⟨0, poseFramePair self.is_localized⟩

/-- The answer the service gives to the second query of `GetPoseAtTime`, the one at
the texture timestamp: `(result_texture, pose_texture)`. -/
def textureAnswer {K : Type} [Zero K] (svc : PoseService K) (log : List (PoseQuery K))
    (self : CinderTango K) : TangoErrorType × TangoPoseData K :=
  svc (log ++ [⟨0, poseFramePair self.is_localized⟩])
    ⟨self.timestamp, poseFramePair self.is_localized⟩

/-- The position and rotation of the session are the ones read from `pose`:
translation components 0-2, and the quaternion (w, x, y, z) from orientation
components 3, 0, 1, 2. -/
def StoresPose {K : Type} (pose : TangoPoseData K) (self : CinderTango K) : Prop :=
  self.tango_position =
      glm.vec3.mk (pose.translation 0) (pose.translation 1) (pose.translation 2) ∧
  self.tango_rotation =
      glm.quat.mk (pose.orientation 3) (pose.orientation 0) (pose.orientation 1)
        (pose.orientation 2)

instance {K : Type} [DecidableEq K] (pose : TangoPoseData K) (self : CinderTango K) :
    Decidable (StoresPose pose self) := by
  unfold StoresPose; infer_instance

/-- Method `CinderTango::UpdateColorTexture` (CinderTango.cpp 204-211):
`TangoService_updateTexture(TANGO_CAMERA_COLOR, &timestamp)`.  The argument is the
outcome of that call: its error code (only logged) and the value `timestamp`
holds after it. -/
def UpdateColorTexture {K : Type} (texture_update : TangoErrorType × K)
    (self : CinderTango K) : CinderTango K :=
  { self with timestamp := texture_update.2 }

/-- The answer the service gives to the first query of `GetExtrinsics`
(base IMU, target DEVICE, timestamp 0). -/
def deviceAnswer {K : Type} [Zero K] (svc : PoseService K) (log : List (PoseQuery K)) :
    TangoErrorType × TangoPoseData K :=
  svc log ⟨0, ⟨TangoCoordinateFrameType.IMU, TangoCoordinateFrameType.DEVICE⟩⟩

/-- The answer the service gives to the second query of `GetExtrinsics`
(base IMU, target CAMERA_COLOR, timestamp 0), issued after the first. -/
def colorCameraAnswer {K : Type} [Zero K] (svc : PoseService K) (log : List (PoseQuery K)) :
    TangoErrorType × TangoPoseData K :=
  svc (log ++ [⟨0, ⟨TangoCoordinateFrameType.IMU, TangoCoordinateFrameType.DEVICE⟩⟩])
    ⟨0, ⟨TangoCoordinateFrameType.IMU, TangoCoordinateFrameType.CAMERA_COLOR⟩⟩

/-- Method `CinderTango::GetExtrinsics` (CinderTango.cpp 266-291): the returned
boolean, the session afterwards and the query log afterwards. -/
def GetExtrinsics {K : Type} [Zero K] (svc : PoseService K) (log : List (PoseQuery K))
    (self : CinderTango K) : Bool × CinderTango K × List (PoseQuery K) :=
  let pair : TangoCoordinateFramePair :=
    { base := TangoCoordinateFrameType.IMU, target := TangoCoordinateFrameType.DEVICE }
  let r_device := TangoService_getPoseAtTime svc log 0 pair
  if r_device.1.1 ≠ TANGO_SUCCESS then
    (false, self, r_device.2)
  else
    let poseData := r_device.1.2
    let self1 : CinderTango K :=
      { self with
        imu_p_device :=
          glm.vec3.mk (poseData.translation 0) (poseData.translation 1) (poseData.translation 2),
        imu_q_device := glm.quat.mk (poseData.orientation 3) (poseData.orientation 0)
                                    (poseData.orientation 1) (poseData.orientation 2) }
    let pair : TangoCoordinateFramePair :=
      { pair with target := TangoCoordinateFrameType.CAMERA_COLOR }
    let r_cc := TangoService_getPoseAtTime svc r_device.2 0 pair
    if r_cc.1.1 ≠ TANGO_SUCCESS then
      (false, self1, r_cc.2)
    else
      let poseData := r_cc.1.2
      (true,
       { self1 with
         imu_p_cc :=
           glm.vec3.mk (poseData.translation 0) (poseData.translation 1) (poseData.translation 2),
         imu_q_cc := glm.quat.mk (poseData.orientation 3) (poseData.orientation 0)
                                 (poseData.orientation 1) (poseData.orientation 2) },
       r_cc.2)

/-- Method `CinderTango::GetPoseAtTime` (CinderTango.cpp 213-263) with the number
types of the source: `pose.translation` and `pose.orientation` are `double` arrays,
the components of `tango_position` (`glm::vec3`) and `tango_rotation` (`glm::quat`)
are `float`, so the constructor calls of lines 235-238 convert every stored
component; `narrow` is that conversion from `double` to `float`. -/
def GetPoseAtTime_float {K : Type} [Zero K] (narrow : K → K) (svc : PoseService K)
    (log : List (PoseQuery K)) (self : CinderTango K) :
    Bool × CinderTango K × List (PoseQuery K) :=
  let frame_pair : TangoCoordinateFramePair :=
    { base := if self.is_localized then TangoCoordinateFrameType.AREA_DESCRIPTION
              else TangoCoordinateFrameType.START_OF_SERVICE,
      target := TangoCoordinateFrameType.DEVICE }
  let r_latest := TangoService_getPoseAtTime svc log 0 frame_pair
  let result_latest := r_latest.1.1
  let pose_latest := r_latest.1.2
  let r_texture := TangoService_getPoseAtTime svc r_latest.2 self.timestamp frame_pair
  let result_texture := r_texture.1.1
  let pose_texture := r_texture.1.2
  let ok_latest : Bool :=
    decide (result_latest = TANGO_SUCCESS) && decide (pose_latest.status_code = TANGO_POSE_VALID)
  let ok_texture : Bool :=
    decide (result_texture = TANGO_SUCCESS) && decide (pose_texture.status_code = TANGO_POSE_VALID)
  if ok_latest then
    let pose := if ok_texture then pose_texture else pose_latest
    (true,
     { self with
       tango_position := glm.vec3.mk (narrow (pose.translation 0)) (narrow (pose.translation 1))
                                     (narrow (pose.translation 2)),
       tango_rotation := glm.quat.mk (narrow (pose.orientation 3)) (narrow (pose.orientation 0))
                                     (narrow (pose.orientation 1)) (narrow (pose.orientation 2)) },
     r_texture.2)
  else
    (true, self, r_texture.2)

/-- Method `CinderTango::GetExtrinsics` (CinderTango.cpp 266-291) with the number
types of the source: the four stores of lines 276-279 and 286-289 convert every
component of the `double` arrays of `poseData` to `float`; `narrow` is that
conversion. -/
def GetExtrinsics_float {K : Type} [Zero K] (narrow : K → K) (svc : PoseService K)
    (log : List (PoseQuery K)) (self : CinderTango K) :
    Bool × CinderTango K × List (PoseQuery K) :=
  let pair : TangoCoordinateFramePair :=
    { base := TangoCoordinateFrameType.IMU, target := TangoCoordinateFrameType.DEVICE }
  let r_device := TangoService_getPoseAtTime svc log 0 pair
  if r_device.1.1 ≠ TANGO_SUCCESS then
    (false, self, r_device.2)
  else
    let poseData := r_device.1.2
    let self1 : CinderTango K :=
      { self with
        imu_p_device :=
          glm.vec3.mk (narrow (poseData.translation 0)) (narrow (poseData.translation 1))
            (narrow (poseData.translation 2)),
        imu_q_device :=
          glm.quat.mk (narrow (poseData.orientation 3)) (narrow (poseData.orientation 0))
            (narrow (poseData.orientation 1)) (narrow (poseData.orientation 2)) }
    let pair : TangoCoordinateFramePair :=
      { pair with target := TangoCoordinateFrameType.CAMERA_COLOR }
    let r_cc := TangoService_getPoseAtTime svc r_device.2 0 pair
    if r_cc.1.1 ≠ TANGO_SUCCESS then
      (false, self1, r_cc.2)
    else
      let poseData := r_cc.1.2
      (true,
       { self1 with
         imu_p_cc :=
           glm.vec3.mk (narrow (poseData.translation 0)) (narrow (poseData.translation 1))
             (narrow (poseData.translation 2)),
         imu_q_cc :=
           glm.quat.mk (narrow (poseData.orientation 3)) (narrow (poseData.orientation 0))
             (narrow (poseData.orientation 1)) (narrow (poseData.orientation 2)) },
       r_cc.2)

end CinderTango

/-! ## The localization callback and the status string (`CinderTango.cpp`) -/

namespace CinderTango

/-- Static function `onPoseAvailable` of CinderTango.cpp (29-39), applied to the
singleton session.  The mutex lock and unlock around the assignment and the log
line are not modelled. -/
def onPoseAvailable {K : Type} (pose : TangoPoseData K) (self : CinderTango K) :
    CinderTango K :=
  if pose.status_code = TANGO_POSE_VALID then
    { self with is_localized := true }
  else
    { self with is_localized := false }

end CinderTango

/-! ## The twin session type (`tango_data.cpp`) -/

/-- The fields of class `TangoData` that tango_data.cpp reads or writes in its
pose, extrinsics and callback code (the class declaration itself is in a header
that is not among the sources; the field names are the ones the code uses). -/
structure TangoData (K : Type) where
  tango_position : glm.vec3 K
  tango_rotation : glm.quat K
  status_count : Fin 3 → Int
  imu_p_device : glm.vec3 K
  imu_q_device : glm.quat K
  imu_p_cc : glm.vec3 K
  imu_q_cc : glm.quat K
  is_localized : Bool
  timestamp : K

namespace TangoData

/-- Static function `onPoseAvailable` of tango_data.cpp (28-37), applied to the
singleton session.  The mutex lock and unlock are not modelled. -/
def onPoseAvailable {K : Type} (pose : TangoPoseData K) (self : TangoData K) :
    TangoData K :=
  if pose.status_code = TANGO_POSE_VALID then
    { self with is_localized := true }
  else
    { self with is_localized := false }

/-- Method `TangoData::GetPoseAtTime` (tango_data.cpp 102-152): the returned
boolean, the session afterwards and the query log afterwards. -/
def GetPoseAtTime {K : Type} [Zero K] (svc : PoseService K) (log : List (PoseQuery K))
    (self : TangoData K) : Bool × TangoData K × List (PoseQuery K) :=
  let frame_pair : TangoCoordinateFramePair :=
    { base := if self.is_localized then TangoCoordinateFrameType.AREA_DESCRIPTION
              else TangoCoordinateFrameType.START_OF_SERVICE,
      target := TangoCoordinateFrameType.DEVICE }
  let r_latest := TangoService_getPoseAtTime svc log 0 frame_pair
  let result_latest := r_latest.1.1
  let pose_latest := r_latest.1.2
  let r_texture := TangoService_getPoseAtTime svc r_latest.2 self.timestamp frame_pair
  let result_texture := r_texture.1.1
  let pose_texture := r_texture.1.2
  let ok_latest : Bool :=
    decide (result_latest = TANGO_SUCCESS) && decide (pose_latest.status_code = TANGO_POSE_VALID)
  let ok_texture : Bool :=
    decide (result_texture = TANGO_SUCCESS) && decide (pose_texture.status_code = TANGO_POSE_VALID)
  if ok_latest then
    let pose := if ok_texture then pose_texture else pose_latest
    (true,
     { self with
       tango_position := glm.vec3.mk (pose.translation 0) (pose.translation 1) (pose.translation 2),
       tango_rotation := glm.quat.mk (pose.orientation 3) (pose.orientation 0)
                                     (pose.orientation 1) (pose.orientation 2) },
     r_texture.2)
  else
    (true, self, r_texture.2)

/-- Method `TangoData::GetExtrinsics` (tango_data.cpp 154-179): the returned
boolean, the session afterwards and the query log afterwards. -/
def GetExtrinsics {K : Type} [Zero K] (svc : PoseService K) (log : List (PoseQuery K))
    (self : TangoData K) : Bool × TangoData K × List (PoseQuery K) :=
  let pair : TangoCoordinateFramePair :=
    { base := TangoCoordinateFrameType.IMU, target := TangoCoordinateFrameType.DEVICE }
  let r_device := TangoService_getPoseAtTime svc log 0 pair
  if r_device.1.1 ≠ TANGO_SUCCESS then
    (false, self, r_device.2)
  else
    let poseData := r_device.1.2
    let self1 : TangoData K :=
      { self with
        imu_p_device :=
          glm.vec3.mk (poseData.translation 0) (poseData.translation 1) (poseData.translation 2),
        imu_q_device := glm.quat.mk (poseData.orientation 3) (poseData.orientation 0)
                                    (poseData.orientation 1) (poseData.orientation 2) }
    let pair : TangoCoordinateFramePair :=
      { pair with target := TangoCoordinateFrameType.CAMERA_COLOR }
    let r_cc := TangoService_getPoseAtTime svc r_device.2 0 pair
    if r_cc.1.1 ≠ TANGO_SUCCESS then
      (false, self1, r_cc.2)
    else
      let poseData := r_cc.1.2
      (true,
       { self1 with
         imu_p_cc :=
           glm.vec3.mk (poseData.translation 0) (poseData.translation 1) (poseData.translation 2),
         imu_q_cc := glm.quat.mk (poseData.orientation 3) (poseData.orientation 0)
                                 (poseData.orientation 1) (poseData.orientation 2) },
       r_cc.2)

end TangoData

/-! ## Status strings and configuration (`CinderTango.cpp`) -/

/-- One call to the `TangoConfig_*` functions, as `SetConfig` issues them. -/
inductive ConfigCall where
  | setBool (key : String) (value : Bool)
  | getString (key : String)
  | setString (key : String) (value : String)
deriving DecidableEq

/-- The outcomes of the Tango service calls of `SetConfig`.  `getConfig` tells
whether `TangoService_getConfig` returned a non-null handle;
`getAreaDescriptionUUIDList` is the error code of that call together with the value
`uuid_list` holds after it (`none` is the null pointer, `some cs` a C string with
the characters `cs`). -/
structure ConfigService where
  getConfig : Bool
  setBool : String → Bool → TangoErrorType
  connectOnTangoEvent : TangoErrorType
  getAreaDescriptionUUIDList : TangoErrorType × Option (List Char)
  setString : String → String → TangoErrorType

/-- The C library function `strtok_r(str, delim, &saved_ptr)` for a single
delimiter character, on the characters still to be scanned: leading delimiters
are skipped; if nothing is left the token is null; otherwise the token runs up to
the next delimiter, and the scan resumes after that delimiter. -/
def strtok_r (str : List Char) (delim : Char) : Option (List Char) × List Char :=
  let start := str.dropWhile (fun c => c = delim)
  if start = [] then (none, [])
  else (some (start.takeWhile (fun c => c ≠ delim)),
        (start.dropWhile (fun c => c ≠ delim)).drop 1)

namespace CinderTango

/-- The value an `int` variable holds after an operation whose mathematical result
is `x`: the representative of `x` modulo 2^32 in the range -2^31 .. 2^31 - 1.
(Overflow of a signed `int` is undefined in the C++ standard; the two's-complement
targets the library is built for wrap around.) -/
def wrap_int32 (x : Int) : Int :=
  (x + 2147483648) % 4294967296 - 2147483648

/-- The statement `status_count[index] += 1` on `int status_count[3]`.  For an
index 0, 1 or 2 that counter is incremented as an `int`.  Any other index lies
outside the array: the write is undefined behaviour and the result is `none`. -/
def status_count_increment (status_count : Fin 3 → Int) (index : Int) :
    Option (Fin 3 → Int) :=
  if 0 ≤ index ∧ index < 3 then
    some (fun j =>
      if (j.val : Int) = index then wrap_int32 (status_count j + 1) else status_count j)
  else
    none

/-- Method `CinderTango::getStatusStringFromStatusCode` (CinderTango.cpp 52-76):
the returned string and the session afterwards.  The result is `none` when the
call writes outside `status_count`: the guard `static_cast<int>(status) < 3` lets
every negative code through to the write. -/
def getStatusStringFromStatusCode {K : Type} (status : TangoPoseStatusType)
    (self : CinderTango K) : Option (String × CinderTango K) :=
  let ret_string : String :=
    if status = TANGO_POSE_INITIALIZING then "Initializing"
    else if status = TANGO_POSE_VALID then "Valid"
    else if status = TANGO_POSE_INVALID then "Invalid"
    else if status = TANGO_POSE_UNKNOWN then "Unknown"
    else "Status_Code_Invalid"
  if status < 3 then
    match status_count_increment self.status_count status with
    | some status_count => some (ret_string, { self with status_count := status_count })
    | none => none
  else
    some (ret_string, self)

/-- The `while` loop of `SetConfig` (CinderTango.cpp 158-162): `parsing_char` is
the current token (`none` is null), `saved_ptr` the characters still to be scanned.
The first argument bounds the number of iterations; `SetConfig` passes a bound the
loop cannot reach, since every token takes at least one character. -/
def parse_uuid_loop : Nat → Option (List Char) → List Char → List String → List String
  | 0, _, _, adf_list => adf_list
  | _ + 1, none, _, adf_list => adf_list
  | fuel + 1, some parsing_char, saved_ptr, adf_list =>
    let s := String.mk parsing_char
    let adf_list := adf_list ++ [s]
    let next := strtok_r saved_ptr ','
    parse_uuid_loop fuel next.1 next.2 adf_list

/-- Method `CinderTango::SetConfig` (CinderTango.cpp 86-184): the returned
boolean, the session afterwards and the `TangoConfig_*` calls issued, in order.
The result is `none` when the call dereferences a null pointer: the log statement
of line 150 reads `uuid_list[0]` before the null test of line 152 (the Cinder log
macro `CI_LOG_I` evaluates its argument at the default log level).  The handle
`config_` and the version string buffer are not modelled. -/
def SetConfig {K : Type} (svc : ConfigService) (is_auto_recovery : Bool)
    (self : CinderTango K) : Option (Bool × CinderTango K × List ConfigCall) :=
  if svc.getConfig = false then
    some (false, self, [])
  else
    let calls := [ConfigCall.setBool "config_enable_color_camera" true]
    if svc.setBool "config_enable_color_camera" true ≠ TANGO_SUCCESS then
      some (false, self, calls)
    else
      let calls := calls ++ [ConfigCall.setBool "config_enable_auto_recovery" is_auto_recovery]
      if svc.setBool "config_enable_auto_recovery" is_auto_recovery ≠ TANGO_SUCCESS then
        some (false, self, calls)
      else
        let calls :=
          calls ++ [ConfigCall.setBool "config_enable_low_latency_imu_integration" true]
        if svc.setBool "config_enable_low_latency_imu_integration" true ≠ TANGO_SUCCESS then
          some (false, self, calls)
        else
          let calls := calls ++ [ConfigCall.getString "tango_service_library_version"]
          if svc.connectOnTangoEvent ≠ TANGO_SUCCESS then
            some (false, self, calls)
          else
            match svc.getAreaDescriptionUUIDList.2 with
            | none => none
            | some uuid_list =>
              if uuid_list ≠ [] then
                let first := strtok_r uuid_list ','
                let adf_list :=
                  parse_uuid_loop (uuid_list.length + 1) first.1 first.2 []
                let list_size := adf_list.length
                if list_size = 0 then
                  some (false, self, calls)
                else
                  let self1 := { self with cur_uuid := adf_list.getD (list_size - 1) "" }
                  let calls :=
                    calls ++ [ConfigCall.setString "config_load_area_description_UUID"
                                (adf_list.getD (list_size - 1) "")]
                  if svc.setString "config_load_area_description_UUID"
                      (adf_list.getD (list_size - 1) "") ≠ TANGO_SUCCESS then
                    some (false, self1, calls)
                  else
                    some (true, self1, calls)
              else
                some (true, self, calls)

/-- The UUIDs of a list joined by single commas, as the service hands them out. -/
def joinUUIDs : List (List Char) → List Char
  | [] => []
  | [u] => u
  | u :: v :: rest => u ++ ',' :: joinUUIDs (v :: rest)

end CinderTango

/-! ## Matrix utilities (`tango-gl/util.cpp`) -/

namespace util

/-- The three outputs of `DecomposeMatrix` (its reference parameters). -/
structure Decomposition (K : Type) where
  translation : glm.vec3 K
  rotation : glm.quat K
  scale : glm.vec3 K

/-- The local `transform_unscaled` of `DecomposeMatrix` (util.cpp 44-60), computed
from the final `scale_x`, `scale_y`, `scale_z`; the function never reads it. -/
def transform_unscaled {K : Type} [Field K] (transform_mat : glm.mat4 K)
    (scale_x scale_y scale_z : K) : glm.mat4 K :=
  let inverse_scale_x := 1 / scale_x
  let inverse_scale_y := 1 / scale_y
  let inverse_scale_z := 1 / scale_z
  fun c r =>
    if c.val < 3 ∧ r = 0 then transform_mat c r * inverse_scale_x
    else if c.val < 3 ∧ r = 1 then transform_mat c r * inverse_scale_y
    else if c.val < 3 ∧ r = 2 then transform_mat c r * inverse_scale_z
    else transform_mat c r

/-- Function `util::DecomposeMatrix` (util.cpp 27-67).  `sqrt` is the square root
of the number type, used by `glm::length` and `glm::quat_cast`. -/
def DecomposeMatrix {K : Type} [LinearOrderedField K] (sqrt : K → K)
    (transform_mat : glm.mat4 K) : Decomposition K :=
  let scale_x := glm.length sqrt
    (glm.vec3.mk (transform_mat 0 0) (transform_mat 1 0) (transform_mat 2 0))
  let scale_y := glm.length sqrt
    (glm.vec3.mk (transform_mat 0 1) (transform_mat 1 1) (transform_mat 2 1))
  let scale_z := glm.length sqrt
    (glm.vec3.mk (transform_mat 0 2) (transform_mat 1 2) (transform_mat 2 2))
  let determinant := glm.determinant transform_mat
  let scale_x := if determinant < 0 then -scale_x else scale_x
  let translation := glm.vec3.mk (transform_mat 3 0) (transform_mat 3 1) (transform_mat 3 2)
  let _unscaled := transform_unscaled transform_mat scale_x scale_y scale_z
  let rotation := glm.quat_cast sqrt transform_mat
  { translation := translation, rotation := rotation,
    scale := glm.vec3.mk scale_x scale_y scale_z }

/-- Function `util::DecomposeMatrix` (util.cpp 27-67) in `float` arithmetic, the
number type of `glm::mat4`, `glm::vec3` and of the locals `scale_x`, `scale_y`,
`scale_z` and `determinant`: `fl` rounds the result of each operation and `sqrt` is
the square root of the number type.  The comparison `determinant < 0.0` converts
the `float` to `double`, which is exact.  The local `transform_unscaled` (lines 44-60)
is never read and is left out. -/
def DecomposeMatrix_float {K : Type} [LinearOrderedField K] (fl sqrt : K → K)
    (transform_mat : glm.mat4 K) : Decomposition K :=
  let scale_x := glm.length_float fl sqrt
    (glm.vec3.mk (transform_mat 0 0) (transform_mat 1 0) (transform_mat 2 0))
  let scale_y := glm.length_float fl sqrt
    (glm.vec3.mk (transform_mat 0 1) (transform_mat 1 1) (transform_mat 2 1))
  let scale_z := glm.length_float fl sqrt
    (glm.vec3.mk (transform_mat 0 2) (transform_mat 1 2) (transform_mat 2 2))
  let determinant := glm.determinant_float fl transform_mat
  let scale_x := if determinant < 0 then -scale_x else scale_x
  let translation := glm.vec3.mk (transform_mat 3 0) (transform_mat 3 1) (transform_mat 3 2)
  let rotation := glm.quat_cast_float fl sqrt transform_mat
  { translation := translation, rotation := rotation,
    scale := glm.vec3.mk scale_x scale_y scale_z }

/-- Function `util::GetColumnFromMatrix` (util.cpp 69-71). -/
def GetColumnFromMatrix {K : Type} (mat : glm.mat4 K) (col : Fin 4) : glm.vec3 K :=
  glm.vec3.mk (mat col 0) (mat col 1) (mat col 2)

/-- Function `util::GetTranslationFromMatrix` (util.cpp 73-75). -/
def GetTranslationFromMatrix {K : Type} (mat : glm.mat4 K) : glm.vec3 K :=
  glm.vec3.mk (mat 3 0) (mat 3 1) (mat 3 2)

/-- The matrix rebuilt from a decomposition in the order the specification names:
translate, then rotate, then scale, that is
`translate(t) * mat4_cast(r) * scale(s)`. -/
def recompose {K : Type} [Ring K] (d : Decomposition K) : glm.mat4 K :=
  glm.translate glm.mat4.identity d.translation * glm.mat4_cast d.rotation
    * glm.scale glm.mat4.identity d.scale

end util

/-! ## The application (`CinderTangoApp.cpp`) -/

/-- The fields of class `CinderTangoApp` that `SetupExtrinsics` and `update`
read or write (the render camera `mCam` belongs to the rendering framework and
is left out). -/
structure CinderTangoApp (K : Type) where
  tangoConnected : Bool
  ow_p_oc : glm.vec3 K
  ow_q_oc : glm.quat K
  projection_mat : glm.mat4 K
  projection_mat_ar : glm.mat4 K
  view_mat : glm.mat4 K
  ow_T_ss : glm.mat4 K
  imu_T_device : glm.mat4 K
  imu_T_cc : glm.mat4 K
  cc_T_oc : glm.mat4 K
  ow_T_oc : glm.mat4 K

namespace CinderTangoApp

/-- Method `CinderTangoApp::SetupExtrinsics` (CinderTangoApp.cpp 154-161). -/
def SetupExtrinsics {K : Type} [Ring K] (instance_ : CinderTango K)
    (self : CinderTangoApp K) : CinderTangoApp K :=
  { self with
    imu_T_device :=
      glm.translate glm.mat4.identity instance_.imu_p_device * glm.mat4_cast instance_.imu_q_device,
    imu_T_cc :=
      glm.translate glm.mat4.identity instance_.imu_p_cc * glm.mat4_cast instance_.imu_q_cc }

/-- The matrix `ss_T_device` of `update` (CinderTangoApp.cpp 232-235). -/
def ss_T_device {K : Type} [Ring K] (tango : CinderTango K) : glm.mat4 K :=
  let ss_p_device := tango.tango_position
  let ss_q_device := tango.tango_rotation
  glm.translate glm.mat4.identity ss_p_device * glm.mat4_cast ss_q_device

/-- The expression assigned to `ow_T_oc` in `update` (CinderTangoApp.cpp 236-237),
as a function of its five operands; C++ `*` associates to the left. -/
def compose_ow_T_oc {K : Type} [Field K]
    (ow_T_ss ss_T_device imu_T_device imu_T_cc cc_T_oc : glm.mat4 K) : glm.mat4 K :=
  ow_T_ss * ss_T_device * glm.inverse imu_T_device * imu_T_cc * cc_T_oc

/-- Method `CinderTangoApp::update` (CinderTangoApp.cpp 225-265): the session, the
application and the query log afterwards.  `texture_update` is the outcome of the
`TangoService_updateTexture` call of this frame. -/
def update {K : Type} [LinearOrderedField K] (sqrt : K → K)
    (texture_update : TangoErrorType × K) (svc : PoseService K) (log : List (PoseQuery K))
    (tango : CinderTango K) (self : CinderTangoApp K) :
    CinderTango K × CinderTangoApp K × List (PoseQuery K) :=
  if self.tangoConnected then
    let tango1 := CinderTango.UpdateColorTexture texture_update tango
    let r := CinderTango.GetPoseAtTime svc log tango1
    let tango2 := r.2.1
    let ss_T_device := ss_T_device tango2
    let ow_T_oc :=
      compose_ow_T_oc self.ow_T_ss ss_T_device self.imu_T_device self.imu_T_cc self.cc_T_oc
    let d := util.DecomposeMatrix sqrt ow_T_oc
    let frames_of_reference : TangoCoordinateFramePair :=
      { base := TangoCoordinateFrameType.START_OF_SERVICE,
        target := TangoCoordinateFrameType.DEVICE }
    let r_cam := TangoService_getPoseAtTime svc r.2.2 0 frames_of_reference
    (tango2,
     { self with
       ow_T_oc := ow_T_oc, ow_p_oc := d.translation, ow_q_oc := d.rotation,
       projection_mat := self.projection_mat_ar, view_mat := glm.inverse ow_T_oc },
     r_cam.2)
  else
    (tango, self, log)

end CinderTangoApp

/-! ## Rounding to binary32 -/

namespace binary32

/-- Rounding of a rational to the nearest integer, ties to the even one. -/
def roundNearestEven (q : ℚ) : ℤ :=
  if q - ⌊q⌋ < 1 / 2 then ⌊q⌋
  else if 1 / 2 < q - ⌊q⌋ then ⌊q⌋ + 1
  else if ⌊q⌋ % 2 = 0 then ⌊q⌋ else ⌊q⌋ + 1

/-- The exponent of the spacing of binary32 values around `x`: 23 below the
exponent of `x` (24-bit significand), and -149 in the subnormal range. -/
def ulpExponent (x : ℚ) : ℤ :=
  max (Int.log 2 |x| - 23) (-149)

/-- The binary32 (C++ `float`) value nearest to the rational `x`, ties to even:
the conversion `static_cast<float>` of a `double` and the rounding of every `float`
operation.  Magnitudes of 2^128 and above, which the code turns into infinity, are
outside this model. -/
def round (x : ℚ) : ℚ :=
  (roundNearestEven (x / 2 ^ ulpExponent x) : ℚ) * 2 ^ ulpExponent x

/-- The binary32 square root (`sqrtf`), correctly rounded: the integer square root
of `x * 4 ^ k` carries at least 30 bits, a sticky bit records whether it is exact,
and the result is rounded once.  For a binary32 argument `x * 4 ^ k` is an integer,
so nothing is lost before the rounding.  Arguments below zero, for which the code
returns NaN, are mapped to 0. -/
def sqrt (x : ℚ) : ℚ :=
  if x ≤ 0 then 0
  else
    let k : ℕ := (60 - Int.log 2 x).toNat
    let n : ℕ := ⌊x * 4 ^ k⌋₊
    let s : ℕ := Nat.sqrt n
    let sticky : ℕ := if s * s = n ∧ (n : ℚ) = x * 4 ^ k then 0 else 1
    round (((2 * s + sticky : ℕ) : ℚ) / 2 ^ (k + 1))

end binary32

/-! ## Concrete inputs -/

namespace Examples

/-- A valid pose: translation (1, 2, 3), orientation (x, y, z, w) = (0, 0, 0, 1). -/
def poseA : TangoPoseData ℚ :=
  { translation := ![1, 2, 3], orientation := ![0, 0, 0, 1], status_code := TANGO_POSE_VALID }

/-- A second valid pose: translation (4, 5, 6), orientation (x, y, z, w) = (0, 0, 1, 0). -/
def poseB : TangoPoseData ℚ :=
  { translation := ![4, 5, 6], orientation := ![0, 0, 1, 0], status_code := TANGO_POSE_VALID }

/-- A pose with status `TANGO_POSE_INVALID`. -/
def poseInvalid : TangoPoseData ℚ :=
  { translation := ![7, 8, 9], orientation := ![1, 0, 0, 0], status_code := TANGO_POSE_INVALID }

/-- A session as the constructor leaves it, with texture timestamp 5. -/
def session0 : CinderTango ℚ :=
  { tango_position := glm.vec3.mk 0 0 0, tango_rotation := glm.quat.mk 1 0 0 0,
    status_count := fun _ => 0,
    imu_p_device := glm.vec3.mk 0 0 0, imu_q_device := glm.quat.mk 1 0 0 0,
    imu_p_cc := glm.vec3.mk 0 0 0, imu_q_cc := glm.quat.mk 1 0 0 0,
    is_localized := false, cur_uuid := "", timestamp := 5 }

/-- A session whose counter `status_count[0]` has reached `INT_MAX` (2^31 - 1). -/
def sessionSaturated : CinderTango ℚ :=
  { session0 with status_count := ![2147483647, 0, 0] }

/-- A valid pose whose orientation component x is the `double` nearest to 0.1,
3602879701896397 / 2^55; the other components are 0, 0 and 1. -/
def poseTenth : TangoPoseData ℚ :=
  { translation := ![1, 2, 3],
    orientation := ![3602879701896397 / 36028797018963968, 0, 0, 1],
    status_code := TANGO_POSE_VALID }

/-- Every query succeeds with `poseTenth`. -/
def svcTenth : PoseService ℚ :=
  scriptedService [] (TANGO_SUCCESS, poseTenth)

/-- The transform diag(-1, 2^-80, 2^60, 1); all its entries are `float` values. -/
def tinyRow : glm.mat4 ℚ :=
  ![![-1, 0, 0, 0], ![0, 2 ^ (-80 : ℤ), 0, 0], ![0, 0, 2 ^ (60 : ℤ), 0], ![0, 0, 0, 1]]

/-- The transform diag(-2^-60, 2^-60, 2^-60, 1); all its entries are `float` values. -/
def tinyMirror : glm.mat4 ℚ :=
  ![![-(2 ^ (-60 : ℤ)), 0, 0, 0], ![0, 2 ^ (-60 : ℤ), 0, 0], ![0, 0, 2 ^ (-60 : ℤ), 0],
    ![0, 0, 0, 1]]

/-- The mirror diag(-1, 1, 1, 1). -/
def mirrorX : glm.mat4 ℚ :=
  ![![-1, 0, 0, 0], ![0, 1, 0, 0], ![0, 0, 1, 0], ![0, 0, 0, 1]]

/-- The "now" query fails with `TANGO_ERROR` (-1); the texture query returns `poseA`. -/
def svcTextureOnly : PoseService ℚ :=
  scriptedService [(-1, poseInvalid), (TANGO_SUCCESS, poseA)] (-1, poseInvalid)

/-- The "now" query returns `poseB`; the texture query succeeds with an invalid pose. -/
def svcLatestOnly : PoseService ℚ :=
  scriptedService [(TANGO_SUCCESS, poseB), (TANGO_SUCCESS, poseInvalid)] (-1, poseInvalid)

/-- The "now" query returns `poseB` and the texture query returns `poseA`. -/
def svcBoth : PoseService ℚ :=
  scriptedService [(TANGO_SUCCESS, poseB), (TANGO_SUCCESS, poseA)] (-1, poseInvalid)

/-- Every query fails: the first with `TANGO_ERROR`, the second succeeds with an
invalid pose, and all later ones fail. -/
def svcNone : PoseService ℚ :=
  scriptedService [(-1, poseA), (TANGO_SUCCESS, poseInvalid)] (-1, poseInvalid)

/-- An application whose five matrices are all the identity, connected to the service. -/
def app0 : CinderTangoApp ℚ :=
  { tangoConnected := true,
    ow_p_oc := glm.vec3.mk 0 0 0, ow_q_oc := glm.quat.mk 1 0 0 0,
    projection_mat := glm.mat4.identity, projection_mat_ar := glm.mat4.identity,
    view_mat := glm.mat4.identity, ow_T_ss := glm.mat4.identity,
    imu_T_device := glm.mat4.identity, imu_T_cc := glm.mat4.identity,
    cc_T_oc := glm.mat4.identity, ow_T_oc := glm.mat4.identity }

/-- Two frames: in the first both pose queries of `GetPoseAtTime` are valid, in the
second both are invalid (queries 3 and 4; query 2 is the camera query of `update`). -/
def svcThenNone : PoseService ℚ :=
  scriptedService
    [(TANGO_SUCCESS, poseB), (TANGO_SUCCESS, poseA), (TANGO_SUCCESS, poseA),
     (-1, poseA), (TANGO_SUCCESS, poseInvalid)]
    (-1, poseInvalid)

/-- A device matrix: the translation by (1, 2, 3). -/
def matD : glm.mat4 ℚ := ![![1, 0, 0, 0], ![0, 1, 0, 0], ![0, 0, 1, 0], ![1, 2, 3, 1]]

/-- An IMU-to-device matrix of determinant 2: a quarter turn about z scaled by 2 along
its first column, with translation (1, 0, 0). -/
def matA : glm.mat4 ℚ := ![![0, 2, 0, 0], ![-1, 0, 0, 0], ![0, 0, 1, 0], ![1, 0, 0, 1]]

/-- An IMU-to-camera matrix: a half turn about x with translation (0, 1, 0). -/
def matC : glm.mat4 ℚ := ![![1, 0, 0, 0], ![0, -1, 0, 0], ![0, 0, -1, 0], ![0, 1, 0, 1]]

/-- The rotation by a quarter turn about the z axis. -/
def quarterTurn (K : Type) [Ring K] : glm.mat4 K :=
  ![![0, 1, 0, 0], ![-1, 0, 0, 0], ![0, 0, 1, 0], ![0, 0, 0, 1]]

/-- The scaling by (2, 1, 1), as `glm::scale` builds it. -/
def scale211 (K : Type) [Ring K] : glm.mat4 K :=
  ![![2, 0, 0, 0], ![0, 1, 0, 0], ![0, 0, 1, 0], ![0, 0, 0, 1]]

/-- The product `quarterTurn * scale211`, written out: a quarter turn about z
applied after the scaling (2, 1, 1).  Its columns are (0, 2, 0, 0), (-1, 0, 0, 0),
(0, 0, 1, 0) and (0, 0, 0, 1). -/
def quarterTurnScaled (K : Type) [Ring K] : glm.mat4 K :=
  ![![0, 2, 0, 0], ![-1, 0, 0, 0], ![0, 0, 1, 0], ![0, 0, 0, 1]]

/-- A mirrored transform: the scaling (-2, 3, 1) followed by the translation (4, 5, 6). -/
def mirrored (K : Type) [Ring K] : glm.mat4 K :=
  ![![-2, 0, 0, 0], ![0, 3, 0, 0], ![0, 0, 1, 0], ![4, 5, 6, 1]]

/-- A second matrix with the fourth column (1, 2, 3, 1) of `matD` and different
entries elsewhere. -/
def matD2 : glm.mat4 ℚ := ![![0, 2, 0, 0], ![-1, 0, 0, 0], ![0, 0, 5, 0], ![1, 2, 3, 1]]

/-- A `TangoData` session as the constructor leaves it, with texture timestamp 5. -/
def tsession0 : TangoData ℚ :=
  { tango_position := glm.vec3.mk 0 0 0, tango_rotation := glm.quat.mk 1 0 0 0,
    status_count := fun _ => 0,
    imu_p_device := glm.vec3.mk 0 0 0, imu_q_device := glm.quat.mk 1 0 0 0,
    imu_p_cc := glm.vec3.mk 0 0 0, imu_q_cc := glm.quat.mk 1 0 0 0,
    is_localized := false, timestamp := 5 }

/-- The first extrinsics query succeeds with `poseB`, the second fails. -/
def svcDeviceOnly : PoseService ℚ :=
  scriptedService [(TANGO_SUCCESS, poseB), (-1, poseA)] (-1, poseInvalid)

/-- A configuration service whose calls all succeed and whose map list holds the
three UUIDs "ab", "c" and "de". -/
def cfgThree : ConfigService :=
  { getConfig := true, setBool := fun _ _ => TANGO_SUCCESS,
    connectOnTangoEvent := TANGO_SUCCESS,
    getAreaDescriptionUUIDList := (TANGO_SUCCESS, some "ab,c,de".toList),
    setString := fun _ _ => TANGO_SUCCESS }

/-- A configuration service whose calls all succeed and whose map list is the
null pointer. -/
def cfgNull : ConfigService :=
  { getConfig := true, setBool := fun _ _ => TANGO_SUCCESS,
    connectOnTangoEvent := TANGO_SUCCESS,
    getAreaDescriptionUUIDList := (TANGO_SUCCESS, none),
    setString := fun _ _ => TANGO_SUCCESS }

/-- A configuration service whose calls all succeed and whose map list is the
empty string. -/
def cfgEmpty : ConfigService :=
  { getConfig := true, setBool := fun _ _ => TANGO_SUCCESS,
    connectOnTangoEvent := TANGO_SUCCESS,
    getAreaDescriptionUUIDList := (TANGO_SUCCESS, some []),
    setString := fun _ _ => TANGO_SUCCESS }

/-- The uniform scaling by 2 without rotation or translation, diag(2, 2, 2, 1). -/
def scale2 (K : Type) [Ring K] : glm.mat4 K :=
  ![![2, 0, 0, 0], ![0, 2, 0, 0], ![0, 0, 2, 0], ![0, 0, 0, 1]]

/-- The transform `translate(4, 5, 6) * quarterTurn * scale(3, 3, 3)`, written out:
a uniform scaling by 3, then a quarter turn about z, then a translation. -/
def turnedScaled3 (K : Type) [Ring K] : glm.mat4 K :=
  ![![0, 3, 0, 0], ![-3, 0, 0, 0], ![0, 0, 3, 0], ![4, 5, 6, 1]]

/-- The rotation by a half turn about the x axis. -/
def halfTurnX (K : Type) [Ring K] : glm.mat4 K :=
  ![![1, 0, 0, 0], ![0, -1, 0, 0], ![0, 0, -1, 0], ![0, 0, 0, 1]]

/-- A connected application whose correction matrices are a quarter turn about z
and a half turn about x. -/
def appRotations : CinderTangoApp ℚ :=
  { app0 with ow_T_ss := quarterTurn ℚ, cc_T_oc := halfTurnX ℚ }

/-- A configuration service whose calls all succeed and whose map list is the
string ",,," of three commas. -/
def cfgCommas : ConfigService :=
  { getConfig := true, setBool := fun _ _ => TANGO_SUCCESS,
    connectOnTangoEvent := TANGO_SUCCESS,
    getAreaDescriptionUUIDList := (TANGO_SUCCESS, some ",,,".toList),
    setString := fun _ _ => TANGO_SUCCESS }

end Examples

/-! ## Algebra of `glm::mat4` -/

namespace glm

theorem mat4.mul_apply {K : Type} [Add K] [Mul K] (a b : mat4 K) (c r : Fin 4) :
    (a * b) c r = a 0 r * b c 0 + a 1 r * b c 1 + a 2 r * b c 2 + a 3 r * b c 3 := rfl

theorem mat4.identity_mul {K : Type} [Semiring K] (a : mat4 K) : mat4.identity * a = a := by
  funext c r
  fin_cases r <;> simp [mat4.mul_apply, mat4.identity]

theorem mat4.mul_identity {K : Type} [Semiring K] (a : mat4 K) : a * mat4.identity = a := by
  funext c r
  fin_cases c <;> simp [mat4.mul_apply, mat4.identity]

theorem mat4.mul_assoc {K : Type} [CommSemiring K] (a b c : mat4 K) : a * b * c = a * (b * c) := by
  funext i j
  simp only [mat4.mul_apply]
  ring

theorem inverse_dot {K : Type} [CommRing K] (m : mat4 K) :
    (m 0 0 * inverseCofactors m 0 0 + m 0 1 * inverseCofactors m 1 0)
      + (m 0 2 * inverseCofactors m 2 0 + m 0 3 * inverseCofactors m 3 0) = determinant m := by
  simp [inverseCofactors, determinant]; ring

theorem inverse_apply {K : Type} [Field K] (m : mat4 K) (c r : Fin 4) :
    inverse m c r = inverseCofactors m c r * (1 / determinant m) := by
  rw [← inverse_dot]; rfl

theorem mul_inverseCofactors {K : Type} [CommRing K] (m : mat4 K) (c r : Fin 4) :
    m 0 r * inverseCofactors m c 0 + m 1 r * inverseCofactors m c 1
      + m 2 r * inverseCofactors m c 2 + m 3 r * inverseCofactors m c 3
      = if c = r then determinant m else 0 := by
  fin_cases c <;> fin_cases r <;> simp [inverseCofactors, determinant] <;> ring

theorem inverseCofactors_mul {K : Type} [CommRing K] (m : mat4 K) (c r : Fin 4) :
    inverseCofactors m 0 r * m c 0 + inverseCofactors m 1 r * m c 1
      + inverseCofactors m 2 r * m c 2 + inverseCofactors m 3 r * m c 3
      = if c = r then determinant m else 0 := by
  fin_cases c <;> fin_cases r <;> simp [inverseCofactors, determinant] <;> ring

/-- For a matrix of non-zero determinant `glm::inverse` is a right inverse. -/
theorem mul_inverse {K : Type} [Field K] (m : mat4 K) (h : determinant m ≠ 0) :
    m * inverse m = mat4.identity := by
  funext c r
  have e : (m * inverse m) c r
      = (m 0 r * inverseCofactors m c 0 + m 1 r * inverseCofactors m c 1
          + m 2 r * inverseCofactors m c 2 + m 3 r * inverseCofactors m c 3)
        * (1 / determinant m) := by
    simp only [mat4.mul_apply, inverse_apply]; ring
  rw [e, mul_inverseCofactors]
  unfold mat4.identity
  split_ifs <;> field_simp

/-- For a matrix of non-zero determinant `glm::inverse` is a left inverse. -/
theorem inverse_mul {K : Type} [Field K] (m : mat4 K) (h : determinant m ≠ 0) :
    inverse m * m = mat4.identity := by
  funext c r
  have e : (inverse m * m) c r
      = (inverseCofactors m 0 r * m c 0 + inverseCofactors m 1 r * m c 1
          + inverseCofactors m 2 r * m c 2 + inverseCofactors m 3 r * m c 3)
        * (1 / determinant m) := by
    simp only [mat4.mul_apply, inverse_apply]; ring
  rw [e, inverseCofactors_mul]
  unfold mat4.identity
  split_ifs <;> field_simp

end glm

/-! ## Properties of the rounding to binary32 -/

namespace binary32

/-- Rounding to the nearest integer keeps non-negative values non-negative. -/
theorem roundNearestEven_nonneg (q : ℚ) (h : 0 ≤ q) : 0 ≤ roundNearestEven q := by
  have hf : 0 ≤ ⌊q⌋ := Int.floor_nonneg.mpr h
  unfold roundNearestEven
  split_ifs <;> omega

/-- An integer is its own nearest integer. -/
theorem roundNearestEven_intCast (n : ℤ) : roundNearestEven (n : ℚ) = n := by
  simp [roundNearestEven]

/-- Rounding keeps non-negative values non-negative. -/
theorem round_nonneg (x : ℚ) (h : 0 ≤ x) : 0 ≤ round x := by
  unfold round
  have hp : (0 : ℚ) < 2 ^ ulpExponent x := by positivity
  have hq : 0 ≤ x / 2 ^ ulpExponent x := div_nonneg h hp.le
  have := roundNearestEven_nonneg _ hq
  have hc : (0 : ℚ) ≤ (roundNearestEven (x / 2 ^ ulpExponent x) : ℚ) := by exact_mod_cast this
  exact mul_nonneg hc hp.le

/-- The square root is never negative. -/
theorem sqrt_nonneg (x : ℚ) : 0 ≤ sqrt x := by
  unfold sqrt
  split_ifs
  · exact le_refl _
  · apply round_nonneg
    positivity

/-- A value that is an integer multiple of its own spacing is kept by rounding. -/
theorem round_of_multiple (x : ℚ) (n : ℤ) (h : x = n * 2 ^ ulpExponent x) : round x = x := by
  have hp : (2 : ℚ) ^ ulpExponent x ≠ 0 := by positivity
  have hq : x / 2 ^ ulpExponent x = n := by
    rw [div_eq_iff hp]; exact h
  unfold round
  rw [hq, roundNearestEven_intCast]
  exact h.symm

/-- The binary exponent of a value between 2^e and 2^(e+1). -/
theorem log_eq_of_binade (x : ℚ) (e : ℤ) (h1 : (2 : ℚ) ^ e ≤ x) (h2 : x < 2 ^ (e + 1)) :
    Int.log 2 x = e := by
  have hx : 0 < x := lt_of_lt_of_le (by positivity) h1
  apply le_antisymm
  · have := (Int.lt_zpow_iff_log_lt (b := 2) (by norm_num) hx (x := e + 1)).mp
      (by exact_mod_cast h2)
    omega
  · exact (Int.zpow_le_iff_le_log (b := 2) (by norm_num) hx).mp (by exact_mod_cast h1)

/-- Zero is a binary32 value. -/
theorem round_zero : round 0 = 0 := by
  simp [round, roundNearestEven]

/-- The square root of zero is zero. -/
theorem sqrt_zero : sqrt 0 = 0 := by
  simp [sqrt]

/-- Powers of two from 2^-149 on are binary32 values. -/
theorem round_two_zpow (e : ℤ) (he : -149 ≤ e) : round (2 ^ e) = 2 ^ e := by
  have hlog : Int.log 2 |(2 : ℚ) ^ e| = e := by
    rw [abs_of_pos (by positivity)]
    exact log_eq_of_binade _ e (le_refl _) (by
      rw [zpow_add₀ (by norm_num : (2 : ℚ) ≠ 0)]
      have : (0 : ℚ) < 2 ^ e := by positivity
      linarith [this])
  have hu : ulpExponent ((2 : ℚ) ^ e) ≤ e := by
    unfold ulpExponent; rw [hlog]; omega
  apply round_of_multiple _ (2 ^ (e - ulpExponent ((2 : ℚ) ^ e)).toNat)
  have hnat : ((e - ulpExponent ((2 : ℚ) ^ e)).toNat : ℤ) = e - ulpExponent ((2 : ℚ) ^ e) :=
    Int.toNat_of_nonneg (by omega)
  push_cast
  rw [← zpow_natCast, hnat, ← zpow_add₀ (by norm_num : (2 : ℚ) ≠ 0)]
  congr 1
  omega

/-- The negated powers of two from 2^-149 on are binary32 values. -/
theorem round_neg_two_zpow (e : ℤ) (he : -149 ≤ e) : round (-(2 ^ e)) = -(2 ^ e) := by
  have hlog : Int.log 2 |(-((2 : ℚ) ^ e))| = e := by
    rw [abs_neg, abs_of_pos (by positivity)]
    exact log_eq_of_binade _ e (le_refl _) (by
      rw [zpow_add₀ (by norm_num : (2 : ℚ) ≠ 0)]
      have : (0 : ℚ) < 2 ^ e := by positivity
      linarith [this])
  have hu : ulpExponent (-((2 : ℚ) ^ e)) ≤ e := by
    unfold ulpExponent; rw [hlog]; omega
  apply round_of_multiple _ (-(2 ^ (e - ulpExponent (-((2 : ℚ) ^ e))).toNat))
  have hnat : ((e - ulpExponent (-((2 : ℚ) ^ e))).toNat : ℤ)
      = e - ulpExponent (-((2 : ℚ) ^ e)) := Int.toNat_of_nonneg (by omega)
  push_cast
  rw [← zpow_natCast, hnat, neg_mul, ← zpow_add₀ (by norm_num : (2 : ℚ) ≠ 0)]
  congr 2
  omega

/-- One is a binary32 value. -/
theorem round_one : round 1 = 1 := by
  have h := round_two_zpow 0 (by norm_num)
  simpa using h

/-- The `double` nearest to 0.1 is not a binary32 value: it narrows to
13421773 / 2^27. -/
theorem round_tenth :
    round (3602879701896397 / 36028797018963968) = 13421773 / 134217728 := by
  have hlog : Int.log 2 |(3602879701896397 / 36028797018963968 : ℚ)| = -4 := by
    rw [abs_of_pos (by norm_num)]
    exact log_eq_of_binade _ (-4) (by norm_num) (by norm_num)
  have hu : ulpExponent (3602879701896397 / 36028797018963968 : ℚ) = -27 := by
    unfold ulpExponent; rw [hlog]; rfl
  unfold round
  rw [hu]
  have hfl : ⌊(3602879701896397 / 36028797018963968 : ℚ) / 2 ^ (-27 : ℤ)⌋ = 13421772 := by
    rw [Int.floor_eq_iff]; norm_num
  simp only [roundNearestEven, hfl]
  norm_num

/-- The nearest integer is not below the floor. -/
theorem floor_le_roundNearestEven (q : ℚ) : ⌊q⌋ ≤ roundNearestEven q := by
  unfold roundNearestEven
  split_ifs <;> omega

/-- Values of magnitude below one half have nearest integer zero. -/
theorem roundNearestEven_of_abs_lt_half (q : ℚ) (h : |q| < 1 / 2) :
    roundNearestEven q = 0 := by
  have h1 := (abs_lt.mp h).1
  have h2 := (abs_lt.mp h).2
  rcases le_or_lt 0 q with hq | hq
  · have hfl : ⌊q⌋ = 0 := by
      rw [Int.floor_eq_iff]; constructor <;> norm_num <;> linarith
    simp only [roundNearestEven, hfl]
    rw [if_pos (by simpa using h2)]
  · have hfl : ⌊q⌋ = -1 := by
      rw [Int.floor_eq_iff]; constructor <;> norm_num <;> linarith
    simp only [roundNearestEven, hfl]
    rw [if_neg (by norm_num; linarith), if_pos (by norm_num; linarith)]
    norm_num

/-- The spacing of binary32 values is never below 2^-149. -/
theorem neg_149_le_ulpExponent (x : ℚ) : -149 ≤ ulpExponent x :=
  le_max_right _ _

/-- Magnitudes below 2^-150, half the smallest positive binary32 value, round to
zero. -/
theorem round_of_abs_lt (x : ℚ) (h : |x| < 2 ^ (-150 : ℤ)) : round x = 0 := by
  have hu : (2 : ℚ) ^ (-149 : ℤ) ≤ 2 ^ ulpExponent x :=
    zpow_le_zpow_right₀ (by norm_num) (neg_149_le_ulpExponent x)
  have hp : (0 : ℚ) < 2 ^ ulpExponent x := by positivity
  have hq : |x / 2 ^ ulpExponent x| < 1 / 2 := by
    rw [abs_div, abs_of_pos hp, div_lt_iff₀ hp]
    calc |x| < 2 ^ (-150 : ℤ) := h
      _ = 1 / 2 * 2 ^ (-149 : ℤ) := by norm_num
      _ ≤ 1 / 2 * 2 ^ ulpExponent x := by
        apply mul_le_mul_of_nonneg_left hu; norm_num
  unfold round
  rw [roundNearestEven_of_abs_lt_half _ hq]
  simp

/-- From 2^-149 on, the spacing around a value does not exceed the value. -/
theorem two_zpow_ulpExponent_le (v : ℚ) (hv : 2 ^ (-149 : ℤ) ≤ v) :
    2 ^ ulpExponent v ≤ v := by
  have hpos : 0 < v := lt_of_lt_of_le (by positivity) hv
  unfold ulpExponent
  rw [abs_of_pos hpos]
  rcases le_total (Int.log 2 v - 23) (-149) with h | h
  · rw [max_eq_right h]; exact hv
  · rw [max_eq_left h]
    calc (2 : ℚ) ^ (Int.log 2 v - 23) ≤ 2 ^ Int.log 2 v :=
          zpow_le_zpow_right₀ (by norm_num) (by omega)
      _ ≤ v := by
          have := Int.zpow_log_le_self (b := 2) (by norm_num) hpos
          exact_mod_cast this

/-- Values from 2^-149 on, the smallest positive binary32 value, round to positive
values. -/
theorem round_pos_of_ge (v : ℚ) (hv : 2 ^ (-149 : ℤ) ≤ v) : 0 < round v := by
  have hp : (0 : ℚ) < 2 ^ ulpExponent v := by positivity
  have hq : 1 ≤ v / 2 ^ ulpExponent v := by
    rw [le_div_iff₀ hp, one_mul]; exact two_zpow_ulpExponent_le v hv
  have hfl : 1 ≤ ⌊v / 2 ^ ulpExponent v⌋ := by
    rw [Int.le_floor]; exact_mod_cast hq
  have hr : 1 ≤ roundNearestEven (v / 2 ^ ulpExponent v) :=
    le_trans hfl (floor_le_roundNearestEven _)
  unfold round
  have hc : (0 : ℚ) < (roundNearestEven (v / 2 ^ ulpExponent v) : ℚ) := by
    exact_mod_cast lt_of_lt_of_le zero_lt_one hr
  exact mul_pos hc hp

/-- A positive rounded value is at least 2^-149. -/
theorem ge_of_round_pos (x : ℚ) (h : 0 < round x) : 2 ^ (-149 : ℤ) ≤ round x := by
  have hp : (0 : ℚ) < 2 ^ ulpExponent x := by positivity
  unfold round at h ⊢
  have hn : (0 : ℚ) < (roundNearestEven (x / 2 ^ ulpExponent x) : ℚ) :=
    pos_of_mul_pos_left h hp.le
  have hn1 : (1 : ℤ) ≤ roundNearestEven (x / 2 ^ ulpExponent x) := by
    have : (0 : ℤ) < roundNearestEven (x / 2 ^ ulpExponent x) := by exact_mod_cast hn
    omega
  have hn2 : (1 : ℚ) ≤ (roundNearestEven (x / 2 ^ ulpExponent x) : ℚ) := by
    exact_mod_cast hn1
  calc (2 : ℚ) ^ (-149 : ℤ) ≤ 2 ^ ulpExponent x :=
        zpow_le_zpow_right₀ (by norm_num) (neg_149_le_ulpExponent x)
    _ = 1 * 2 ^ ulpExponent x := (one_mul _).symm
    _ ≤ _ := mul_le_mul_of_nonneg_right hn2 hp.le

/-- The square root of a value from 2^-149 on is positive. -/
theorem sqrt_pos_of_ge (y : ℚ) (hy : 2 ^ (-149 : ℤ) ≤ y) : 0 < sqrt y := by
  have hpos : 0 < y := lt_of_lt_of_le (by positivity) hy
  unfold sqrt
  rw [if_neg (not_le.mpr hpos)]
  apply round_pos_of_ge
  set k : ℕ := (60 - Int.log 2 y).toNat with hk
  set n : ℕ := ⌊y * 4 ^ k⌋₊ with hn
  set s : ℕ := Nat.sqrt n with hs
  have h4k : (0 : ℚ) < 4 ^ k := by positivity
  have h2k : (0 : ℚ) < 2 ^ k := by positivity
  -- the scaled argument is at least 1
  have hy1 : 1 ≤ y * 4 ^ k := by
    have hlog : (2 : ℚ) ^ Int.log 2 y ≤ y := by
      have := Int.zpow_log_le_self (b := 2) (by norm_num) hpos
      exact_mod_cast this
    rcases le_or_lt (Int.log 2 y) 60 with hle | hgt
    · have hkz : (k : ℤ) = 60 - Int.log 2 y := Int.toNat_of_nonneg (by omega)
      have h4 : (4 : ℚ) ^ k = 2 ^ (2 * (k : ℤ)) := by
        rw [zpow_mul, zpow_natCast]; norm_num
      calc (1 : ℚ) = 2 ^ (0 : ℤ) := by norm_num
        _ ≤ 2 ^ (Int.log 2 y + 2 * (k : ℤ)) :=
            zpow_le_zpow_right₀ (by norm_num) (by omega)
        _ = 2 ^ Int.log 2 y * 2 ^ (2 * (k : ℤ)) := zpow_add₀ (by norm_num) _ _
        _ = 2 ^ Int.log 2 y * 4 ^ k := by rw [h4]
        _ ≤ y * 4 ^ k := mul_le_mul_of_nonneg_right hlog h4k.le
    · have hk0 : k = 0 := by
        rw [hk]; exact Int.toNat_eq_zero.mpr (by omega)
      rw [hk0, pow_zero, mul_one]
      calc (1 : ℚ) = 2 ^ (0 : ℤ) := by norm_num
        _ ≤ 2 ^ Int.log 2 y := zpow_le_zpow_right₀ (by norm_num) (by omega)
        _ ≤ y := hlog
  have hn1 : 1 ≤ n := by
    rw [hn]; exact Nat.le_floor (by exact_mod_cast hy1)
  have hs1 : 1 ≤ s := Nat.sqrt_pos.mpr hn1
  have hlt : n < (s + 1) * (s + 1) := Nat.lt_succ_sqrt n
  have hfloor : y * 4 ^ k < (n : ℚ) + 1 := Nat.lt_floor_add_one _
  have hS1 : (1 : ℚ) ≤ (s : ℚ) := by exact_mod_cast hs1
  have hle : ((n : ℚ) + 1) ≤ ((s : ℚ) + 1) * ((s : ℚ) + 1) := by
    have : n + 1 ≤ (s + 1) * (s + 1) := hlt
    exact_mod_cast this
  have hbound : y * 4 ^ k < 4 * ((s : ℚ) * (s : ℚ)) := by nlinarith
  -- hence s / 2 ^ k is at least 2 ^ (-149)
  have hSk : (2 : ℚ) ^ (-149 : ℤ) * 2 ^ k ≤ (s : ℚ) := by
    by_contra hcon
    have hcon' : (s : ℚ) < 2 ^ (-149 : ℤ) * 2 ^ k := not_le.mp hcon
    have hsq : (s : ℚ) * (s : ℚ) < (2 ^ (-149 : ℤ) * 2 ^ k) * (2 ^ (-149 : ℤ) * 2 ^ k) :=
      mul_self_lt_mul_self (by linarith) hcon'
    have h44 : ((2 : ℚ) ^ k) * 2 ^ k = 4 ^ k := by
      rw [← mul_pow]; norm_num
    have hc2 : (2 ^ (-149 : ℤ) * (2 : ℚ) ^ k) * (2 ^ (-149 : ℤ) * 2 ^ k)
        = 2 ^ (-298 : ℤ) * 4 ^ k := by
      rw [← h44]
      have : (2 : ℚ) ^ (-298 : ℤ) = 2 ^ (-149 : ℤ) * 2 ^ (-149 : ℤ) := by
        rw [← zpow_add₀ (by norm_num : (2 : ℚ) ≠ 0)]; norm_num
      rw [this]; ring
    rw [hc2] at hsq
    have h1 : (2 : ℚ) ^ (-149 : ℤ) * 4 ^ k ≤ y * 4 ^ k :=
      mul_le_mul_of_nonneg_right hy h4k.le
    have h2 : 4 * ((2 : ℚ) ^ (-298 : ℤ) * 4 ^ k) ≤ 2 ^ (-149 : ℤ) * 4 ^ k := by
      have : 4 * (2 : ℚ) ^ (-298 : ℤ) ≤ 2 ^ (-149 : ℤ) := by
        have h4 : (4 : ℚ) = 2 ^ (2 : ℤ) := by norm_num
        rw [h4, ← zpow_add₀ (by norm_num : (2 : ℚ) ≠ 0)]
        exact zpow_le_zpow_right₀ (by norm_num) (by norm_num)
      calc 4 * ((2 : ℚ) ^ (-298 : ℤ) * 4 ^ k) = (4 * 2 ^ (-298 : ℤ)) * 4 ^ k := by ring
        _ ≤ 2 ^ (-149 : ℤ) * 4 ^ k := mul_le_mul_of_nonneg_right this h4k.le
    linarith
  have h2k1 : (0 : ℚ) < 2 ^ (k + 1) := by positivity
  rw [le_div_iff₀ h2k1]
  push_cast
  have hst : (0 : ℚ) ≤ ((if s * s = n ∧ (n : ℚ) = y * 4 ^ k then 0 else 1 : ℕ) : ℚ) := by
    positivity
  have : (2 : ℚ) ^ (-149 : ℤ) * 2 ^ (k + 1) = 2 * (2 ^ (-149 : ℤ) * 2 ^ k) := by
    rw [pow_succ]; ring
  rw [this]
  push_cast at hst
  linarith

/-- The square root of a positive binary32 value is positive. -/
theorem sqrt_round_pos (x : ℚ) (h : 0 < round x) : 0 < sqrt (round x) :=
  sqrt_pos_of_ge _ (ge_of_round_pos x h)

/-- Minus one is a binary32 value. -/
theorem round_neg_one : round (-1) = -1 := by
  have h := round_neg_two_zpow 0 (by norm_num)
  simpa using h

/-- The square root of 4 is 2. -/
theorem sqrt_four : sqrt 4 = 2 := by
  have hlog : Int.log 2 (4 : ℚ) = 2 := log_eq_of_binade 4 2 (by norm_num) (by norm_num)
  have hfloor : ⌊(4 : ℚ) * 4 ^ 58⌋₊ = (2 ^ 59) ^ 2 := by
    have : (4 : ℚ) * 4 ^ 58 = (((2 ^ 59) ^ 2 : ℕ) : ℚ) := by norm_num
    rw [this, Nat.floor_natCast]
  have hsqrt : Nat.sqrt ((2 ^ 59) ^ 2) = 2 ^ 59 := Nat.sqrt_eq' _
  have h2 : round 2 = 2 := by
    have h := round_two_zpow 1 (by norm_num)
    simpa using h
  unfold sqrt
  rw [if_neg (by norm_num), hlog]
  have hk : (60 - (2 : ℤ)).toNat = 58 := rfl
  simp only [hk, hfloor, hsqrt]
  rw [if_pos ⟨by ring, by norm_num⟩]
  have : (((2 * 2 ^ 59 + 0 : ℕ) : ℚ)) / 2 ^ (58 + 1) = 2 := by norm_num
  rw [this, h2]

/-- Ties go to the even neighbour: 2^24 + 1 rounds down to 2^24 and 2^24 + 3 rounds
up to 2^24 + 4. -/
theorem round_ties_to_even : round 16777217 = 16777216 ∧ round 16777219 = 16777220 := by
  have hlog1 : Int.log 2 |(16777217 : ℚ)| = 24 := by
    rw [abs_of_pos (by norm_num)]
    exact log_eq_of_binade _ 24 (by norm_num) (by norm_num)
  have hlog2 : Int.log 2 |(16777219 : ℚ)| = 24 := by
    rw [abs_of_pos (by norm_num)]
    exact log_eq_of_binade _ 24 (by norm_num) (by norm_num)
  have hu1 : ulpExponent (16777217 : ℚ) = 1 := by
    unfold ulpExponent; rw [hlog1]; rfl
  have hu2 : ulpExponent (16777219 : ℚ) = 1 := by
    unfold ulpExponent; rw [hlog2]; rfl
  have hfl1 : ⌊(16777217 : ℚ) / 2 ^ (1 : ℤ)⌋ = 8388608 := by
    rw [Int.floor_eq_iff]; norm_num
  have hfl2 : ⌊(16777219 : ℚ) / 2 ^ (1 : ℤ)⌋ = 8388609 := by
    rw [Int.floor_eq_iff]; norm_num
  constructor
  · unfold round
    rw [hu1]
    simp only [roundNearestEven, hfl1]
    norm_num
  · unfold round
    rw [hu2]
    simp only [roundNearestEven, hfl2]
    norm_num

end binary32

/-! ## Pose sampling: `GetPoseAtTime` -/

namespace CinderTango

/-- The session after `GetPoseAtTime`, in terms of the two answers. -/
theorem GetPoseAtTime_session {K : Type} [Zero K] (svc : PoseService K)
    (log : List (PoseQuery K)) (s : CinderTango K) :
    (GetPoseAtTime svc log s).2.1 =
      if PoseOk (latestAnswer svc log s) then
        let pose := if PoseOk (textureAnswer svc log s) then (textureAnswer svc log s).2
                    else (latestAnswer svc log s).2
        { s with
          tango_position :=
            glm.vec3.mk (pose.translation 0) (pose.translation 1) (pose.translation 2),
          tango_rotation := glm.quat.mk (pose.orientation 3) (pose.orientation 0)
                              (pose.orientation 1) (pose.orientation 2) }
      else s := by
  simp only [GetPoseAtTime, latestAnswer, textureAnswer, poseFramePair, PoseOk,
    TangoService_getPoseAtTime, Bool.and_eq_true, decide_eq_true_eq]
  split_ifs <;> rfl

/-- C1 (as stated) fails.  With the "now" query failing and the frame-timestamped
query returning a valid pose, `GetPoseAtTime` does not store the frame-timestamped
sample: position and rotation keep their earlier values. -/
theorem GetPoseAtTime_drops_texture_sample_when_latest_invalid :
    ¬ PoseOk (latestAnswer Examples.svcTextureOnly [] Examples.session0) ∧
    PoseOk (textureAnswer Examples.svcTextureOnly [] Examples.session0) ∧
    ¬ StoresPose (textureAnswer Examples.svcTextureOnly [] Examples.session0).2
        (GetPoseAtTime Examples.svcTextureOnly [] Examples.session0).2.1 ∧
    (GetPoseAtTime Examples.svcTextureOnly [] Examples.session0).2.1.tango_position
      = Examples.session0.tango_position ∧
    (GetPoseAtTime Examples.svcTextureOnly [] Examples.session0).2.1.tango_rotation
      = Examples.session0.tango_rotation := by
  decide

/-- C1 (amended).  For every service, log and session: if the "now" query is
success-and-valid, the stored position and rotation are taken from the
frame-timestamped sample when that one is success-and-valid too, and from the "now"
sample otherwise; if the "now" query is not success-and-valid, position and rotation
are left as they were, whatever the frame-timestamped query returned. -/
theorem GetPoseAtTime_selection {K : Type} [Zero K] (svc : PoseService K)
    (log : List (PoseQuery K)) (s : CinderTango K) :
    (PoseOk (latestAnswer svc log s) → PoseOk (textureAnswer svc log s) →
      StoresPose (textureAnswer svc log s).2 (GetPoseAtTime svc log s).2.1) ∧
    (PoseOk (latestAnswer svc log s) → ¬ PoseOk (textureAnswer svc log s) →
      StoresPose (latestAnswer svc log s).2 (GetPoseAtTime svc log s).2.1) ∧
    (¬ PoseOk (latestAnswer svc log s) →
      (GetPoseAtTime svc log s).2.1.tango_position = s.tango_position ∧
      (GetPoseAtTime svc log s).2.1.tango_rotation = s.tango_rotation) := by
  rw [GetPoseAtTime_session]
  refine ⟨fun h1 h2 => ?_, fun h1 h2 => ?_, fun h1 => ?_⟩
  · simp [h1, h2, StoresPose]
  · simp [h1, h2, StoresPose]
  · simp [h1]

/-- C1 (amended), at concrete inputs: one run for each of the three cases. -/
theorem GetPoseAtTime_selection_witness :
    StoresPose Examples.poseA (GetPoseAtTime Examples.svcBoth [] Examples.session0).2.1 ∧
    StoresPose Examples.poseB (GetPoseAtTime Examples.svcLatestOnly [] Examples.session0).2.1 ∧
    (GetPoseAtTime Examples.svcTextureOnly [] Examples.session0).2.1.tango_position
      = glm.vec3.mk 0 0 0 :=
  ⟨(GetPoseAtTime_selection Examples.svcBoth [] Examples.session0).1
      (by decide) (by decide),
   (GetPoseAtTime_selection Examples.svcLatestOnly [] Examples.session0).2.1
      (by decide) (by decide),
   ((GetPoseAtTime_selection Examples.svcTextureOnly [] Examples.session0).2.2
      (by decide)).1⟩

/-- C2: evaluation at the failing input.  With the "now" query failing and the
frame-timestamped query returning a pose of status `TANGO_POSE_INVALID`, both
queries are invalid and `GetPoseAtTime` returns `true`. -/
theorem GetPoseAtTime_both_invalid_returns_true :
    ¬ PoseOk (latestAnswer Examples.svcNone [] Examples.session0) ∧
    ¬ PoseOk (textureAnswer Examples.svcNone [] Examples.session0) ∧
    (GetPoseAtTime Examples.svcNone [] Examples.session0).1 = true := by
  decide

/-- When the "now" query is not usable, `GetPoseAtTime` leaves the whole session as it was. -/
theorem GetPoseAtTime_session_of_latest_invalid {K : Type} [Zero K] (svc : PoseService K)
    (log : List (PoseQuery K)) (s : CinderTango K) (h : ¬ PoseOk (latestAnswer svc log s)) :
    (GetPoseAtTime svc log s).2.1 = s := by
  rw [GetPoseAtTime_session, if_neg h]

/-- C5.  `GetPoseAtTime` issues exactly two pose queries, appended to the log in
this order: one at timestamp 0 and one at the stored texture timestamp, both with
the frame pair whose target is DEVICE and whose base is AREA_DESCRIPTION when
`is_localized` is true and START_OF_SERVICE when it is false; the call changes
neither `is_localized` nor the stored timestamp. -/
theorem GetPoseAtTime_queries {K : Type} [Zero K] (svc : PoseService K)
    (log : List (PoseQuery K)) (s : CinderTango K) :
    (GetPoseAtTime svc log s).2.2 =
      log ++
        [PoseQuery.mk 0
           (TangoCoordinateFramePair.mk
             (if s.is_localized then TangoCoordinateFrameType.AREA_DESCRIPTION
              else TangoCoordinateFrameType.START_OF_SERVICE)
             TangoCoordinateFrameType.DEVICE),
         PoseQuery.mk s.timestamp
           (TangoCoordinateFramePair.mk
             (if s.is_localized then TangoCoordinateFrameType.AREA_DESCRIPTION
              else TangoCoordinateFrameType.START_OF_SERVICE)
             TangoCoordinateFrameType.DEVICE)] ∧
    (GetPoseAtTime svc log s).2.1.is_localized = s.is_localized ∧
    (GetPoseAtTime svc log s).2.1.timestamp = s.timestamp := by
  refine ⟨?_, ?_, ?_⟩
  · simp only [GetPoseAtTime, TangoService_getPoseAtTime]
    split_ifs <;> simp
  · rw [GetPoseAtTime_session]; split_ifs <;> rfl
  · rw [GetPoseAtTime_session]; split_ifs <;> rfl

end CinderTango

/-! ## The per-frame composition: `update` -/

namespace CinderTangoApp

/-- The transform `update` stores is the five-factor product built from the session
`GetPoseAtTime` leaves behind. -/
theorem update_ow_T_oc {K : Type} [LinearOrderedField K] (sqrt : K → K)
    (tex : TangoErrorType × K) (svc : PoseService K) (log : List (PoseQuery K))
    (tango : CinderTango K) (app : CinderTangoApp K) (hconn : app.tangoConnected = true) :
    (update sqrt tex svc log tango app).2.1.ow_T_oc =
      app.ow_T_ss *
        ss_T_device (CinderTango.GetPoseAtTime svc log
          (CinderTango.UpdateColorTexture tex tango)).2.1 *
        glm.inverse app.imu_T_device * app.imu_T_cc * app.cc_T_oc := by
  simp [update, hconn, compose_ow_T_oc]

/-- The session `update` returns is the one `GetPoseAtTime` leaves behind. -/
theorem update_session {K : Type} [LinearOrderedField K] (sqrt : K → K)
    (tex : TangoErrorType × K) (svc : PoseService K) (log : List (PoseQuery K))
    (tango : CinderTango K) (app : CinderTangoApp K) (hconn : app.tangoConnected = true) :
    (update sqrt tex svc log tango app).1 =
      (CinderTango.GetPoseAtTime svc log (CinderTango.UpdateColorTexture tex tango)).2.1 := by
  simp [update, hconn]

/-- The fixed matrices and the connection flag are not changed by `update`. -/
theorem update_fixed {K : Type} [LinearOrderedField K] (sqrt : K → K)
    (tex : TangoErrorType × K) (svc : PoseService K) (log : List (PoseQuery K))
    (tango : CinderTango K) (app : CinderTangoApp K) :
    (update sqrt tex svc log tango app).2.1.tangoConnected = app.tangoConnected ∧
    (update sqrt tex svc log tango app).2.1.ow_T_ss = app.ow_T_ss ∧
    (update sqrt tex svc log tango app).2.1.imu_T_device = app.imu_T_device ∧
    (update sqrt tex svc log tango app).2.1.imu_T_cc = app.imu_T_cc ∧
    (update sqrt tex svc log tango app).2.1.cc_T_oc = app.cc_T_oc := by
  unfold update
  split_ifs <;> simp

/-- C3.  Take two consecutive frames of `update`.  If in the second frame both pose
queries of `GetPoseAtTime` are invalid, then that call leaves `tango_position` and
`tango_rotation` exactly as the first frame left them, and the transform `ow_T_oc`
recomputed by the second frame equals the one composed in the first frame. -/
theorem update_keeps_transform_when_both_invalid {K : Type} [LinearOrderedField K]
    (sqrt : K → K) (tex1 tex2 : TangoErrorType × K) (svc : PoseService K)
    (log0 : List (PoseQuery K)) (tango0 : CinderTango K) (app0 : CinderTangoApp K)
    (hconn : app0.tangoConnected = true)
    (hl : ¬ PoseOk (CinderTango.latestAnswer svc (update sqrt tex1 svc log0 tango0 app0).2.2
            (CinderTango.UpdateColorTexture tex2 (update sqrt tex1 svc log0 tango0 app0).1)))
    (_ht : ¬ PoseOk (CinderTango.textureAnswer svc (update sqrt tex1 svc log0 tango0 app0).2.2
            (CinderTango.UpdateColorTexture tex2 (update sqrt tex1 svc log0 tango0 app0).1))) :
    (CinderTango.GetPoseAtTime svc (update sqrt tex1 svc log0 tango0 app0).2.2
        (CinderTango.UpdateColorTexture tex2
          (update sqrt tex1 svc log0 tango0 app0).1)).2.1.tango_position
      = (update sqrt tex1 svc log0 tango0 app0).1.tango_position ∧
    (CinderTango.GetPoseAtTime svc (update sqrt tex1 svc log0 tango0 app0).2.2
        (CinderTango.UpdateColorTexture tex2
          (update sqrt tex1 svc log0 tango0 app0).1)).2.1.tango_rotation
      = (update sqrt tex1 svc log0 tango0 app0).1.tango_rotation ∧
    (update sqrt tex2 svc (update sqrt tex1 svc log0 tango0 app0).2.2
        (update sqrt tex1 svc log0 tango0 app0).1
        (update sqrt tex1 svc log0 tango0 app0).2.1).2.1.ow_T_oc
      = (update sqrt tex1 svc log0 tango0 app0).2.1.ow_T_oc := by
  obtain ⟨hc, h1, h2, h3, h4⟩ := update_fixed sqrt tex1 svc log0 tango0 app0
  have hs := CinderTango.GetPoseAtTime_session_of_latest_invalid svc _ _ hl
  refine ⟨by rw [hs]; rfl, by rw [hs]; rfl, ?_⟩
  rw [update_ow_T_oc sqrt tex2 svc _ _ _ (hc.trans hconn), hs, h1, h2, h3, h4,
    update_ow_T_oc sqrt tex1 svc log0 tango0 app0 hconn, update_session _ _ _ _ _ _ hconn]
  rfl

/-- C3 at a concrete input: a first frame with two valid answers, then a frame
with two invalid answers. -/
theorem update_keeps_transform_when_both_invalid_witness :
    (update (fun x => x) (0, 6) Examples.svcThenNone
        (update (fun x => x) (0, 5) Examples.svcThenNone [] Examples.session0 Examples.app0).2.2
        (update (fun x => x) (0, 5) Examples.svcThenNone [] Examples.session0 Examples.app0).1
        (update (fun x => x) (0, 5) Examples.svcThenNone [] Examples.session0
          Examples.app0).2.1).2.1.ow_T_oc
      = (update (fun x => x) (0, 5) Examples.svcThenNone [] Examples.session0
          Examples.app0).2.1.ow_T_oc :=
  (update_keeps_transform_when_both_invalid (fun x => x) (0, 5) (0, 6) Examples.svcThenNone []
    Examples.session0 Examples.app0 (by decide) (by decide) (by decide)).2.2

/-- C6.  The transform `update` stores in `ow_T_oc` is the product
`ow_T_ss * ss_T_device * inverse(imu_T_device) * imu_T_cc * cc_T_oc`, in that order.
Consequently, for every device matrix `D`, every IMU-to-device matrix `A` of non-zero
determinant (for which `glm::inverse` is a two-sided inverse) and every
IMU-to-camera matrix `C`, with both correction matrices equal to the identity the
composed transform is `D * inverse(A) * C`. -/
theorem update_composition_order {K : Type} [LinearOrderedField K] (sqrt : K → K)
    (tex : TangoErrorType × K) (svc : PoseService K) (log : List (PoseQuery K))
    (tango : CinderTango K) (app : CinderTangoApp K) (D A C : glm.mat4 K)
    (hconn : app.tangoConnected = true) (hA : glm.determinant A ≠ 0) :
    (update sqrt tex svc log tango app).2.1.ow_T_oc =
      app.ow_T_ss * ss_T_device (update sqrt tex svc log tango app).1 *
        glm.inverse app.imu_T_device * app.imu_T_cc * app.cc_T_oc ∧
    compose_ow_T_oc glm.mat4.identity D A C glm.mat4.identity = D * glm.inverse A * C ∧
    A * glm.inverse A = glm.mat4.identity ∧ glm.inverse A * A = glm.mat4.identity := by
  refine ⟨?_, ?_, glm.mul_inverse A hA, glm.inverse_mul A hA⟩
  · rw [update_ow_T_oc _ _ _ _ _ _ hconn, update_session _ _ _ _ _ _ hconn]
  · unfold compose_ow_T_oc
    rw [glm.mat4.identity_mul, glm.mat4.mul_identity]

/-- C6 at concrete matrices over the rationals. -/
theorem update_composition_order_witness :
    compose_ow_T_oc glm.mat4.identity Examples.matD Examples.matA Examples.matC
        glm.mat4.identity
      = Examples.matD * glm.inverse Examples.matA * Examples.matC ∧
    Examples.matA * glm.inverse Examples.matA = glm.mat4.identity ∧
    glm.inverse Examples.matA * Examples.matA = glm.mat4.identity :=
  (update_composition_order (fun x => x) (0, 5) Examples.svcBoth [] Examples.session0
    Examples.app0 Examples.matD Examples.matA Examples.matC (by decide)
    (by simp [glm.determinant, Examples.matA])).2

end CinderTangoApp

/-! ## The device matrix and the orientation reordering -/

namespace glm

theorem translate_identity {K : Type} [Semiring K] (v : vec3 K) :
    translate mat4.identity v = ![![1, 0, 0, 0], ![0, 1, 0, 0], ![0, 0, 1, 0], ![v.x, v.y, v.z, 1]] := by
  funext c r
  fin_cases c <;> fin_cases r <;> simp [translate, mat4.identity]

theorem translate_identity_mul {K : Type} [Semiring K] (v : vec3 K) (m : mat4 K) (c r : Fin 4) :
    (translate mat4.identity v * m) c r = m c r + ![v.x, v.y, v.z, 0] r * m c 3 := by
  rw [mat4.mul_apply, translate_identity]
  fin_cases r <;> simp

/-- For a unit quaternion the columns of `mat4_cast(q)` are orthonormal: the matrix
is a rotation in its upper-left 3x3 block, extended by the identity. -/
theorem mat4_cast_columns_orthonormal {K : Type} [CommRing K] (q : quat K)
    (h : q.w * q.w + q.x * q.x + q.y * q.y + q.z * q.z = 1) (c d : Fin 4) :
    mat4_cast q c 0 * mat4_cast q d 0 + mat4_cast q c 1 * mat4_cast q d 1
      + mat4_cast q c 2 * mat4_cast q d 2 + mat4_cast q c 3 * mat4_cast q d 3
      = if c = d then 1 else 0 := by
  fin_cases c <;> fin_cases d <;> simp [mat4_cast]
  · linear_combination (4 * (q.y * q.y + q.z * q.z)) * h
  · linear_combination (-4 * (q.x * q.y)) * h
  · linear_combination (-4 * (q.x * q.z)) * h
  · linear_combination (-4 * (q.x * q.y)) * h
  · linear_combination (4 * (q.x * q.x + q.z * q.z)) * h
  · linear_combination (-4 * (q.y * q.z)) * h
  · linear_combination (-4 * (q.x * q.z)) * h
  · linear_combination (-4 * (q.y * q.z)) * h
  · linear_combination (4 * (q.x * q.x + q.y * q.y)) * h

end glm

namespace CinderTangoApp

/-- The device-to-service matrix, column by column. -/
theorem ss_T_device_eq {K : Type} [CommRing K] (s : CinderTango K) :
    ss_T_device s =
      ![![1 - 2 * (s.tango_rotation.y * s.tango_rotation.y
                    + s.tango_rotation.z * s.tango_rotation.z),
          2 * (s.tango_rotation.x * s.tango_rotation.y
                + s.tango_rotation.w * s.tango_rotation.z),
          2 * (s.tango_rotation.x * s.tango_rotation.z
                - s.tango_rotation.w * s.tango_rotation.y), 0],
        ![2 * (s.tango_rotation.x * s.tango_rotation.y
                - s.tango_rotation.w * s.tango_rotation.z),
          1 - 2 * (s.tango_rotation.x * s.tango_rotation.x
                    + s.tango_rotation.z * s.tango_rotation.z),
          2 * (s.tango_rotation.y * s.tango_rotation.z
                + s.tango_rotation.w * s.tango_rotation.x), 0],
        ![2 * (s.tango_rotation.x * s.tango_rotation.z
                + s.tango_rotation.w * s.tango_rotation.y),
          2 * (s.tango_rotation.y * s.tango_rotation.z
                - s.tango_rotation.w * s.tango_rotation.x),
          1 - 2 * (s.tango_rotation.x * s.tango_rotation.x
                    + s.tango_rotation.y * s.tango_rotation.y), 0],
        ![s.tango_position.x, s.tango_position.y, s.tango_position.z, 1]] := by
  funext c r
  unfold ss_T_device
  rw [glm.translate_identity_mul]
  fin_cases c <;> fin_cases r <;> simp [glm.mat4_cast]

/-- C7.  The device-to-service matrix built in `update` is
`translate(p) * mat4_cast(q)`.  For every position `p` and quaternion `q` its fourth
column is (p.x, p.y, p.z, 1) and its first three columns are those of
`mat4_cast(q)`: the rotation matrix of `q` in the upper three rows (spelled out
entry by entry below) over a zero bottom row.
In particular, after `GetPoseAtTime` has stored the pose with translation (1, 2, 3)
and orientation (x, y, z, w) = (0, 0, 0, 1), the fourth column is (1, 2, 3, 1) and
the upper-left 3x3 block is the identity. -/
theorem ss_T_device_columns {K : Type} [CommRing K] (s : CinderTango K) :
    ss_T_device s =
      glm.translate glm.mat4.identity s.tango_position * glm.mat4_cast s.tango_rotation ∧
    ss_T_device s 3 = ![s.tango_position.x, s.tango_position.y, s.tango_position.z, 1] ∧
    ss_T_device s 0 = glm.mat4_cast s.tango_rotation 0 ∧
    ss_T_device s 1 = glm.mat4_cast s.tango_rotation 1 ∧
    ss_T_device s 2 = glm.mat4_cast s.tango_rotation 2 ∧
    ss_T_device s 0 =
      ![1 - 2 * (s.tango_rotation.y * s.tango_rotation.y
                  + s.tango_rotation.z * s.tango_rotation.z),
        2 * (s.tango_rotation.x * s.tango_rotation.y + s.tango_rotation.w * s.tango_rotation.z),
        2 * (s.tango_rotation.x * s.tango_rotation.z - s.tango_rotation.w * s.tango_rotation.y),
        0] ∧
    ss_T_device s 1 =
      ![2 * (s.tango_rotation.x * s.tango_rotation.y - s.tango_rotation.w * s.tango_rotation.z),
        1 - 2 * (s.tango_rotation.x * s.tango_rotation.x
                  + s.tango_rotation.z * s.tango_rotation.z),
        2 * (s.tango_rotation.y * s.tango_rotation.z + s.tango_rotation.w * s.tango_rotation.x),
        0] ∧
    ss_T_device s 2 =
      ![2 * (s.tango_rotation.x * s.tango_rotation.z + s.tango_rotation.w * s.tango_rotation.y),
        2 * (s.tango_rotation.y * s.tango_rotation.z - s.tango_rotation.w * s.tango_rotation.x),
        1 - 2 * (s.tango_rotation.x * s.tango_rotation.x
                  + s.tango_rotation.y * s.tango_rotation.y),
        0] ∧
    Examples.poseA.translation = ![1, 2, 3] ∧ Examples.poseA.orientation = ![0, 0, 0, 1] ∧
    CinderTango.StoresPose Examples.poseA
      (CinderTango.GetPoseAtTime Examples.svcBoth [] Examples.session0).2.1 ∧
    ss_T_device (CinderTango.GetPoseAtTime Examples.svcBoth [] Examples.session0).2.1 =
      ![![1, 0, 0, 0], ![0, 1, 0, 0], ![0, 0, 1, 0], ![1, 2, 3, 1]] := by
  refine ⟨rfl, ?_, ?_, ?_, ?_, ?_, ?_, ?_, rfl, rfl, by decide, ?_⟩
  · rw [ss_T_device_eq]; rfl
  · rw [ss_T_device_eq]; simp [glm.mat4_cast]
  · rw [ss_T_device_eq]; simp [glm.mat4_cast]
  · rw [ss_T_device_eq]; simp [glm.mat4_cast]
  · rw [ss_T_device_eq]; rfl
  · rw [ss_T_device_eq]; rfl
  · rw [ss_T_device_eq]; rfl
  · have h : (CinderTango.GetPoseAtTime Examples.svcBoth [] Examples.session0).2.1.tango_position
          = glm.vec3.mk 1 2 3 ∧
        (CinderTango.GetPoseAtTime Examples.svcBoth [] Examples.session0).2.1.tango_rotation
          = glm.quat.mk 1 0 0 0 := by decide
    rw [ss_T_device_eq, h.1, h.2]
    funext c r
    fin_cases c <;> fin_cases r <;> norm_num

end CinderTangoApp

namespace CinderTango

/-- The session after `GetExtrinsics` when both queries return `TANGO_SUCCESS`. -/
theorem GetExtrinsics_of_success {K : Type} [Zero K] (svc : PoseService K)
    (log : List (PoseQuery K)) (s : CinderTango K)
    (hd : (deviceAnswer svc log).1 = TANGO_SUCCESS)
    (hc : (colorCameraAnswer svc log).1 = TANGO_SUCCESS) :
    (GetExtrinsics svc log s).1 = true ∧
    (GetExtrinsics svc log s).2.1 =
      { s with
        imu_p_device := glm.vec3.mk ((deviceAnswer svc log).2.translation 0)
          ((deviceAnswer svc log).2.translation 1) ((deviceAnswer svc log).2.translation 2),
        imu_q_device := glm.quat.mk ((deviceAnswer svc log).2.orientation 3)
          ((deviceAnswer svc log).2.orientation 0) ((deviceAnswer svc log).2.orientation 1)
          ((deviceAnswer svc log).2.orientation 2),
        imu_p_cc := glm.vec3.mk ((colorCameraAnswer svc log).2.translation 0)
          ((colorCameraAnswer svc log).2.translation 1)
          ((colorCameraAnswer svc log).2.translation 2),
        imu_q_cc := glm.quat.mk ((colorCameraAnswer svc log).2.orientation 3)
          ((colorCameraAnswer svc log).2.orientation 0)
          ((colorCameraAnswer svc log).2.orientation 1)
          ((colorCameraAnswer svc log).2.orientation 2) } := by
  unfold deviceAnswer at hd
  unfold colorCameraAnswer at hc
  simp [GetExtrinsics, TangoService_getPoseAtTime, hd, hc, deviceAnswer, colorCameraAnswer]

/-- Without narrowing, `GetPoseAtTime_float` is `GetPoseAtTime`. -/
theorem GetPoseAtTime_float_id {K : Type} [Zero K] (svc : PoseService K)
    (log : List (PoseQuery K)) (s : CinderTango K) :
    GetPoseAtTime_float id svc log s = GetPoseAtTime svc log s := rfl

/-- Without narrowing, `GetExtrinsics_float` is `GetExtrinsics`. -/
theorem GetExtrinsics_float_id {K : Type} [Zero K] (svc : PoseService K)
    (log : List (PoseQuery K)) (s : CinderTango K) :
    GetExtrinsics_float id svc log s = GetExtrinsics svc log s := rfl

/-- The session after `GetPoseAtTime_float`, by the outcome of the two queries. -/
theorem GetPoseAtTime_float_session {K : Type} [Zero K] (narrow : K → K)
    (svc : PoseService K) (log : List (PoseQuery K)) (s : CinderTango K) :
    (GetPoseAtTime_float narrow svc log s).2.1 =
      if PoseOk (latestAnswer svc log s) then
        let pose := if PoseOk (textureAnswer svc log s) then (textureAnswer svc log s).2
                    else (latestAnswer svc log s).2
        { s with
          tango_position :=
            glm.vec3.mk (narrow (pose.translation 0)) (narrow (pose.translation 1))
              (narrow (pose.translation 2)),
          tango_rotation :=
            glm.quat.mk (narrow (pose.orientation 3)) (narrow (pose.orientation 0))
              (narrow (pose.orientation 1)) (narrow (pose.orientation 2)) }
      else s := by
  simp only [GetPoseAtTime_float, latestAnswer, textureAnswer, poseFramePair, PoseOk,
    TangoService_getPoseAtTime, Bool.and_eq_true, decide_eq_true_eq]
  split_ifs <;> rfl

/-- The session after `GetExtrinsics_float` when both queries return `TANGO_SUCCESS`. -/
theorem GetExtrinsics_float_of_success {K : Type} [Zero K] (narrow : K → K)
    (svc : PoseService K) (log : List (PoseQuery K)) (s : CinderTango K)
    (hd : (deviceAnswer svc log).1 = TANGO_SUCCESS)
    (hc : (colorCameraAnswer svc log).1 = TANGO_SUCCESS) :
    (GetExtrinsics_float narrow svc log s).1 = true ∧
    (GetExtrinsics_float narrow svc log s).2.1 =
      { s with
        imu_p_device := glm.vec3.mk (narrow ((deviceAnswer svc log).2.translation 0))
          (narrow ((deviceAnswer svc log).2.translation 1))
          (narrow ((deviceAnswer svc log).2.translation 2)),
        imu_q_device := glm.quat.mk (narrow ((deviceAnswer svc log).2.orientation 3))
          (narrow ((deviceAnswer svc log).2.orientation 0))
          (narrow ((deviceAnswer svc log).2.orientation 1))
          (narrow ((deviceAnswer svc log).2.orientation 2)),
        imu_p_cc := glm.vec3.mk (narrow ((colorCameraAnswer svc log).2.translation 0))
          (narrow ((colorCameraAnswer svc log).2.translation 1))
          (narrow ((colorCameraAnswer svc log).2.translation 2)),
        imu_q_cc := glm.quat.mk (narrow ((colorCameraAnswer svc log).2.orientation 3))
          (narrow ((colorCameraAnswer svc log).2.orientation 0))
          (narrow ((colorCameraAnswer svc log).2.orientation 1))
          (narrow ((colorCameraAnswer svc log).2.orientation 2)) } := by
  unfold deviceAnswer at hd
  unfold colorCameraAnswer at hc
  simp [GetExtrinsics_float, TangoService_getPoseAtTime, hd, hc, deviceAnswer,
    colorCameraAnswer]

/-- Reading a quaternion built from the narrowed components 3, 0, 1, 2 of an array
back in storage order gives the narrowed array; it gives the array itself exactly
when narrowing leaves every component as it is. -/
theorem quat_get_narrowed {K : Type} (narrow : K → K) (o : Fin 4 → K) :
    (glm.quat.mk (narrow (o 3)) (narrow (o 0)) (narrow (o 1)) (narrow (o 2))).get
        = (fun i => narrow (o i)) ∧
    ((glm.quat.mk (narrow (o 3)) (narrow (o 0)) (narrow (o 1)) (narrow (o 2))).get = o
        ↔ ∀ i, narrow (o i) = o i) := by
  have hget : (glm.quat.mk (narrow (o 3)) (narrow (o 0)) (narrow (o 1)) (narrow (o 2))).get
      = (fun i => narrow (o i)) := by
    funext i
    fin_cases i <;> rfl
  refine ⟨hget, ?_⟩
  rw [hget]
  exact ⟨fun h i => congrFun h i, fun h => funext h⟩

/-- C8, failing input.  The pose service answers every query with the orientation
(x, y, z, w) = (d, 0, 0, 1), where d = 3602879701896397 / 2^55 is the `double`
nearest to 0.1.  The stores convert to `float`: the quaternion `GetPoseAtTime` stores
and the two quaternions `GetExtrinsics` stores read back as
(13421773 / 2^27, 0, 0, 1), which is not the orientation the service returned. -/
theorem orientation_roundtrip_fails_after_narrowing :
    PoseOk (latestAnswer Examples.svcTenth [] Examples.session0) ∧
    (textureAnswer Examples.svcTenth [] Examples.session0).2.orientation
      = ![3602879701896397 / 36028797018963968, 0, 0, 1] ∧
    (deviceAnswer Examples.svcTenth []).2.orientation
      = ![3602879701896397 / 36028797018963968, 0, 0, 1] ∧
    (colorCameraAnswer Examples.svcTenth []).2.orientation
      = ![3602879701896397 / 36028797018963968, 0, 0, 1] ∧
    (GetPoseAtTime_float binary32.round Examples.svcTenth [] Examples.session0
        ).2.1.tango_rotation.get = ![13421773 / 134217728, 0, 0, 1] ∧
    (GetExtrinsics_float binary32.round Examples.svcTenth [] Examples.session0
        ).2.1.imu_q_device.get = ![13421773 / 134217728, 0, 0, 1] ∧
    (GetExtrinsics_float binary32.round Examples.svcTenth [] Examples.session0
        ).2.1.imu_q_cc.get = ![13421773 / 134217728, 0, 0, 1] ∧
    (![13421773 / 134217728, 0, 0, 1] : Fin 4 → ℚ)
      ≠ ![3602879701896397 / 36028797018963968, 0, 0, 1] := by
  have hl : PoseOk (latestAnswer Examples.svcTenth [] Examples.session0) := by decide
  have ht : PoseOk (textureAnswer Examples.svcTenth [] Examples.session0) := by decide
  have hd : (deviceAnswer Examples.svcTenth []).1 = TANGO_SUCCESS := by decide
  have hc : (colorCameraAnswer Examples.svcTenth []).1 = TANGO_SUCCESS := by decide
  have hto : (textureAnswer Examples.svcTenth [] Examples.session0).2.orientation
      = ![3602879701896397 / 36028797018963968, 0, 0, 1] := rfl
  have hdo : (deviceAnswer Examples.svcTenth []).2.orientation
      = ![3602879701896397 / 36028797018963968, 0, 0, 1] := rfl
  have hco : (colorCameraAnswer Examples.svcTenth []).2.orientation
      = ![3602879701896397 / 36028797018963968, 0, 0, 1] := rfl
  have hnar : (fun i => binary32.round
      ((![3602879701896397 / 36028797018963968, 0, 0, 1] : Fin 4 → ℚ) i))
        = ![13421773 / 134217728, 0, 0, 1] := by
    funext i
    fin_cases i <;>
      simp [binary32.round_tenth, binary32.round_zero, binary32.round_one]
  have hE := (GetExtrinsics_float_of_success binary32.round Examples.svcTenth []
    Examples.session0 hd hc).2
  refine ⟨hl, hto, hdo, hco, ?_, ?_, ?_, ?_⟩
  · rw [GetPoseAtTime_float_session, if_pos hl]
    simp only [if_pos ht]
    rw [(quat_get_narrowed binary32.round _).1, hto, hnar]
  · rw [hE]
    simp only []
    rw [(quat_get_narrowed binary32.round _).1, hdo, hnar]
  · rw [hE]
    simp only []
    rw [(quat_get_narrowed binary32.round _).1, hco, hnar]
  · intro h
    have h0 := congrFun h 0
    norm_num at h0

/-- C8, amended.  The reordering applied to a pose-service orientation (x, y, z, w)
stores the quaternion with w, x, y, z equal to orientation[3], orientation[0],
orientation[1], orientation[2] converted from `double` to `float`; reading the stored
quaternion back in (x, y, z, w) order gives the four converted components, and it
gives the original four components exactly when each of them is unchanged by the
conversion (is a `float` value).  This holds for every conversion `narrow`, for the
rotation `GetPoseAtTime` stores (from the sample it selects when the "now" query is
usable) and for both quaternions `GetExtrinsics` stores when its two queries
succeed. -/
theorem orientation_reordering_roundtrip {K : Type} [Zero K] (narrow : K → K)
    (svc : PoseService K) (log : List (PoseQuery K)) (s : CinderTango K)
    (svcE : PoseService K) (logE : List (PoseQuery K)) (sE : CinderTango K)
    (hl : PoseOk (latestAnswer svc log s))
    (hd : (deviceAnswer svcE logE).1 = TANGO_SUCCESS)
    (hc : (colorCameraAnswer svcE logE).1 = TANGO_SUCCESS) :
    ((GetPoseAtTime_float narrow svc log s).2.1.tango_rotation
        = glm.quat.mk
            (narrow ((if PoseOk (textureAnswer svc log s) then (textureAnswer svc log s).2
              else (latestAnswer svc log s).2).orientation 3))
            (narrow ((if PoseOk (textureAnswer svc log s) then (textureAnswer svc log s).2
              else (latestAnswer svc log s).2).orientation 0))
            (narrow ((if PoseOk (textureAnswer svc log s) then (textureAnswer svc log s).2
              else (latestAnswer svc log s).2).orientation 1))
            (narrow ((if PoseOk (textureAnswer svc log s) then (textureAnswer svc log s).2
              else (latestAnswer svc log s).2).orientation 2)) ∧
     (GetPoseAtTime_float narrow svc log s).2.1.tango_rotation.get
        = (fun i => narrow
            ((if PoseOk (textureAnswer svc log s) then (textureAnswer svc log s).2
              else (latestAnswer svc log s).2).orientation i)) ∧
     ((GetPoseAtTime_float narrow svc log s).2.1.tango_rotation.get
        = (if PoseOk (textureAnswer svc log s) then (textureAnswer svc log s).2
           else (latestAnswer svc log s).2).orientation
      ↔ ∀ i, narrow
            ((if PoseOk (textureAnswer svc log s) then (textureAnswer svc log s).2
              else (latestAnswer svc log s).2).orientation i)
          = (if PoseOk (textureAnswer svc log s) then (textureAnswer svc log s).2
             else (latestAnswer svc log s).2).orientation i)) ∧
    ((GetExtrinsics_float narrow svcE logE sE).2.1.imu_q_device
        = glm.quat.mk (narrow ((deviceAnswer svcE logE).2.orientation 3))
            (narrow ((deviceAnswer svcE logE).2.orientation 0))
            (narrow ((deviceAnswer svcE logE).2.orientation 1))
            (narrow ((deviceAnswer svcE logE).2.orientation 2)) ∧
     (GetExtrinsics_float narrow svcE logE sE).2.1.imu_q_device.get
        = (fun i => narrow ((deviceAnswer svcE logE).2.orientation i)) ∧
     ((GetExtrinsics_float narrow svcE logE sE).2.1.imu_q_device.get
        = (deviceAnswer svcE logE).2.orientation
      ↔ ∀ i, narrow ((deviceAnswer svcE logE).2.orientation i)
          = (deviceAnswer svcE logE).2.orientation i)) ∧
    ((GetExtrinsics_float narrow svcE logE sE).2.1.imu_q_cc
        = glm.quat.mk (narrow ((colorCameraAnswer svcE logE).2.orientation 3))
            (narrow ((colorCameraAnswer svcE logE).2.orientation 0))
            (narrow ((colorCameraAnswer svcE logE).2.orientation 1))
            (narrow ((colorCameraAnswer svcE logE).2.orientation 2)) ∧
     (GetExtrinsics_float narrow svcE logE sE).2.1.imu_q_cc.get
        = (fun i => narrow ((colorCameraAnswer svcE logE).2.orientation i)) ∧
     ((GetExtrinsics_float narrow svcE logE sE).2.1.imu_q_cc.get
        = (colorCameraAnswer svcE logE).2.orientation
      ↔ ∀ i, narrow ((colorCameraAnswer svcE logE).2.orientation i)
          = (colorCameraAnswer svcE logE).2.orientation i)) := by
  have hE := (GetExtrinsics_float_of_success narrow svcE logE sE hd hc).2
  rw [GetPoseAtTime_float_session, if_pos hl, hE]
  exact ⟨⟨rfl, (quat_get_narrowed narrow _).1, (quat_get_narrowed narrow _).2⟩,
    ⟨rfl, (quat_get_narrowed narrow _).1, (quat_get_narrowed narrow _).2⟩,
    ⟨rfl, (quat_get_narrowed narrow _).1, (quat_get_narrowed narrow _).2⟩⟩

/-- C8 at concrete inputs, with the conversion to binary32: the components 0 and 1
of the orientations (0, 0, 0, 1) and (0, 0, 1, 0) are `float` values, so the
quaternion `GetPoseAtTime` stores and the two quaternions `GetExtrinsics` stores
read back as the orientations the service returned. -/
theorem orientation_reordering_roundtrip_witness :
    (GetPoseAtTime_float binary32.round Examples.svcBoth [] Examples.session0
        ).2.1.tango_rotation.get = ![0, 0, 0, 1] ∧
    (GetExtrinsics_float binary32.round Examples.svcBoth [] Examples.session0
        ).2.1.imu_q_device.get = ![0, 0, 1, 0] ∧
    (GetExtrinsics_float binary32.round Examples.svcBoth [] Examples.session0
        ).2.1.imu_q_cc.get = ![0, 0, 0, 1] :=
  have h := orientation_reordering_roundtrip binary32.round Examples.svcBoth []
    Examples.session0 Examples.svcBoth [] Examples.session0 (by decide) (by decide) (by decide)
  ⟨h.1.2.2.mpr (fun i => by
      fin_cases i <;> simp [textureAnswer, latestAnswer, PoseOk, Examples.svcBoth,
        Examples.poseA, Examples.poseB, Examples.session0, scriptedService,
        TANGO_SUCCESS, TANGO_POSE_VALID, binary32.round_zero, binary32.round_one]),
   h.2.1.2.2.mpr (fun i => by
      fin_cases i <;> simp [deviceAnswer, Examples.svcBoth, Examples.poseB, scriptedService,
        binary32.round_zero, binary32.round_one]),
   h.2.2.2.2.mpr (fun i => by
      fin_cases i <;> simp [colorCameraAnswer, Examples.svcBoth, Examples.poseA,
        scriptedService, binary32.round_zero, binary32.round_one])⟩

end CinderTango

/-! ## Matrix decomposition: `DecomposeMatrix` -/

namespace util

/-- The scale `DecomposeMatrix` returns, spelled out: the lengths of the three rows
of the upper-left 3x3 block (entries `m[0][r]`, `m[1][r]`, `m[2][r]`), the first one
negated when the determinant is negative. -/
theorem DecomposeMatrix_scale {K : Type} [LinearOrderedField K] (sqrt : K → K)
    (m : glm.mat4 K) :
    (DecomposeMatrix sqrt m).scale =
      glm.vec3.mk
        (if glm.determinant m < 0 then -sqrt (m 0 0 * m 0 0 + m 1 0 * m 1 0 + m 2 0 * m 2 0)
         else sqrt (m 0 0 * m 0 0 + m 1 0 * m 1 0 + m 2 0 * m 2 0))
        (sqrt (m 0 1 * m 0 1 + m 1 1 * m 1 1 + m 2 1 * m 2 1))
        (sqrt (m 0 2 * m 0 2 + m 1 2 * m 1 2 + m 2 2 * m 2 2)) := rfl

/-- A transform with bottom row (0, 0, 0, 1) and a zero row in its upper-left 3x3
block has determinant zero. -/
theorem determinant_eq_zero_of_row {K : Type} [CommRing K] (m : glm.mat4 K)
    (hb : m 0 3 = 0 ∧ m 1 3 = 0 ∧ m 2 3 = 0 ∧ m 3 3 = 1) (r : Fin 4) (hr : r ≠ 3)
    (h0 : m 0 r = 0) (h1 : m 1 r = 0) (h2 : m 2 r = 0) : glm.determinant m = 0 := by
  obtain ⟨b0, b1, b2, _⟩ := hb
  fin_cases r
  · have h0' : m 0 0 = 0 := h0
    have h1' : m 1 0 = 0 := h1
    have h2' : m 2 0 = 0 := h2
    simp only [glm.determinant, h0', h1', h2', b0, b1, b2]; ring
  · have h0' : m 0 1 = 0 := h0
    have h1' : m 1 1 = 0 := h1
    have h2' : m 2 1 = 0 := h2
    simp only [glm.determinant, h0', h1', h2', b0, b1, b2]; ring
  · have h0' : m 0 2 = 0 := h0
    have h1' : m 1 2 = 0 := h1
    have h2' : m 2 2 = 0 := h2
    simp only [glm.determinant, h0', h1', h2', b0, b1, b2]; ring
  · exact absurd rfl hr

/-- A sum of three squares that is not positive has all three terms zero. -/
theorem sum_squares_pos_or_zero {K : Type} [LinearOrderedField K] (a b c : K)
    (h : ¬ 0 < a * a + b * b + c * c) : a = 0 ∧ b = 0 ∧ c = 0 := by
  have ha := mul_self_nonneg a
  have hb := mul_self_nonneg b
  have hc := mul_self_nonneg c
  have h' : a * a + b * b + c * c ≤ 0 := not_lt.mp h
  refine ⟨?_, ?_, ?_⟩
  · exact mul_self_eq_zero.mp (le_antisymm (by linarith) ha)
  · exact mul_self_eq_zero.mp (le_antisymm (by linarith) hb)
  · exact mul_self_eq_zero.mp (le_antisymm (by linarith) hc)

/-- The sign rule in exact arithmetic, for every square-root function that is
non-negative everywhere and positive on positive arguments (as the real square root
is): for every transform `m` with bottom row (0, 0, 0, 1), if the determinant is
negative then scale.x < 0, scale.y > 0 and scale.z > 0; if the determinant is
non-negative then scale.x ≥ 0; and scale.y and scale.z are never negative. -/
theorem DecomposeMatrix_sign_rule_exact {K : Type} [LinearOrderedField K] (sqrt : K → K)
    (hnonneg : ∀ x, 0 ≤ sqrt x) (hpos : ∀ x, 0 < x → 0 < sqrt x) (m : glm.mat4 K)
    (hb : m 0 3 = 0 ∧ m 1 3 = 0 ∧ m 2 3 = 0 ∧ m 3 3 = 1) :
    (glm.determinant m < 0 →
      (DecomposeMatrix sqrt m).scale.x < 0 ∧ 0 < (DecomposeMatrix sqrt m).scale.y ∧
      0 < (DecomposeMatrix sqrt m).scale.z) ∧
    (0 ≤ glm.determinant m → 0 ≤ (DecomposeMatrix sqrt m).scale.x) ∧
    0 ≤ (DecomposeMatrix sqrt m).scale.y ∧ 0 ≤ (DecomposeMatrix sqrt m).scale.z := by
  rw [DecomposeMatrix_scale]
  refine ⟨fun hdet => ?_, fun hdet => ?_, hnonneg _, hnonneg _⟩
  · have row : ∀ r : Fin 4, r ≠ 3 →
        0 < m 0 r * m 0 r + m 1 r * m 1 r + m 2 r * m 2 r := by
      intro r hr3
      by_contra hr
      obtain ⟨h0, h1, h2⟩ := sum_squares_pos_or_zero _ _ _ hr
      have := determinant_eq_zero_of_row m hb r hr3 h0 h1 h2
      rw [this] at hdet
      exact lt_irrefl _ hdet
    refine ⟨?_, hpos _ (row 1 (by decide)), hpos _ (row 2 (by decide))⟩
    simp only [if_pos hdet]
    exact neg_neg_of_pos (hpos _ (row 0 (by decide)))
  · simp only [if_neg (not_lt.mpr hdet)]
    exact hnonneg _

/-- With exact operations, `DecomposeMatrix_float` is `DecomposeMatrix`. -/
theorem DecomposeMatrix_float_id {K : Type} [LinearOrderedField K] (sqrt : K → K)
    (m : glm.mat4 K) : DecomposeMatrix_float id sqrt m = DecomposeMatrix sqrt m := rfl

/-- The x scale `DecomposeMatrix_float` returns: the computed length of row 0 of the
upper-left 3x3 block, negated when the computed determinant is negative. -/
theorem DecomposeMatrix_float_scale_x {K : Type} [LinearOrderedField K] (fl sqrt : K → K)
    (m : glm.mat4 K) :
    (DecomposeMatrix_float fl sqrt m).scale.x =
      if glm.determinant_float fl m < 0 then
        -sqrt (fl (fl (fl (m 0 0 * m 0 0) + fl (m 1 0 * m 1 0)) + fl (m 2 0 * m 2 0)))
      else sqrt (fl (fl (fl (m 0 0 * m 0 0) + fl (m 1 0 * m 1 0)) + fl (m 2 0 * m 2 0))) :=
  rfl

/-- The y scale `DecomposeMatrix_float` returns: the computed length of row 1. -/
theorem DecomposeMatrix_float_scale_y {K : Type} [LinearOrderedField K] (fl sqrt : K → K)
    (m : glm.mat4 K) :
    (DecomposeMatrix_float fl sqrt m).scale.y =
      sqrt (fl (fl (fl (m 0 1 * m 0 1) + fl (m 1 1 * m 1 1)) + fl (m 2 1 * m 2 1))) := rfl

/-- The z scale `DecomposeMatrix_float` returns: the computed length of row 2. -/
theorem DecomposeMatrix_float_scale_z {K : Type} [LinearOrderedField K] (fl sqrt : K → K)
    (m : glm.mat4 K) :
    (DecomposeMatrix_float fl sqrt m).scale.z =
      sqrt (fl (fl (fl (m 0 2 * m 0 2) + fl (m 1 2 * m 1 2)) + fl (m 2 2 * m 2 2))) := rfl

/-- The computed squared length of row `r` of the upper-left 3x3 block, spelled out. -/
theorem dot_float_row {K : Type} [LinearOrderedField K] (fl : K → K) (m : glm.mat4 K)
    (r : Fin 4) :
    glm.dot_float fl (glm.vec3.mk (m 0 r) (m 1 r) (m 2 r)) (glm.vec3.mk (m 0 r) (m 1 r) (m 2 r))
      = fl (fl (fl (m 0 r * m 0 r) + fl (m 1 r * m 1 r)) + fl (m 2 r * m 2 r)) := rfl

/-- The determinant of a matrix whose entries off the diagonal are zero, as
`determinant_float` computes it with a rounding that keeps zero. -/
theorem determinant_float_diagonal {K : Type} [Ring K] (fl : K → K) (h0 : fl 0 = 0)
    (a b c d : K) :
    glm.determinant_float fl ![![a, 0, 0, 0], ![0, b, 0, 0], ![0, 0, c, 0], ![0, 0, 0, d]]
      = fl (fl (fl (fl (a * fl (fl (fl (b * fl (fl (c * d))))))))) := by
  simp [glm.determinant_float, h0, Matrix.vecHead, Matrix.vecTail]

/-- C10, failing inputs, in binary32 arithmetic.  Both transforms have bottom row
(0, 0, 0, 1) and `float` entries.
For diag(-1, 2^-80, 2^60, 1) the determinant is -2^-20, exactly and as computed, but
the square 2^-160 of the entry of row 1 underflows to zero, so scale.y is 0, not
positive.
For diag(-2^-60, 2^-60, 2^-60, 1) the determinant is -2^-180 < 0, the computed
determinant underflows to zero, and scale.x is positive.
Every sum in these two computations has at most one term that is not zero, so the
results do not depend on the order of the additions or on fused operations. -/
theorem DecomposeMatrix_float_sign_rule_fails :
    (Examples.tinyRow 0 3 = 0 ∧ Examples.tinyRow 1 3 = 0 ∧ Examples.tinyRow 2 3 = 0 ∧
      Examples.tinyRow 3 3 = 1) ∧
    glm.determinant Examples.tinyRow = -(2 ^ (-20 : ℤ)) ∧
    glm.determinant_float binary32.round Examples.tinyRow = -(2 ^ (-20 : ℤ)) ∧
    (DecomposeMatrix_float binary32.round binary32.sqrt Examples.tinyRow).scale.y = 0 ∧
    (Examples.tinyMirror 0 3 = 0 ∧ Examples.tinyMirror 1 3 = 0 ∧
      Examples.tinyMirror 2 3 = 0 ∧ Examples.tinyMirror 3 3 = 1) ∧
    glm.determinant Examples.tinyMirror = -(2 ^ (-180 : ℤ)) ∧
    glm.determinant_float binary32.round Examples.tinyMirror = 0 ∧
    0 < (DecomposeMatrix_float binary32.round binary32.sqrt Examples.tinyMirror).scale.x := by
  have r0 := binary32.round_zero
  have p1 : (2 : ℚ) ^ (-80 : ℤ) * 2 ^ (-80 : ℤ) = 2 ^ (-160 : ℤ) := by
    rw [← zpow_add₀ (by norm_num : (2 : ℚ) ≠ 0)]; norm_num
  have p2 : (2 : ℚ) ^ (-80 : ℤ) * 2 ^ (60 : ℤ) = 2 ^ (-20 : ℤ) := by
    rw [← zpow_add₀ (by norm_num : (2 : ℚ) ≠ 0)]; norm_num
  have p3 : (2 : ℚ) ^ (-60 : ℤ) * 2 ^ (-60 : ℤ) = 2 ^ (-120 : ℤ) := by
    rw [← zpow_add₀ (by norm_num : (2 : ℚ) ≠ 0)]; norm_num
  have p4 : (2 : ℚ) ^ (-60 : ℤ) * 2 ^ (-120 : ℤ) = 2 ^ (-180 : ℤ) := by
    rw [← zpow_add₀ (by norm_num : (2 : ℚ) ≠ 0)]; norm_num
  have r1 : binary32.round (2 ^ (-160 : ℤ)) = 0 :=
    binary32.round_of_abs_lt _ (by rw [abs_of_pos (by positivity)]; norm_num)
  have r2 : binary32.round (2 ^ (60 : ℤ)) = 2 ^ (60 : ℤ) :=
    binary32.round_two_zpow 60 (by norm_num)
  have r3 : binary32.round (2 ^ (-20 : ℤ)) = 2 ^ (-20 : ℤ) :=
    binary32.round_two_zpow (-20) (by norm_num)
  have r4 : binary32.round (-(2 ^ (-20 : ℤ))) = -(2 ^ (-20 : ℤ)) :=
    binary32.round_neg_two_zpow (-20) (by norm_num)
  have r5 : binary32.round (2 ^ (-60 : ℤ)) = 2 ^ (-60 : ℤ) :=
    binary32.round_two_zpow (-60) (by norm_num)
  have r6 : binary32.round (2 ^ (-120 : ℤ)) = 2 ^ (-120 : ℤ) :=
    binary32.round_two_zpow (-120) (by norm_num)
  have r7 : binary32.round (-(2 ^ (-180 : ℤ))) = 0 :=
    binary32.round_of_abs_lt _ (by rw [abs_neg, abs_of_pos (by positivity)]; norm_num)
  have e1 : ∀ c r : Fin 4, Examples.tinyRow c r =
      (![![-1, 0, 0, 0], ![0, 2 ^ (-80 : ℤ), 0, 0], ![0, 0, 2 ^ (60 : ℤ), 0],
         ![0, 0, 0, 1]] : glm.mat4 ℚ) c r := fun _ _ => rfl
  have e2 : ∀ c r : Fin 4, Examples.tinyMirror c r =
      (![![-(2 ^ (-60 : ℤ)), 0, 0, 0], ![0, 2 ^ (-60 : ℤ), 0, 0],
         ![0, 0, 2 ^ (-60 : ℤ), 0], ![0, 0, 0, 1]] : glm.mat4 ℚ) c r := fun _ _ => rfl
  have d1 : glm.determinant_float binary32.round Examples.tinyRow = -(2 ^ (-20 : ℤ)) := by
    have h := determinant_float_diagonal binary32.round r0 (-1 : ℚ) (2 ^ (-80 : ℤ))
      (2 ^ (60 : ℤ)) 1
    simp only [mul_one, r2, p2, r3, neg_one_mul, r4] at h
    exact h
  have d2 : glm.determinant_float binary32.round Examples.tinyMirror = 0 := by
    have h := determinant_float_diagonal binary32.round r0 (-(2 ^ (-60 : ℤ)) : ℚ)
      (2 ^ (-60 : ℤ)) (2 ^ (-60 : ℤ)) 1
    simp only [mul_one, r5, p3, r6, neg_mul, p4, r7, r0] at h
    exact h
  refine ⟨⟨rfl, rfl, rfl, rfl⟩, ?_, d1, ?_, ⟨rfl, rfl, rfl, rfl⟩, ?_, d2, ?_⟩
  · simp only [glm.determinant, e1]
    simp only [Matrix.cons_val_zero, Matrix.cons_val_one, Matrix.head_cons,
      Matrix.cons_val_two, Matrix.tail_cons, Matrix.cons_val_three,
      mul_zero, zero_mul, mul_one, one_mul, sub_zero, add_zero, zero_add, neg_zero,
      neg_mul, p2]
  · rw [DecomposeMatrix_float_scale_y, e1 0 1, e1 1 1, e1 2 1]
    simp only [Matrix.cons_val_zero, Matrix.cons_val_one, Matrix.head_cons,
      Matrix.cons_val_two, Matrix.tail_cons, Matrix.cons_val_three,
      mul_zero, zero_mul, add_zero, zero_add, p1, r0, r1, binary32.sqrt_zero]
  · simp only [glm.determinant, e2]
    simp only [Matrix.cons_val_zero, Matrix.cons_val_one, Matrix.head_cons,
      Matrix.cons_val_two, Matrix.tail_cons, Matrix.cons_val_three,
      mul_zero, zero_mul, mul_one, one_mul, sub_zero, add_zero, zero_add, neg_zero,
      neg_mul, p3, p4]
  · rw [DecomposeMatrix_float_scale_x, d2, if_neg (lt_irrefl _), e2 0 0, e2 1 0, e2 2 0]
    simp only [Matrix.cons_val_zero, Matrix.cons_val_one, Matrix.head_cons,
      Matrix.cons_val_two, Matrix.tail_cons, Matrix.cons_val_three,
      mul_zero, zero_mul, add_zero, zero_add, neg_mul, mul_neg, neg_neg, p3, r0, r6]
    have h := binary32.sqrt_round_pos (2 ^ (-120 : ℤ)) (by rw [r6]; positivity)
    rw [r6] at h
    exact h

/-- C10, amended.  The sign rule of `DecomposeMatrix` in `float` arithmetic, for
every rounding `fl` and every square root that is never negative and is positive on
the positive values of the number type: for every transform `m`, with the
determinant as the function computes it, if that determinant is negative then
scale.x ≤ 0, and scale.x < 0 unless the computed squared length of row 0 is zero;
if it is not negative then scale.x ≥ 0; scale.y and scale.z are never negative, and
each is positive unless the computed squared length of its row is zero. -/
theorem DecomposeMatrix_float_sign_rule {K : Type} [LinearOrderedField K] (fl sqrt : K → K)
    (hnonneg : ∀ x, 0 ≤ sqrt x) (hpos : ∀ x, 0 < fl x → 0 < sqrt (fl x)) (m : glm.mat4 K) :
    (glm.determinant_float fl m < 0 →
      (DecomposeMatrix_float fl sqrt m).scale.x ≤ 0 ∧
      (0 < glm.dot_float fl (glm.vec3.mk (m 0 0) (m 1 0) (m 2 0))
             (glm.vec3.mk (m 0 0) (m 1 0) (m 2 0)) →
        (DecomposeMatrix_float fl sqrt m).scale.x < 0)) ∧
    (0 ≤ glm.determinant_float fl m → 0 ≤ (DecomposeMatrix_float fl sqrt m).scale.x) ∧
    0 ≤ (DecomposeMatrix_float fl sqrt m).scale.y ∧
    0 ≤ (DecomposeMatrix_float fl sqrt m).scale.z ∧
    (0 < glm.dot_float fl (glm.vec3.mk (m 0 1) (m 1 1) (m 2 1))
           (glm.vec3.mk (m 0 1) (m 1 1) (m 2 1)) →
      0 < (DecomposeMatrix_float fl sqrt m).scale.y) ∧
    (0 < glm.dot_float fl (glm.vec3.mk (m 0 2) (m 1 2) (m 2 2))
           (glm.vec3.mk (m 0 2) (m 1 2) (m 2 2)) →
      0 < (DecomposeMatrix_float fl sqrt m).scale.z) := by
  rw [DecomposeMatrix_float_scale_x, DecomposeMatrix_float_scale_y,
    DecomposeMatrix_float_scale_z, dot_float_row, dot_float_row, dot_float_row]
  refine ⟨fun hdet => ?_, fun hdet => ?_, hnonneg _, hnonneg _, fun h => ?_, fun h => ?_⟩
  · rw [if_pos hdet]
    exact ⟨neg_nonpos.mpr (hnonneg _), fun h => neg_neg_of_pos (hpos _ h)⟩
  · rw [if_neg (not_lt.mpr hdet)]
    exact hnonneg _
  · exact hpos _ h
  · exact hpos _ h

/-- C10 at a concrete input, in binary32 arithmetic: the mirror diag(-1, 1, 1, 1)
has the computed determinant -1 and rows of computed squared length 1, so its
decomposition has a negative x scale and positive y and z scales. -/
theorem DecomposeMatrix_float_sign_rule_witness :
    glm.determinant_float binary32.round Examples.mirrorX < 0 ∧
    (DecomposeMatrix_float binary32.round binary32.sqrt Examples.mirrorX).scale.x < 0 ∧
    0 < (DecomposeMatrix_float binary32.round binary32.sqrt Examples.mirrorX).scale.y ∧
    0 < (DecomposeMatrix_float binary32.round binary32.sqrt Examples.mirrorX).scale.z :=
  have hdet : glm.determinant_float binary32.round Examples.mirrorX < 0 := by
    have h := determinant_float_diagonal binary32.round binary32.round_zero (-1 : ℚ) 1 1 1
    simp only [mul_one, binary32.round_one, neg_one_mul, binary32.round_neg_one] at h
    exact lt_of_eq_of_lt h (by norm_num)
  have hrow : ∀ r : Fin 4, r ≠ 3 →
      0 < glm.dot_float binary32.round
        (glm.vec3.mk (Examples.mirrorX 0 r) (Examples.mirrorX 1 r) (Examples.mirrorX 2 r))
        (glm.vec3.mk (Examples.mirrorX 0 r) (Examples.mirrorX 1 r) (Examples.mirrorX 2 r)) := by
    intro r hr
    rw [dot_float_row]
    fin_cases r
    · simp [Examples.mirrorX, binary32.round_zero, binary32.round_one, Matrix.vecHead,
        Matrix.vecTail]
    · simp [Examples.mirrorX, binary32.round_zero, binary32.round_one, Matrix.vecHead,
        Matrix.vecTail]
    · simp [Examples.mirrorX, binary32.round_zero, binary32.round_one, Matrix.vecHead,
        Matrix.vecTail]
    · exact absurd rfl hr
  have h := DecomposeMatrix_float_sign_rule binary32.round binary32.sqrt
    binary32.sqrt_nonneg binary32.sqrt_round_pos Examples.mirrorX
  ⟨hdet, (h.1 hdet).2 (hrow 0 (by decide)), h.2.2.2.2.1 (hrow 1 (by decide)),
    h.2.2.2.2.2 (hrow 2 (by decide))⟩

/-- C9: evaluation at the failing input, over the reals with the real square root.
The matrix is a quarter turn about z applied after the scaling (2, 1, 1), so its
columns 0, 1, 2 have lengths 2, 1, 1 (the scale factors); `DecomposeMatrix` returns the scale (1, 2, 1),
the lengths of the rows of the upper-left 3x3 block. -/
theorem DecomposeMatrix_scale_is_row_lengths_not_column_lengths :
    Examples.quarterTurnScaled ℝ = Examples.quarterTurn ℝ * Examples.scale211 ℝ ∧
    (DecomposeMatrix Real.sqrt (Examples.quarterTurnScaled ℝ)).scale = glm.vec3.mk 1 2 1 ∧
    glm.length Real.sqrt (GetColumnFromMatrix (Examples.quarterTurnScaled ℝ) 0) = 2 ∧
    glm.length Real.sqrt (GetColumnFromMatrix (Examples.quarterTurnScaled ℝ) 1) = 1 ∧
    glm.length Real.sqrt (GetColumnFromMatrix (Examples.quarterTurnScaled ℝ) 2) = 1 ∧
    0 < glm.determinant (Examples.quarterTurnScaled ℝ) := by
  have h4 : Real.sqrt 4 = 2 := by
    rw [show (4 : ℝ) = 2 ^ 2 by norm_num]
    exact Real.sqrt_sq (by norm_num)
  have hd : glm.determinant (Examples.quarterTurnScaled ℝ) = 2 := by
    norm_num [glm.determinant, Examples.quarterTurnScaled]
  refine ⟨?_, ?_, ?_, ?_, ?_, ?_⟩
  · funext c r
    fin_cases c <;> fin_cases r <;>
      simp [glm.mat4.mul_apply, Examples.quarterTurnScaled, Examples.quarterTurn,
        Examples.scale211, Matrix.vecHead, Matrix.vecTail]
  · rw [DecomposeMatrix_scale, hd]
    norm_num [Examples.quarterTurnScaled, h4, Matrix.vecHead, Matrix.vecTail]
  · norm_num [glm.length, glm.dot, GetColumnFromMatrix, Examples.quarterTurnScaled, h4,
      Matrix.vecHead, Matrix.vecTail]
  · norm_num [glm.length, glm.dot, GetColumnFromMatrix, Examples.quarterTurnScaled,
      Matrix.vecHead, Matrix.vecTail]
  · norm_num [glm.length, glm.dot, GetColumnFromMatrix, Examples.quarterTurnScaled,
      Matrix.vecHead, Matrix.vecTail]
  · rw [hd]; norm_num

end util

/-! ## Translation, extrinsics, the localization callback and the twin session -/

namespace util

/-- C13.  For every matrix `m` the translation `DecomposeMatrix` returns is
(m[3][0], m[3][1], m[3][2]), the upper three entries of the fourth column; it
equals `GetTranslationFromMatrix(m)` and `GetColumnFromMatrix(m, 3)`, and it is the
same for any other matrix (and square root) with these three entries, whatever the
remaining entries are. -/
theorem DecomposeMatrix_translation {K : Type} [LinearOrderedField K] (sqrt sqrt2 : K → K)
    (m m2 : glm.mat4 K) (h0 : m2 3 0 = m 3 0) (h1 : m2 3 1 = m 3 1) (h2 : m2 3 2 = m 3 2) :
    (DecomposeMatrix sqrt m).translation = glm.vec3.mk (m 3 0) (m 3 1) (m 3 2) ∧
    (DecomposeMatrix sqrt m).translation = GetTranslationFromMatrix m ∧
    (DecomposeMatrix sqrt m).translation = GetColumnFromMatrix m 3 ∧
    (DecomposeMatrix sqrt2 m2).translation = (DecomposeMatrix sqrt m).translation := by
  refine ⟨rfl, rfl, rfl, ?_⟩
  show glm.vec3.mk (m2 3 0) (m2 3 1) (m2 3 2) = glm.vec3.mk (m 3 0) (m 3 1) (m 3 2)
  rw [h0, h1, h2]

/-- C13 at concrete matrices: `Examples.matD` and `Examples.matD2` share the fourth
column (1, 2, 3, 1) and differ elsewhere. -/
theorem DecomposeMatrix_translation_witness :
    (DecomposeMatrix (fun x => x) Examples.matD).translation = glm.vec3.mk 1 2 3 ∧
    (DecomposeMatrix (fun x => x + 1) Examples.matD2).translation
      = (DecomposeMatrix (fun x => x) Examples.matD).translation :=
  have h := DecomposeMatrix_translation (fun x => x) (fun x => x + 1) Examples.matD
    Examples.matD2 (by decide) (by decide) (by decide)
  ⟨h.1, h.2.2.2⟩

end util

namespace TangoData

/-- The boolean result, the extrinsics fields and the log after
`TangoData::GetExtrinsics`, case by case. -/
theorem GetExtrinsics_cases_twin {K : Type} [Zero K] (svc : PoseService K)
    (log : List (PoseQuery K)) (s : TangoData K) :
    ((CinderTango.deviceAnswer svc log).1 ≠ TANGO_SUCCESS →
      GetExtrinsics svc log s = (false, s,
        log ++ [⟨0, ⟨TangoCoordinateFrameType.IMU, TangoCoordinateFrameType.DEVICE⟩⟩])) ∧
    ((CinderTango.deviceAnswer svc log).1 = TANGO_SUCCESS →
      (CinderTango.colorCameraAnswer svc log).1 ≠ TANGO_SUCCESS →
      GetExtrinsics svc log s = (false,
        { s with
          imu_p_device := glm.vec3.mk ((CinderTango.deviceAnswer svc log).2.translation 0)
            ((CinderTango.deviceAnswer svc log).2.translation 1)
            ((CinderTango.deviceAnswer svc log).2.translation 2),
          imu_q_device := glm.quat.mk ((CinderTango.deviceAnswer svc log).2.orientation 3)
            ((CinderTango.deviceAnswer svc log).2.orientation 0)
            ((CinderTango.deviceAnswer svc log).2.orientation 1)
            ((CinderTango.deviceAnswer svc log).2.orientation 2) },
        log ++ [⟨0, ⟨TangoCoordinateFrameType.IMU, TangoCoordinateFrameType.DEVICE⟩⟩,
                ⟨0, ⟨TangoCoordinateFrameType.IMU, TangoCoordinateFrameType.CAMERA_COLOR⟩⟩])) ∧
    ((CinderTango.deviceAnswer svc log).1 = TANGO_SUCCESS →
      (CinderTango.colorCameraAnswer svc log).1 = TANGO_SUCCESS →
      GetExtrinsics svc log s = (true,
        { s with
          imu_p_device := glm.vec3.mk ((CinderTango.deviceAnswer svc log).2.translation 0)
            ((CinderTango.deviceAnswer svc log).2.translation 1)
            ((CinderTango.deviceAnswer svc log).2.translation 2),
          imu_q_device := glm.quat.mk ((CinderTango.deviceAnswer svc log).2.orientation 3)
            ((CinderTango.deviceAnswer svc log).2.orientation 0)
            ((CinderTango.deviceAnswer svc log).2.orientation 1)
            ((CinderTango.deviceAnswer svc log).2.orientation 2),
          imu_p_cc := glm.vec3.mk ((CinderTango.colorCameraAnswer svc log).2.translation 0)
            ((CinderTango.colorCameraAnswer svc log).2.translation 1)
            ((CinderTango.colorCameraAnswer svc log).2.translation 2),
          imu_q_cc := glm.quat.mk ((CinderTango.colorCameraAnswer svc log).2.orientation 3)
            ((CinderTango.colorCameraAnswer svc log).2.orientation 0)
            ((CinderTango.colorCameraAnswer svc log).2.orientation 1)
            ((CinderTango.colorCameraAnswer svc log).2.orientation 2) },
        log ++ [⟨0, ⟨TangoCoordinateFrameType.IMU, TangoCoordinateFrameType.DEVICE⟩⟩,
                ⟨0, ⟨TangoCoordinateFrameType.IMU, TangoCoordinateFrameType.CAMERA_COLOR⟩⟩])) := by
  unfold CinderTango.deviceAnswer CinderTango.colorCameraAnswer
  refine ⟨fun hd => ?_, fun hd hc => ?_, fun hd hc => ?_⟩
  · simp [GetExtrinsics, TangoService_getPoseAtTime, hd]
  · simp [GetExtrinsics, TangoService_getPoseAtTime, hd, hc]
  · simp [GetExtrinsics, TangoService_getPoseAtTime, hd, hc]

end TangoData

namespace CinderTango

/-- The boolean result, the session and the log after `CinderTango::GetExtrinsics`,
case by case. -/
theorem GetExtrinsics_cases {K : Type} [Zero K] (svc : PoseService K)
    (log : List (PoseQuery K)) (s : CinderTango K) :
    ((deviceAnswer svc log).1 ≠ TANGO_SUCCESS →
      GetExtrinsics svc log s = (false, s,
        log ++ [⟨0, ⟨TangoCoordinateFrameType.IMU, TangoCoordinateFrameType.DEVICE⟩⟩])) ∧
    ((deviceAnswer svc log).1 = TANGO_SUCCESS →
      (colorCameraAnswer svc log).1 ≠ TANGO_SUCCESS →
      GetExtrinsics svc log s = (false,
        { s with
          imu_p_device := glm.vec3.mk ((deviceAnswer svc log).2.translation 0)
            ((deviceAnswer svc log).2.translation 1) ((deviceAnswer svc log).2.translation 2),
          imu_q_device := glm.quat.mk ((deviceAnswer svc log).2.orientation 3)
            ((deviceAnswer svc log).2.orientation 0) ((deviceAnswer svc log).2.orientation 1)
            ((deviceAnswer svc log).2.orientation 2) },
        log ++ [⟨0, ⟨TangoCoordinateFrameType.IMU, TangoCoordinateFrameType.DEVICE⟩⟩,
                ⟨0, ⟨TangoCoordinateFrameType.IMU, TangoCoordinateFrameType.CAMERA_COLOR⟩⟩])) ∧
    ((deviceAnswer svc log).1 = TANGO_SUCCESS →
      (colorCameraAnswer svc log).1 = TANGO_SUCCESS →
      GetExtrinsics svc log s = (true,
        { s with
          imu_p_device := glm.vec3.mk ((deviceAnswer svc log).2.translation 0)
            ((deviceAnswer svc log).2.translation 1) ((deviceAnswer svc log).2.translation 2),
          imu_q_device := glm.quat.mk ((deviceAnswer svc log).2.orientation 3)
            ((deviceAnswer svc log).2.orientation 0) ((deviceAnswer svc log).2.orientation 1)
            ((deviceAnswer svc log).2.orientation 2),
          imu_p_cc := glm.vec3.mk ((colorCameraAnswer svc log).2.translation 0)
            ((colorCameraAnswer svc log).2.translation 1)
            ((colorCameraAnswer svc log).2.translation 2),
          imu_q_cc := glm.quat.mk ((colorCameraAnswer svc log).2.orientation 3)
            ((colorCameraAnswer svc log).2.orientation 0)
            ((colorCameraAnswer svc log).2.orientation 1)
            ((colorCameraAnswer svc log).2.orientation 2) },
        log ++ [⟨0, ⟨TangoCoordinateFrameType.IMU, TangoCoordinateFrameType.DEVICE⟩⟩,
                ⟨0, ⟨TangoCoordinateFrameType.IMU, TangoCoordinateFrameType.CAMERA_COLOR⟩⟩])) := by
  unfold deviceAnswer colorCameraAnswer
  refine ⟨fun hd => ?_, fun hd hc => ?_, fun hd hc => ?_⟩
  · simp [GetExtrinsics, TangoService_getPoseAtTime, hd]
  · simp [GetExtrinsics, TangoService_getPoseAtTime, hd, hc]
  · simp [GetExtrinsics, TangoService_getPoseAtTime, hd, hc]

/-- C15.  After `onPoseAvailable` the localization state is true if and only if
the delivered pose has status `TANGO_POSE_VALID`: the new value is a function of
`status_code` alone, whatever `is_localized` was before and whatever the other
fields of the pose are.  The same holds for the callback of tango_data.cpp. -/
theorem onPoseAvailable_is_localized {K : Type} (pose : TangoPoseData K)
    (c : CinderTango K) (t : TangoData K) :
    ((onPoseAvailable pose c).is_localized = true ↔ pose.status_code = TANGO_POSE_VALID) ∧
    (onPoseAvailable pose c).is_localized = decide (pose.status_code = TANGO_POSE_VALID) ∧
    ((TangoData.onPoseAvailable pose t).is_localized = true
      ↔ pose.status_code = TANGO_POSE_VALID) ∧
    (TangoData.onPoseAvailable pose t).is_localized
      = decide (pose.status_code = TANGO_POSE_VALID) := by
  unfold onPoseAvailable TangoData.onPoseAvailable
  by_cases h : pose.status_code = TANGO_POSE_VALID <;> simp [h]

/-- C14.  `GetExtrinsics` returns false if and only if at least one of its two
pose queries (IMU to device, then IMU to color camera, both at timestamp 0) does
not return `TANGO_SUCCESS`.  When both succeed it returns true, has issued exactly
these two queries in this order, and has stored the translation and the reordered
quaternion of the first answer in `imu_p_device`/`imu_q_device` and those of the
second in `imu_p_cc`/`imu_q_cc`.  The same holds for `TangoData::GetExtrinsics`. -/
theorem GetExtrinsics_result {K : Type} [Zero K] (svc : PoseService K)
    (log : List (PoseQuery K)) (c : CinderTango K) (t : TangoData K) :
    ((GetExtrinsics svc log c).1 = false ↔
      ((deviceAnswer svc log).1 ≠ TANGO_SUCCESS ∨
       (colorCameraAnswer svc log).1 ≠ TANGO_SUCCESS)) ∧
    ((TangoData.GetExtrinsics svc log t).1 = false ↔
      ((deviceAnswer svc log).1 ≠ TANGO_SUCCESS ∨
       (colorCameraAnswer svc log).1 ≠ TANGO_SUCCESS)) ∧
    ((deviceAnswer svc log).1 = TANGO_SUCCESS →
     (colorCameraAnswer svc log).1 = TANGO_SUCCESS →
      ((GetExtrinsics svc log c).1 = true ∧
       (GetExtrinsics svc log c).2.1.imu_p_device =
         glm.vec3.mk ((deviceAnswer svc log).2.translation 0)
           ((deviceAnswer svc log).2.translation 1) ((deviceAnswer svc log).2.translation 2) ∧
       (GetExtrinsics svc log c).2.1.imu_q_device =
         glm.quat.mk ((deviceAnswer svc log).2.orientation 3)
           ((deviceAnswer svc log).2.orientation 0) ((deviceAnswer svc log).2.orientation 1)
           ((deviceAnswer svc log).2.orientation 2) ∧
       (GetExtrinsics svc log c).2.1.imu_p_cc =
         glm.vec3.mk ((colorCameraAnswer svc log).2.translation 0)
           ((colorCameraAnswer svc log).2.translation 1)
           ((colorCameraAnswer svc log).2.translation 2) ∧
       (GetExtrinsics svc log c).2.1.imu_q_cc =
         glm.quat.mk ((colorCameraAnswer svc log).2.orientation 3)
           ((colorCameraAnswer svc log).2.orientation 0)
           ((colorCameraAnswer svc log).2.orientation 1)
           ((colorCameraAnswer svc log).2.orientation 2) ∧
       (GetExtrinsics svc log c).2.2 =
         log ++ [⟨0, ⟨TangoCoordinateFrameType.IMU, TangoCoordinateFrameType.DEVICE⟩⟩,
                 ⟨0, ⟨TangoCoordinateFrameType.IMU, TangoCoordinateFrameType.CAMERA_COLOR⟩⟩]) ∧
      ((TangoData.GetExtrinsics svc log t).1 = true ∧
       (TangoData.GetExtrinsics svc log t).2.1.imu_p_device =
         glm.vec3.mk ((deviceAnswer svc log).2.translation 0)
           ((deviceAnswer svc log).2.translation 1) ((deviceAnswer svc log).2.translation 2) ∧
       (TangoData.GetExtrinsics svc log t).2.1.imu_q_device =
         glm.quat.mk ((deviceAnswer svc log).2.orientation 3)
           ((deviceAnswer svc log).2.orientation 0) ((deviceAnswer svc log).2.orientation 1)
           ((deviceAnswer svc log).2.orientation 2) ∧
       (TangoData.GetExtrinsics svc log t).2.1.imu_p_cc =
         glm.vec3.mk ((colorCameraAnswer svc log).2.translation 0)
           ((colorCameraAnswer svc log).2.translation 1)
           ((colorCameraAnswer svc log).2.translation 2) ∧
       (TangoData.GetExtrinsics svc log t).2.1.imu_q_cc =
         glm.quat.mk ((colorCameraAnswer svc log).2.orientation 3)
           ((colorCameraAnswer svc log).2.orientation 0)
           ((colorCameraAnswer svc log).2.orientation 1)
           ((colorCameraAnswer svc log).2.orientation 2) ∧
       (TangoData.GetExtrinsics svc log t).2.2 =
         log ++ [⟨0, ⟨TangoCoordinateFrameType.IMU, TangoCoordinateFrameType.DEVICE⟩⟩,
                 ⟨0, ⟨TangoCoordinateFrameType.IMU, TangoCoordinateFrameType.CAMERA_COLOR⟩⟩])) := by
  obtain ⟨c1, c2, c3⟩ := GetExtrinsics_cases svc log c
  obtain ⟨t1, t2, t3⟩ := TangoData.GetExtrinsics_cases_twin svc log t
  refine ⟨?_, ?_, fun hd hc => ?_⟩
  · by_cases hd : (deviceAnswer svc log).1 = TANGO_SUCCESS
    · by_cases hc : (colorCameraAnswer svc log).1 = TANGO_SUCCESS
      · rw [c3 hd hc]; simp [hd, hc]
      · rw [c2 hd hc]; simp [hc]
    · rw [c1 hd]; simp [hd]
  · by_cases hd : (deviceAnswer svc log).1 = TANGO_SUCCESS
    · by_cases hc : (colorCameraAnswer svc log).1 = TANGO_SUCCESS
      · rw [t3 hd hc]; simp [hd, hc]
      · rw [t2 hd hc]; simp [hc]
    · rw [t1 hd]; simp [hd]
  · rw [c3 hd hc, t3 hd hc]
    exact ⟨⟨rfl, rfl, rfl, rfl, rfl, rfl⟩, ⟨rfl, rfl, rfl, rfl, rfl, rfl⟩⟩

/-- C14 at concrete inputs: with the answers `poseB` and `poseA` both extrinsics are
stored and the result is true; with a failing second query the result is false. -/
theorem GetExtrinsics_result_witness :
    (GetExtrinsics Examples.svcBoth [] Examples.session0).1 = true ∧
    (GetExtrinsics Examples.svcBoth [] Examples.session0).2.1.imu_p_device
      = glm.vec3.mk 4 5 6 ∧
    (GetExtrinsics Examples.svcBoth [] Examples.session0).2.1.imu_q_device
      = glm.quat.mk 0 0 0 1 ∧
    (GetExtrinsics Examples.svcBoth [] Examples.session0).2.1.imu_p_cc
      = glm.vec3.mk 1 2 3 ∧
    (GetExtrinsics Examples.svcBoth [] Examples.session0).2.1.imu_q_cc
      = glm.quat.mk 1 0 0 0 ∧
    (GetExtrinsics Examples.svcDeviceOnly [] Examples.session0).1 = false ∧
    (TangoData.GetExtrinsics Examples.svcDeviceOnly [] Examples.tsession0).1 = false :=
  have h := (GetExtrinsics_result Examples.svcBoth [] Examples.session0
    Examples.tsession0).2.2 (by decide) (by decide)
  have g := GetExtrinsics_result Examples.svcDeviceOnly [] Examples.session0
    Examples.tsession0
  ⟨h.1.1, h.1.2.1, h.1.2.2.1, h.1.2.2.2.1, h.1.2.2.2.2.1,
   g.1.2 (Or.inr (by decide)), g.2.1.2 (Or.inr (by decide))⟩

end CinderTango

namespace TangoData

/-- The result of `TangoData::GetPoseAtTime`, in terms of the two answers. -/
theorem GetPoseAtTime_eq_twin {K : Type} [Zero K] (svc : PoseService K)
    (log : List (PoseQuery K)) (s : TangoData K) :
    GetPoseAtTime svc log s =
      (true,
       if PoseOk (svc log ⟨0, CinderTango.poseFramePair s.is_localized⟩) then
         let pose :=
           if PoseOk (svc (log ++ [⟨0, CinderTango.poseFramePair s.is_localized⟩])
                ⟨s.timestamp, CinderTango.poseFramePair s.is_localized⟩)
           then (svc (log ++ [⟨0, CinderTango.poseFramePair s.is_localized⟩])
                ⟨s.timestamp, CinderTango.poseFramePair s.is_localized⟩).2
           else (svc log ⟨0, CinderTango.poseFramePair s.is_localized⟩).2
         { s with
           tango_position :=
             glm.vec3.mk (pose.translation 0) (pose.translation 1) (pose.translation 2),
           tango_rotation := glm.quat.mk (pose.orientation 3) (pose.orientation 0)
                               (pose.orientation 1) (pose.orientation 2) }
       else s,
       log ++ [⟨0, CinderTango.poseFramePair s.is_localized⟩,
               ⟨s.timestamp, CinderTango.poseFramePair s.is_localized⟩]) := by
  simp only [GetPoseAtTime, CinderTango.poseFramePair, PoseOk,
    TangoService_getPoseAtTime, Bool.and_eq_true, decide_eq_true_eq]
  split_ifs <;> simp

end TangoData

namespace CinderTango

/-- The result of `CinderTango::GetPoseAtTime`, in terms of the two answers. -/
theorem GetPoseAtTime_eq {K : Type} [Zero K] (svc : PoseService K)
    (log : List (PoseQuery K)) (s : CinderTango K) :
    GetPoseAtTime svc log s =
      (true,
       if PoseOk (svc log ⟨0, poseFramePair s.is_localized⟩) then
         let pose :=
           if PoseOk (svc (log ++ [⟨0, poseFramePair s.is_localized⟩])
                ⟨s.timestamp, poseFramePair s.is_localized⟩)
           then (svc (log ++ [⟨0, poseFramePair s.is_localized⟩])
                ⟨s.timestamp, poseFramePair s.is_localized⟩).2
           else (svc log ⟨0, poseFramePair s.is_localized⟩).2
         { s with
           tango_position :=
             glm.vec3.mk (pose.translation 0) (pose.translation 1) (pose.translation 2),
           tango_rotation := glm.quat.mk (pose.orientation 3) (pose.orientation 0)
                               (pose.orientation 1) (pose.orientation 2) }
       else s,
       log ++ [⟨0, poseFramePair s.is_localized⟩,
               ⟨s.timestamp, poseFramePair s.is_localized⟩]) := by
  simp only [GetPoseAtTime, poseFramePair, PoseOk,
    TangoService_getPoseAtTime, Bool.and_eq_true, decide_eq_true_eq]
  split_ifs <;> simp

/-- C18.  The two session types run the same logic.  For every service, log and
pair of sessions that agree on `is_localized`, the texture timestamp and the stored
pose, `CinderTango::GetPoseAtTime` and `TangoData::GetPoseAtTime` issue the same
queries and give the same return value and the same resulting
`tango_position`/`tango_rotation`; and for sessions that agree on the four
extrinsics fields, `CinderTango::GetExtrinsics` and `TangoData::GetExtrinsics` issue
the same queries and give the same return value and the same extrinsics fields. -/
theorem twin_sessions_agree {K : Type} [Zero K] (svc : PoseService K)
    (log : List (PoseQuery K)) (c : CinderTango K) (t : TangoData K)
    (hloc : c.is_localized = t.is_localized) (hts : c.timestamp = t.timestamp)
    (hp : c.tango_position = t.tango_position) (hr : c.tango_rotation = t.tango_rotation)
    (hpd : c.imu_p_device = t.imu_p_device) (hqd : c.imu_q_device = t.imu_q_device)
    (hpc : c.imu_p_cc = t.imu_p_cc) (hqc : c.imu_q_cc = t.imu_q_cc) :
    ((GetPoseAtTime svc log c).1 = (TangoData.GetPoseAtTime svc log t).1 ∧
     (GetPoseAtTime svc log c).2.1.tango_position
       = (TangoData.GetPoseAtTime svc log t).2.1.tango_position ∧
     (GetPoseAtTime svc log c).2.1.tango_rotation
       = (TangoData.GetPoseAtTime svc log t).2.1.tango_rotation ∧
     (GetPoseAtTime svc log c).2.2 = (TangoData.GetPoseAtTime svc log t).2.2) ∧
    ((GetExtrinsics svc log c).1 = (TangoData.GetExtrinsics svc log t).1 ∧
     (GetExtrinsics svc log c).2.1.imu_p_device
       = (TangoData.GetExtrinsics svc log t).2.1.imu_p_device ∧
     (GetExtrinsics svc log c).2.1.imu_q_device
       = (TangoData.GetExtrinsics svc log t).2.1.imu_q_device ∧
     (GetExtrinsics svc log c).2.1.imu_p_cc
       = (TangoData.GetExtrinsics svc log t).2.1.imu_p_cc ∧
     (GetExtrinsics svc log c).2.1.imu_q_cc
       = (TangoData.GetExtrinsics svc log t).2.1.imu_q_cc ∧
     (GetExtrinsics svc log c).2.2 = (TangoData.GetExtrinsics svc log t).2.2) := by
  constructor
  · rw [GetPoseAtTime_eq, TangoData.GetPoseAtTime_eq_twin, hloc, hts]
    refine ⟨rfl, ?_, ?_, rfl⟩
    · dsimp only
      split_ifs <;> first | rfl | exact hp
    · dsimp only
      split_ifs <;> first | rfl | exact hr
  · obtain ⟨c1, c2, c3⟩ := GetExtrinsics_cases svc log c
    obtain ⟨t1, t2, t3⟩ := TangoData.GetExtrinsics_cases_twin svc log t
    by_cases hd : (deviceAnswer svc log).1 = TANGO_SUCCESS
    · by_cases hc : (colorCameraAnswer svc log).1 = TANGO_SUCCESS
      · rw [c3 hd hc, t3 hd hc]
        exact ⟨rfl, rfl, rfl, rfl, rfl, rfl⟩
      · rw [c2 hd hc, t2 hd hc]
        exact ⟨rfl, rfl, rfl, hpc, hqc, rfl⟩
    · rw [c1 hd, t1 hd]
      exact ⟨rfl, hpd, hqd, hpc, hqc, rfl⟩

/-- C18 at concrete inputs: the two freshly constructed sessions, with both pose
queries valid. -/
theorem twin_sessions_agree_witness :
    (GetPoseAtTime Examples.svcBoth [] Examples.session0).2.1.tango_position
      = (TangoData.GetPoseAtTime Examples.svcBoth [] Examples.tsession0).2.1.tango_position ∧
    (GetExtrinsics Examples.svcBoth [] Examples.session0).2.1.imu_q_cc
      = (TangoData.GetExtrinsics Examples.svcBoth [] Examples.tsession0).2.1.imu_q_cc :=
  have h := twin_sessions_agree Examples.svcBoth [] Examples.session0 Examples.tsession0
    rfl rfl rfl rfl rfl rfl rfl rfl
  ⟨h.1.2.1, h.2.2.2.2.2.1⟩

end CinderTango

/-! ## Status strings and map selection: `getStatusStringFromStatusCode`, `SetConfig` -/

namespace CinderTango

/-- An `int` below `INT_MAX` is incremented exactly. -/
theorem wrap_int32_succ (x : Int) (hlo : -2147483648 ≤ x) (hhi : x < 2147483647) :
    wrap_int32 (x + 1) = x + 1 := by
  unfold wrap_int32
  omega

/-- C20, failing input.  With `status_count[0]` at `INT_MAX` = 2147483647 the call
for `TANGO_POSE_INITIALIZING` returns "Initializing" and leaves -2147483648 in the
counter, not 2147483648: the counter is not incremented by one. -/
theorem getStatusStringFromStatusCode_counter_overflows :
    Examples.sessionSaturated.status_count 0 = 2147483647 ∧
    (getStatusStringFromStatusCode TANGO_POSE_INITIALIZING Examples.sessionSaturated).map
        (fun r => (r.1, r.2.status_count 0)) = some ("Initializing", -2147483648) ∧
    (getStatusStringFromStatusCode TANGO_POSE_INITIALIZING Examples.sessionSaturated).map
        (fun r => r.2.status_count 0) ≠ some (Examples.sessionSaturated.status_count 0 + 1) := by
  decide

/-- C20, amended.  `getStatusStringFromStatusCode` returns "Initializing", "Valid",
"Invalid" and "Unknown" for the codes 0, 1, 2 and 3 and "Status_Code_Invalid" for
every code above 3.  For the codes 0, 1 and 2 the write into the three-element
array `status_count` is in bounds (the call completes) and exactly the counter of
that code changes: it becomes the old value plus one reduced to the range of `int`,
which is the old value plus one whenever the old value is an `int` below `INT_MAX`.
For `TANGO_POSE_UNKNOWN` and every code above it the session is left as it was. -/
theorem getStatusStringFromStatusCode_spec {K : Type} (s : CinderTango K)
    (status : TangoPoseStatusType) :
    (TANGO_POSE_INITIALIZING = 0 ∧ TANGO_POSE_VALID = 1 ∧ TANGO_POSE_INVALID = 2 ∧
      TANGO_POSE_UNKNOWN = 3) ∧
    getStatusStringFromStatusCode TANGO_POSE_INITIALIZING s
      = some ("Initializing",
          { s with status_count :=
              ![wrap_int32 (s.status_count 0 + 1), s.status_count 1, s.status_count 2] }) ∧
    getStatusStringFromStatusCode TANGO_POSE_VALID s
      = some ("Valid",
          { s with status_count :=
              ![s.status_count 0, wrap_int32 (s.status_count 1 + 1), s.status_count 2] }) ∧
    getStatusStringFromStatusCode TANGO_POSE_INVALID s
      = some ("Invalid",
          { s with status_count :=
              ![s.status_count 0, s.status_count 1, wrap_int32 (s.status_count 2 + 1)] }) ∧
    getStatusStringFromStatusCode TANGO_POSE_UNKNOWN s = some ("Unknown", s) ∧
    (3 < status → getStatusStringFromStatusCode status s = some ("Status_Code_Invalid", s)) ∧
    (∀ j : Fin 3, -2147483648 ≤ s.status_count j → s.status_count j < 2147483647 →
      wrap_int32 (s.status_count j + 1) = s.status_count j + 1) := by
  refine ⟨⟨rfl, rfl, rfl, rfl⟩, ?_, ?_, ?_, rfl, ?_, fun j => wrap_int32_succ _⟩
  · simp only [getStatusStringFromStatusCode, status_count_increment, TANGO_POSE_INITIALIZING,
      TANGO_POSE_VALID, TANGO_POSE_INVALID, TANGO_POSE_UNKNOWN]
    refine congrArg (fun f => some (_, ({ s with status_count := f } : CinderTango K))) ?_
    funext j
    fin_cases j <;> simp
  · simp only [getStatusStringFromStatusCode, status_count_increment, TANGO_POSE_INITIALIZING,
      TANGO_POSE_VALID, TANGO_POSE_INVALID, TANGO_POSE_UNKNOWN]
    refine congrArg (fun f => some (_, ({ s with status_count := f } : CinderTango K))) ?_
    funext j
    fin_cases j <;> simp
  · simp only [getStatusStringFromStatusCode, status_count_increment, TANGO_POSE_INITIALIZING,
      TANGO_POSE_VALID, TANGO_POSE_INVALID, TANGO_POSE_UNKNOWN]
    refine congrArg (fun f => some (_, ({ s with status_count := f } : CinderTango K))) ?_
    funext j
    fin_cases j <;> simp
  · intro h
    have h' : (3 : Int) < status := h
    have h0 : status ≠ 0 := fun e => by rw [e] at h'; exact absurd h' (by decide)
    have h1 : status ≠ 1 := fun e => by rw [e] at h'; exact absurd h' (by decide)
    have h2 : status ≠ 2 := fun e => by rw [e] at h'; exact absurd h' (by decide)
    have h3 : status ≠ 3 := fun e => by rw [e] at h'; exact absurd h' (by decide)
    have hlt : ¬ status < 3 := not_lt.mpr (le_of_lt h')
    simp [getStatusStringFromStatusCode, TANGO_POSE_INITIALIZING, TANGO_POSE_VALID,
      TANGO_POSE_INVALID, TANGO_POSE_UNKNOWN, h0, h1, h2, h3, hlt]

/-- C20 at concrete inputs: the code 7 gives "Status_Code_Invalid" and leaves the
session as it was, and the counter 0 of a fresh session is incremented exactly. -/
theorem getStatusStringFromStatusCode_spec_witness :
    getStatusStringFromStatusCode 7 Examples.session0
      = some ("Status_Code_Invalid", Examples.session0) ∧
    wrap_int32 (Examples.session0.status_count 0 + 1)
      = Examples.session0.status_count 0 + 1 :=
  ⟨(getStatusStringFromStatusCode_spec Examples.session0 7).2.2.2.2.2.1 (by decide),
   (getStatusStringFromStatusCode_spec Examples.session0 7).2.2.2.2.2.2 0
      (by decide) (by decide)⟩

/-- For a negative code the guard `status < 3` lets the write through, at an index
outside the array: the call is undefined behaviour. -/
theorem getStatusStringFromStatusCode_negative {K : Type} (s : CinderTango K)
    (status : TangoPoseStatusType) (h : status < 0) :
    getStatusStringFromStatusCode status s = none := by
  have h3 : status < 3 := lt_trans h (by decide)
  have h0 : ¬ 0 ≤ status := not_le.mpr h
  simp [getStatusStringFromStatusCode, status_count_increment, h3, h0]

end CinderTango

theorem takeWhile_ne_append_delim (delim : Char) (u rest : List Char)
    (hu : ∀ c ∈ u, c ≠ delim) :
    (u ++ delim :: rest).takeWhile (fun c => c ≠ delim) = u ∧
    (u ++ delim :: rest).dropWhile (fun c => c ≠ delim) = delim :: rest := by
  induction u with
  | nil => simp [List.takeWhile, List.dropWhile]
  | cons c cs ih =>
    have hc : c ≠ delim := hu c (List.mem_cons_self _ _)
    have ih' := ih (fun x hx => hu x (List.mem_cons_of_mem _ hx))
    simp only [ne_eq, decide_not] at ih'
    simp [List.takeWhile, List.dropWhile, hc, ih'.1, ih'.2]

theorem takeWhile_ne_all (delim : Char) (u : List Char) (hu : ∀ c ∈ u, c ≠ delim) :
    u.takeWhile (fun c => c ≠ delim) = u ∧ u.dropWhile (fun c => c ≠ delim) = [] := by
  induction u with
  | nil => simp
  | cons c cs ih =>
    have hc : c ≠ delim := hu c (List.mem_cons_self _ _)
    have ih' := ih (fun x hx => hu x (List.mem_cons_of_mem _ hx))
    simp only [ne_eq, decide_not] at ih'
    simp [List.takeWhile, List.dropWhile, hc, ih'.1, ih'.2]

theorem strtok_r_nil (delim : Char) : strtok_r [] delim = (none, []) := by
  simp [strtok_r]

namespace CinderTango

/-- On a comma-joined list of non-empty, comma-free UUIDs `strtok_r` returns the
first UUID and leaves the comma-joined rest. -/
theorem strtok_r_joinUUIDs (u : List Char) (us : List (List Char))
    (hne : u ≠ []) (hu : ∀ c ∈ u, c ≠ ',') :
    strtok_r (joinUUIDs (u :: us)) ',' = (some u, joinUUIDs us) := by
  obtain ⟨c, cs, rfl⟩ := List.exists_cons_of_ne_nil hne
  have hc : c ≠ ',' := hu c (List.mem_cons_self _ _)
  cases us with
  | nil =>
    have h := takeWhile_ne_all ',' (c :: cs) hu
    simp only [joinUUIDs, strtok_r]
    have hd : List.dropWhile (fun x => decide (x = ',')) (c :: cs) = c :: cs := by
      simp [List.dropWhile, hc]
    rw [hd]
    simp only [h.1, h.2]
    simp
  | cons v rest =>
    have h := takeWhile_ne_append_delim ',' (c :: cs) (joinUUIDs (v :: rest)) hu
    simp only [joinUUIDs, strtok_r]
    have hd : List.dropWhile (fun x => decide (x = ','))
        (c :: cs ++ ',' :: joinUUIDs (v :: rest)) = c :: cs ++ ',' :: joinUUIDs (v :: rest) := by
      simp [List.dropWhile, hc]
    rw [hd]
    simp only [h.1, h.2]
    simp

/-- With enough iterations the loop appends every UUID of the comma-joined rest. -/
theorem parse_uuid_loop_joinUUIDs (us : List (List Char)) :
    ∀ (u : List Char) (acc : List String) (fuel : Nat),
      (∀ v ∈ us, v ≠ [] ∧ ∀ c ∈ v, c ≠ ',') → us.length < fuel →
      parse_uuid_loop fuel (some u) (joinUUIDs us) acc
        = acc ++ (u :: us).map String.mk := by
  induction us with
  | nil =>
    intro u acc fuel _ hf
    obtain ⟨f, rfl⟩ : ∃ f, fuel = f + 1 := ⟨fuel - 1, by omega⟩
    simp only [parse_uuid_loop, joinUUIDs, strtok_r_nil]
    cases f <;> simp [parse_uuid_loop]
  | cons v rest ih =>
    intro u acc fuel hwf hf
    obtain ⟨f, rfl⟩ : ∃ f, fuel = f + 1 := ⟨fuel - 1, by omega⟩
    have hv := hwf v (List.mem_cons_self _ _)
    simp only [parse_uuid_loop, strtok_r_joinUUIDs v rest hv.1 hv.2]
    rw [ih v (acc ++ [String.mk u]) f
      (fun w hw => hwf w (List.mem_cons_of_mem _ hw)) (by simpa using hf)]
    simp

/-- A comma-joined list of non-empty UUIDs has at least as many characters as UUIDs. -/
theorem length_le_joinUUIDs (us : List (List Char)) (hwf : ∀ v ∈ us, v ≠ []) :
    us.length ≤ (joinUUIDs us).length := by
  induction us with
  | nil => simp
  | cons u rest ih =>
    have hu : 1 ≤ u.length := List.length_pos.mpr (hwf u (List.mem_cons_self _ _))
    have ih' := ih (fun w hw => hwf w (List.mem_cons_of_mem _ hw))
    cases rest with
    | nil => simpa [joinUUIDs] using hu
    | cons v rest2 =>
      simp only [joinUUIDs, List.length_append, List.length_cons] at ih' ⊢
      omega

/-- C16.  Map selection in `SetConfig`.  For every list of n ≥ 1 non-empty,
comma-free UUIDs joined by single commas, with every service and configuration
call succeeding, `SetConfig` sets `cur_uuid` to the last UUID of the list, passes
that same UUID in its one `config_load_area_description_UUID` call, and returns
true. -/
theorem SetConfig_selects_last_uuid {K : Type} (svc : ConfigService)
    (is_auto_recovery : Bool) (s : CinderTango K) (uuids : List (List Char))
    (hne : uuids ≠ []) (hwf : ∀ u ∈ uuids, u ≠ [] ∧ ∀ c ∈ u, c ≠ ',')
    (hcfg : svc.getConfig = true) (hbool : ∀ key value, svc.setBool key value = TANGO_SUCCESS)
    (hevent : svc.connectOnTangoEvent = TANGO_SUCCESS)
    (hlist : svc.getAreaDescriptionUUIDList = (TANGO_SUCCESS, some (joinUUIDs uuids)))
    (hstring : ∀ key value, svc.setString key value = TANGO_SUCCESS) :
    SetConfig svc is_auto_recovery s =
      some (true,
        { s with cur_uuid := String.mk (uuids.getLast hne) },
        [ConfigCall.setBool "config_enable_color_camera" true,
         ConfigCall.setBool "config_enable_auto_recovery" is_auto_recovery,
         ConfigCall.setBool "config_enable_low_latency_imu_integration" true,
         ConfigCall.getString "tango_service_library_version",
         ConfigCall.setString "config_load_area_description_UUID"
           (String.mk (uuids.getLast hne))]) := by
  obtain ⟨u, us, rfl⟩ := List.exists_cons_of_ne_nil hne
  have hu := hwf u (List.mem_cons_self _ _)
  have hus : ∀ v ∈ us, v ≠ [] ∧ ∀ c ∈ v, c ≠ ',' :=
    fun v hv => hwf v (List.mem_cons_of_mem _ hv)
  have hlen : us.length < (joinUUIDs (u :: us)).length + 1 := by
    have := length_le_joinUUIDs (u :: us) (fun v hv => (hwf v hv).1)
    simp only [List.length_cons] at this
    omega
  have hjoin : joinUUIDs (u :: us) ≠ [] := by
    intro h
    have := length_le_joinUUIDs (u :: us) (fun v hv => (hwf v hv).1)
    rw [h] at this
    simp at this
  have hloop := parse_uuid_loop_joinUUIDs us u [] _ hus hlen
  have hlast : ((u :: us).map String.mk).getD (((u :: us).map String.mk).length - 1) ""
      = String.mk ((u :: us).getLast hne) := by
    rw [List.getD_eq_getElem?_getD, ← List.getLast?_eq_getElem?, List.getLast?_map,
      List.getLast?_eq_getLast _ hne]
    rfl
  unfold SetConfig
  simp only [hcfg, hbool, hevent, hlist, hstring, strtok_r_joinUUIDs u us hu.1 hu.2, hloop,
    List.nil_append, hlast]
  simp [hjoin]

/-- C16 at a concrete input: the list "ab,c,de" selects "de". -/
theorem SetConfig_selects_last_uuid_witness :
    SetConfig Examples.cfgThree true Examples.session0 =
      some (true,
        { Examples.session0 with cur_uuid := "de" },
        [ConfigCall.setBool "config_enable_color_camera" true,
         ConfigCall.setBool "config_enable_auto_recovery" true,
         ConfigCall.setBool "config_enable_low_latency_imu_integration" true,
         ConfigCall.getString "tango_service_library_version",
         ConfigCall.setString "config_load_area_description_UUID" "de"]) :=
  SetConfig_selects_last_uuid Examples.cfgThree true Examples.session0
    ["ab".toList, "c".toList, "de".toList] (by decide) (by decide) rfl (fun _ _ => rfl) rfl
    rfl (fun _ _ => rfl)

/-- With an empty (non-null) map list and every preceding call succeeding,
`SetConfig` loads no map, keeps the session and returns true. -/
theorem SetConfig_empty_list {K : Type} (svc : ConfigService)
    (is_auto_recovery : Bool) (s : CinderTango K)
    (hcfg : svc.getConfig = true) (hbool : ∀ key value, svc.setBool key value = TANGO_SUCCESS)
    (hevent : svc.connectOnTangoEvent = TANGO_SUCCESS)
    (hlist : svc.getAreaDescriptionUUIDList.2 = some []) :
    SetConfig svc is_auto_recovery s =
      some (true, s,
        [ConfigCall.setBool "config_enable_color_camera" true,
         ConfigCall.setBool "config_enable_auto_recovery" is_auto_recovery,
         ConfigCall.setBool "config_enable_low_latency_imu_integration" true,
         ConfigCall.getString "tango_service_library_version"]) := by
  unfold SetConfig
  simp [hcfg, hbool, hevent, hlist]

/-- C17: evaluation at the failing input.  With every call succeeding and the
map list being the null pointer, `SetConfig` does not return: it reads
`uuid_list[0]` through the null pointer (the result `none`).  With the empty
string instead it returns true, loads no map and keeps `cur_uuid`. -/
theorem SetConfig_null_list_dereferenced :
    Examples.cfgNull.getAreaDescriptionUUIDList = (TANGO_SUCCESS, none) ∧
    SetConfig Examples.cfgNull true Examples.session0 = none ∧
    SetConfig Examples.cfgEmpty true Examples.session0 =
      some (true, Examples.session0,
        [ConfigCall.setBool "config_enable_color_camera" true,
         ConfigCall.setBool "config_enable_auto_recovery" true,
         ConfigCall.setBool "config_enable_low_latency_imu_integration" true,
         ConfigCall.getString "tango_service_library_version"]) :=
  ⟨rfl, rfl, rfl⟩

end CinderTango

/-! ## Decomposition of scaled transforms -/

namespace util

/-- C11: evaluation at the failing input, over the reals with the real square
root.  For diag(2, 2, 2, 1) `DecomposeMatrix` returns scale (2, 2, 2) and
translation (0, 0, 0), but its rotation, `quat_cast` of the original scaled
matrix, is (w, x, y, z) = (√7 / 2, 0, 0, 0), not the identity quaternion;
`quat_cast` of the unscaled copy the function computes and drops is the identity
quaternion. -/
theorem DecomposeMatrix_uniform_scale_rotation_not_identity :
    (DecomposeMatrix Real.sqrt (Examples.scale2 ℝ)).scale = glm.vec3.mk 2 2 2 ∧
    (DecomposeMatrix Real.sqrt (Examples.scale2 ℝ)).translation = glm.vec3.mk 0 0 0 ∧
    (DecomposeMatrix Real.sqrt (Examples.scale2 ℝ)).rotation
      = glm.quat_cast Real.sqrt (Examples.scale2 ℝ) ∧
    (DecomposeMatrix Real.sqrt (Examples.scale2 ℝ)).rotation
      = glm.quat.mk (Real.sqrt 7 * (1 / 2)) 0 0 0 ∧
    (DecomposeMatrix Real.sqrt (Examples.scale2 ℝ)).rotation ≠ glm.quat.mk 1 0 0 0 ∧
    glm.quat_cast Real.sqrt (transform_unscaled (Examples.scale2 ℝ) 2 2 2)
      = glm.quat.mk 1 0 0 0 := by
  have h4 : Real.sqrt 4 = 2 := by
    rw [show (4 : ℝ) = 2 ^ 2 by norm_num]
    exact Real.sqrt_sq (by norm_num)
  have hd : glm.determinant (Examples.scale2 ℝ) = 8 := by
    norm_num [glm.determinant, Examples.scale2, Matrix.vecHead, Matrix.vecTail]
  have hrot : glm.quat_cast Real.sqrt (Examples.scale2 ℝ)
      = glm.quat.mk (Real.sqrt 7 * (1 / 2)) 0 0 0 := by
    norm_num [glm.quat_cast, Examples.scale2, Matrix.vecHead, Matrix.vecTail]
  have h7 : Real.sqrt 7 ≠ 2 := by
    intro h
    have := Real.sq_sqrt (show (0 : ℝ) ≤ 7 by norm_num)
    rw [h] at this
    norm_num at this
  refine ⟨?_, rfl, rfl, hrot, ?_, ?_⟩
  · rw [DecomposeMatrix_scale, hd]
    norm_num [Examples.scale2, h4, Matrix.vecHead, Matrix.vecTail]
  · show glm.quat_cast Real.sqrt (Examples.scale2 ℝ) ≠ _
    rw [hrot]
    intro h
    have hw := congrArg glm.quat.w h
    simp only at hw
    apply h7
    linarith
  · norm_num [glm.quat_cast, transform_unscaled, Examples.scale2, h4, Matrix.vecHead,
      Matrix.vecTail]

end util

namespace glm

theorem scale_identity {K : Type} [Semiring K] (v : vec3 K) :
    scale mat4.identity v
      = ![![v.x, 0, 0, 0], ![0, v.y, 0, 0], ![0, 0, v.z, 0], ![0, 0, 0, 1]] := by
  funext c r
  fin_cases c <;> fin_cases r <;> simp [scale, mat4.identity, Matrix.vecHead, Matrix.vecTail]

end glm

namespace util

/-- C12: evaluation at the failing input, over the reals with the real square
root.  The transform is `translate(4, 5, 6) * quarterTurn * scale(3, 3, 3)`, so a
decomposition that round-trips exists.  `DecomposeMatrix` returns translation
(4, 5, 6), scale (3, 3, 3) and the rotation (w, x, y, z) = (1, 0, 0, 3/2) (taken
from the scaled matrix); the rebuilt matrix has the fourth column of the input but
its first column is (-21/2, 9, 0, 0) instead of (0, 3, 0, 0). -/
theorem DecomposeMatrix_recompose_differs :
    Examples.turnedScaled3 ℝ
      = glm.translate glm.mat4.identity (glm.vec3.mk 4 5 6) * Examples.quarterTurn ℝ
          * glm.scale glm.mat4.identity (glm.vec3.mk 3 3 3) ∧
    (Examples.turnedScaled3 ℝ 0 3 = 0 ∧ Examples.turnedScaled3 ℝ 1 3 = 0 ∧
      Examples.turnedScaled3 ℝ 2 3 = 0 ∧ Examples.turnedScaled3 ℝ 3 3 = 1) ∧
    DecomposeMatrix Real.sqrt (Examples.turnedScaled3 ℝ)
      = { translation := glm.vec3.mk 4 5 6, rotation := glm.quat.mk 1 0 0 (3 / 2),
          scale := glm.vec3.mk 3 3 3 } ∧
    recompose (DecomposeMatrix Real.sqrt (Examples.turnedScaled3 ℝ)) 3
      = Examples.turnedScaled3 ℝ 3 ∧
    recompose (DecomposeMatrix Real.sqrt (Examples.turnedScaled3 ℝ)) 0
      = ![-21 / 2, 9, 0, 0] ∧
    Examples.turnedScaled3 ℝ 0 = ![0, 3, 0, 0] ∧
    recompose (DecomposeMatrix Real.sqrt (Examples.turnedScaled3 ℝ)) 0
      ≠ Examples.turnedScaled3 ℝ 0 := by
  have h4 : Real.sqrt 4 = 2 := by
    rw [show (4 : ℝ) = 2 ^ 2 by norm_num]
    exact Real.sqrt_sq (by norm_num)
  have h9 : Real.sqrt 9 = 3 := by
    rw [show (9 : ℝ) = 3 ^ 2 by norm_num]
    exact Real.sqrt_sq (by norm_num)
  have hd : glm.determinant (Examples.turnedScaled3 ℝ) = 27 := by
    norm_num [glm.determinant, Examples.turnedScaled3, Matrix.vecHead, Matrix.vecTail]
  have hrot : glm.quat_cast Real.sqrt (Examples.turnedScaled3 ℝ)
      = glm.quat.mk 1 0 0 (3 / 2) := by
    norm_num [glm.quat_cast, Examples.turnedScaled3, Matrix.vecHead, Matrix.vecTail, h4]
  have hdec : DecomposeMatrix Real.sqrt (Examples.turnedScaled3 ℝ)
      = { translation := glm.vec3.mk 4 5 6, rotation := glm.quat.mk 1 0 0 (3 / 2),
          scale := glm.vec3.mk 3 3 3 } := by
    have hs := DecomposeMatrix_scale Real.sqrt (Examples.turnedScaled3 ℝ)
    rw [hd] at hs
    have hs' : (DecomposeMatrix Real.sqrt (Examples.turnedScaled3 ℝ)).scale
        = glm.vec3.mk 3 3 3 := by
      rw [hs]
      norm_num [Examples.turnedScaled3, h9, Matrix.vecHead, Matrix.vecTail]
    have ht : (DecomposeMatrix Real.sqrt (Examples.turnedScaled3 ℝ)).translation
        = glm.vec3.mk 4 5 6 := rfl
    have hr : (DecomposeMatrix Real.sqrt (Examples.turnedScaled3 ℝ)).rotation
        = glm.quat.mk 1 0 0 (3 / 2) := hrot
    cases hD : DecomposeMatrix Real.sqrt (Examples.turnedScaled3 ℝ) with
    | mk t r sc =>
      rw [hD] at hs' ht hr
      simp only at hs' ht hr
      rw [hs', ht, hr]
  have hcol0 : recompose (DecomposeMatrix Real.sqrt (Examples.turnedScaled3 ℝ)) 0
      = ![-21 / 2, 9, 0, 0] := by
    rw [hdec, recompose, glm.translate_identity, glm.scale_identity]
    funext r
    fin_cases r <;>
      norm_num [glm.mat4.mul_apply, glm.mat4_cast, Matrix.vecHead, Matrix.vecTail]
  refine ⟨?_, ⟨rfl, rfl, rfl, rfl⟩, hdec, ?_, hcol0, rfl, ?_⟩
  · rw [glm.translate_identity, glm.scale_identity]
    funext c r
    fin_cases c <;> fin_cases r <;>
      norm_num [glm.mat4.mul_apply, Examples.turnedScaled3, Examples.quarterTurn,
        Matrix.vecHead, Matrix.vecTail]
  · rw [hdec, recompose, glm.translate_identity, glm.scale_identity]
    funext r
    fin_cases r <;>
      norm_num [glm.mat4.mul_apply, glm.mat4_cast, Examples.turnedScaled3, Matrix.vecHead,
        Matrix.vecTail]
  · rw [hcol0]
    intro h
    have h1 := congrFun h 1
    norm_num [Examples.turnedScaled3] at h1

end util

/-! ## Rigid transforms and the composed camera transform -/

namespace glm

theorem upper3x3_mul {K : Type} [CommRing K] (a b : mat4 K)
    (hb : b 0 3 = 0 ∧ b 1 3 = 0 ∧ b 2 3 = 0) :
    upper3x3 (a * b) = upper3x3 a * upper3x3 b := by
  obtain ⟨b0, b1, b2⟩ := hb
  ext i j
  fin_cases i <;> fin_cases j <;>
    simp [upper3x3, Matrix.mul_apply, Fin.sum_univ_three, mat4.mul_apply, b0, b1, b2]

theorem bottom_row_mul {K : Type} [CommRing K] (a b : mat4 K)
    (ha : a 0 3 = 0 ∧ a 1 3 = 0 ∧ a 2 3 = 0 ∧ a 3 3 = 1)
    (hb : b 0 3 = 0 ∧ b 1 3 = 0 ∧ b 2 3 = 0 ∧ b 3 3 = 1) :
    (a * b) 0 3 = 0 ∧ (a * b) 1 3 = 0 ∧ (a * b) 2 3 = 0 ∧ (a * b) 3 3 = 1 := by
  obtain ⟨a0, a1, a2, a3⟩ := ha
  obtain ⟨b0, b1, b2, b3⟩ := hb
  simp [mat4.mul_apply, a0, a1, a2, a3, b0, b1, b2, b3]

theorem determinant_eq_det_upper3x3 {K : Type} [CommRing K] (m : mat4 K)
    (hb : m 0 3 = 0 ∧ m 1 3 = 0 ∧ m 2 3 = 0 ∧ m 3 3 = 1) :
    determinant m = (upper3x3 m).det := by
  obtain ⟨b0, b1, b2, b3⟩ := hb
  simp only [determinant, upper3x3, Matrix.det_fin_three, b0, b1, b2, b3]
  simp
  ring

/-- Rigid transforms are closed under the matrix product. -/
theorem isRigid_mul {K : Type} [CommRing K] {a b : mat4 K} (ha : IsRigid a) (hb : IsRigid b) :
    IsRigid (a * b) := by
  obtain ⟨ha0, ha1, ha2⟩ := ha
  obtain ⟨hb0, hb1, hb2⟩ := hb
  refine ⟨bottom_row_mul a b ha0 hb0, ?_, ?_⟩
  · rw [upper3x3_mul a b ⟨hb0.1, hb0.2.1, hb0.2.2.1⟩, Matrix.transpose_mul,
      Matrix.mul_assoc, ← Matrix.mul_assoc _ (upper3x3 a), ha1, Matrix.one_mul, hb1]
  · rw [upper3x3_mul a b ⟨hb0.1, hb0.2.1, hb0.2.2.1⟩, Matrix.det_mul, ha2, hb2, mul_one]

/-- A rigid transform has determinant 1. -/
theorem isRigid_determinant {K : Type} [CommRing K] {a : mat4 K} (ha : IsRigid a) :
    determinant a = 1 := by
  rw [determinant_eq_det_upper3x3 a ha.1, ha.2.2]

/-- For a unit quaternion `translate(p) * mat4_cast(q)` is a rigid transform. -/
theorem isRigid_translate_mat4_cast {K : Type} [CommRing K] (p : vec3 K) (q : quat K)
    (hq : q.IsUnit) : IsRigid (translate mat4.identity p * mat4_cast q) := by
  have h : q.w * q.w + q.x * q.x + q.y * q.y + q.z * q.z = 1 := hq
  have hu : upper3x3 (translate mat4.identity p * mat4_cast q) = upper3x3 (mat4_cast q) := by
    ext i j
    fin_cases i <;> fin_cases j <;>
      simp [upper3x3, translate_identity_mul, mat4_cast]
  refine ⟨?_, ?_, ?_⟩
  · simp [translate_identity_mul, mat4_cast]
  · rw [hu]
    ext i j
    have hc := mat4_cast_columns_orthonormal q h
    fin_cases i <;> fin_cases j
    · simpa [upper3x3, Matrix.mul_apply, Fin.sum_univ_three, mat4_cast] using hc 0 0
    · simpa [upper3x3, Matrix.mul_apply, Fin.sum_univ_three, mat4_cast] using hc 0 1
    · simpa [upper3x3, Matrix.mul_apply, Fin.sum_univ_three, mat4_cast] using hc 0 2
    · simpa [upper3x3, Matrix.mul_apply, Fin.sum_univ_three, mat4_cast] using hc 1 0
    · simpa [upper3x3, Matrix.mul_apply, Fin.sum_univ_three, mat4_cast] using hc 1 1
    · simpa [upper3x3, Matrix.mul_apply, Fin.sum_univ_three, mat4_cast] using hc 1 2
    · simpa [upper3x3, Matrix.mul_apply, Fin.sum_univ_three, mat4_cast] using hc 2 0
    · simpa [upper3x3, Matrix.mul_apply, Fin.sum_univ_three, mat4_cast] using hc 2 1
    · simpa [upper3x3, Matrix.mul_apply, Fin.sum_univ_three, mat4_cast] using hc 2 2
  · rw [hu]
    simp only [upper3x3, mat4_cast, Matrix.det_fin_three]
    simp
    linear_combination (4 * (q.x * q.x + q.y * q.y + q.z * q.z)) * h

theorem upper3x3_identity {K : Type} [CommRing K] :
    upper3x3 (mat4.identity : mat4 K) = 1 := by
  ext i j
  fin_cases i <;> fin_cases j <;>
    simp [upper3x3, mat4.identity, Matrix.vecHead, Matrix.vecTail]

/-- The inverse glm computes for a rigid transform is rigid. -/
theorem isRigid_inverse {K : Type} [Field K] {a : mat4 K} (ha : IsRigid a) :
    IsRigid (inverse a) := by
  have hdet : determinant a = 1 := isRigid_determinant ha
  have hne : determinant a ≠ 0 := by rw [hdet]; exact one_ne_zero
  obtain ⟨⟨a0, a1, a2, a3⟩, hort, hd3⟩ := ha
  have hd3' := hd3
  simp only [upper3x3, Matrix.det_fin_three] at hd3'
  simp at hd3'
  have hbot : inverse a 0 3 = 0 ∧ inverse a 1 3 = 0 ∧ inverse a 2 3 = 0 ∧ inverse a 3 3 = 1 := by
    simp only [inverse_apply, hdet]
    refine ⟨?_, ?_, ?_, ?_⟩
    · simp [inverseCofactors, a0, a1, a2, a3]
    · simp [inverseCofactors, a0, a1, a2, a3]
    · simp [inverseCofactors, a0, a1, a2, a3]
    · simp [inverseCofactors, a0, a1, a2, a3]
      linear_combination hd3'
  have hX : upper3x3 (glm.inverse a) * upper3x3 a = 1 := by
    rw [← upper3x3_mul _ _ ⟨a0, a1, a2⟩, inverse_mul a hne, upper3x3_identity]
  have hBBt : upper3x3 a * (upper3x3 a).transpose = 1 := Matrix.mul_eq_one_comm.mp hort
  have hXeq : upper3x3 (glm.inverse a) = (upper3x3 a).transpose := by
    calc upper3x3 (glm.inverse a)
        = upper3x3 (glm.inverse a) * (upper3x3 a * (upper3x3 a).transpose) := by
          rw [hBBt, Matrix.mul_one]
      _ = (upper3x3 (glm.inverse a) * upper3x3 a) * (upper3x3 a).transpose := by
          rw [Matrix.mul_assoc]
      _ = (upper3x3 a).transpose := by rw [hX, Matrix.one_mul]
  refine ⟨hbot, ?_, ?_⟩
  · rw [hXeq, Matrix.transpose_transpose, hBBt]
  · rw [hXeq, Matrix.det_transpose, hd3]

end glm

namespace util

/-- For a rigid transform `DecomposeMatrix` returns the scale
(sqrt 1, sqrt 1, sqrt 1): the rows of an orthogonal block have length 1 and the
determinant is 1. -/
theorem DecomposeMatrix_scale_of_isRigid {K : Type} [LinearOrderedField K] (sqrt : K → K)
    (m : glm.mat4 K) (hm : glm.IsRigid m) :
    (DecomposeMatrix sqrt m).scale = glm.vec3.mk (sqrt 1) (sqrt 1) (sqrt 1) := by
  have hdet : glm.determinant m = 1 := glm.isRigid_determinant hm
  have hBBt : glm.upper3x3 m * (glm.upper3x3 m).transpose = 1 :=
    Matrix.mul_eq_one_comm.mp hm.2.1
  have r0 : m 0 0 * m 0 0 + m 1 0 * m 1 0 + m 2 0 * m 2 0 = 1 := by
    have := congrFun (congrFun hBBt 0) 0
    simpa [glm.upper3x3, Matrix.mul_apply, Fin.sum_univ_three] using this
  have r1 : m 0 1 * m 0 1 + m 1 1 * m 1 1 + m 2 1 * m 2 1 = 1 := by
    have := congrFun (congrFun hBBt 1) 1
    simpa [glm.upper3x3, Matrix.mul_apply, Fin.sum_univ_three] using this
  have r2 : m 0 2 * m 0 2 + m 1 2 * m 1 2 + m 2 2 * m 2 2 = 1 := by
    have := congrFun (congrFun hBBt 2) 2
    simpa [glm.upper3x3, Matrix.mul_apply, Fin.sum_univ_three] using this
  rw [DecomposeMatrix_scale, hdet, r0, r1, r2]
  simp

end util

namespace CinderTangoApp

/-- C19.  Rigidity of the composed transform.  Let the extrinsics matrices be the
ones `SetupExtrinsics` builds from unit quaternions, let both correction matrices
be pure rotations, and let the pose quaternion `update` composes with be of unit
norm (the position is arbitrary).  Then the transform `ow_T_oc` stored by `update`
has bottom row (0, 0, 0, 1) and an orthogonal upper-left 3x3 block of determinant
1; it is invertible, `glm::inverse` being its two-sided inverse; and
`DecomposeMatrix` returns the scale (1, 1, 1) for it, for every square-root
function with `sqrt 1 = 1`. -/
theorem update_ow_T_oc_rigid {K : Type} [LinearOrderedField K] (sqrt : K → K)
    (tex : TangoErrorType × K) (svc : PoseService K) (log : List (PoseQuery K))
    (tango : CinderTango K) (app : CinderTangoApp K)
    (hsqrt : sqrt 1 = 1) (hconn : app.tangoConnected = true)
    (hq : (update sqrt tex svc log tango (SetupExtrinsics tango app)).1.tango_rotation.IsUnit)
    (hqd : tango.imu_q_device.IsUnit) (hqc : tango.imu_q_cc.IsUnit)
    (hss : glm.IsPureRotation app.ow_T_ss) (hoc : glm.IsPureRotation app.cc_T_oc) :
    glm.IsRigid (update sqrt tex svc log tango (SetupExtrinsics tango app)).2.1.ow_T_oc ∧
    glm.determinant (update sqrt tex svc log tango (SetupExtrinsics tango app)).2.1.ow_T_oc
      = 1 ∧
    (update sqrt tex svc log tango (SetupExtrinsics tango app)).2.1.ow_T_oc
        * glm.inverse (update sqrt tex svc log tango (SetupExtrinsics tango app)).2.1.ow_T_oc
      = glm.mat4.identity ∧
    glm.inverse (update sqrt tex svc log tango (SetupExtrinsics tango app)).2.1.ow_T_oc
        * (update sqrt tex svc log tango (SetupExtrinsics tango app)).2.1.ow_T_oc
      = glm.mat4.identity ∧
    (util.DecomposeMatrix sqrt
        (update sqrt tex svc log tango (SetupExtrinsics tango app)).2.1.ow_T_oc).scale
      = glm.vec3.mk 1 1 1 := by
  have hconn' : (SetupExtrinsics tango app).tangoConnected = true := hconn
  have hM := update_ow_T_oc sqrt tex svc log tango (SetupExtrinsics tango app) hconn'
  rw [← update_session sqrt tex svc log tango (SetupExtrinsics tango app) hconn'] at hM
  have hD : glm.IsRigid
      (ss_T_device (update sqrt tex svc log tango (SetupExtrinsics tango app)).1) :=
    glm.isRigid_translate_mat4_cast _ _ hq
  have hA : glm.IsRigid (SetupExtrinsics tango app).imu_T_device :=
    glm.isRigid_translate_mat4_cast _ _ hqd
  have hC : glm.IsRigid (SetupExtrinsics tango app).imu_T_cc :=
    glm.isRigid_translate_mat4_cast _ _ hqc
  have hW : glm.IsRigid (SetupExtrinsics tango app).ow_T_ss := hss.1
  have hO : glm.IsRigid (SetupExtrinsics tango app).cc_T_oc := hoc.1
  have hrigid : glm.IsRigid
      (update sqrt tex svc log tango (SetupExtrinsics tango app)).2.1.ow_T_oc := by
    rw [hM]
    exact glm.isRigid_mul (glm.isRigid_mul (glm.isRigid_mul (glm.isRigid_mul hW hD)
      (glm.isRigid_inverse hA)) hC) hO
  have hdet := glm.isRigid_determinant hrigid
  have hne : glm.determinant
      (update sqrt tex svc log tango (SetupExtrinsics tango app)).2.1.ow_T_oc ≠ 0 := by
    rw [hdet]; exact one_ne_zero
  refine ⟨hrigid, hdet, glm.mul_inverse _ hne, glm.inverse_mul _ hne, ?_⟩
  rw [util.DecomposeMatrix_scale_of_isRigid sqrt _ hrigid, hsqrt]

/-- C19 at a concrete input over the rationals: the pose sampled is `poseA`
(orientation (0, 0, 0, 1)), the extrinsics are the constructor's identity
quaternions, the corrections are a quarter turn about z and a half turn about x. -/
theorem update_ow_T_oc_rigid_witness :
    glm.determinant (update (fun x => x) (0, 5) Examples.svcBoth [] Examples.session0
        (SetupExtrinsics Examples.session0 Examples.appRotations)).2.1.ow_T_oc = 1 ∧
    (util.DecomposeMatrix (fun x => x)
        (update (fun x => x) (0, 5) Examples.svcBoth [] Examples.session0
          (SetupExtrinsics Examples.session0 Examples.appRotations)).2.1.ow_T_oc).scale
      = glm.vec3.mk 1 1 1 :=
  have hrot : (update (fun x => x) (0, 5) Examples.svcBoth [] Examples.session0
      (SetupExtrinsics Examples.session0 Examples.appRotations)).1.tango_rotation
        = glm.quat.mk 1 0 0 0 := by decide
  have hpure1 : glm.IsPureRotation (Examples.quarterTurn ℚ) := by
    refine ⟨⟨by simp [Examples.quarterTurn, Matrix.vecHead, Matrix.vecTail], ?_, ?_⟩,
      by simp [Examples.quarterTurn, Matrix.vecHead, Matrix.vecTail]⟩
    · ext i j
      fin_cases i <;> fin_cases j <;>
        simp [glm.upper3x3, Examples.quarterTurn, Matrix.mul_apply, Fin.sum_univ_three,
          Matrix.vecHead, Matrix.vecTail]
    · simp [glm.upper3x3, Examples.quarterTurn, Matrix.det_fin_three, Matrix.vecHead,
        Matrix.vecTail]
  have hpure2 : glm.IsPureRotation (Examples.halfTurnX ℚ) := by
    refine ⟨⟨by simp [Examples.halfTurnX, Matrix.vecHead, Matrix.vecTail], ?_, ?_⟩,
      by simp [Examples.halfTurnX, Matrix.vecHead, Matrix.vecTail]⟩
    · ext i j
      fin_cases i <;> fin_cases j <;>
        simp [glm.upper3x3, Examples.halfTurnX, Matrix.mul_apply, Fin.sum_univ_three,
          Matrix.vecHead, Matrix.vecTail]
    · simp [glm.upper3x3, Examples.halfTurnX, Matrix.det_fin_three, Matrix.vecHead,
        Matrix.vecTail]
  have h := update_ow_T_oc_rigid (fun x => x) (0, 5) Examples.svcBoth [] Examples.session0
    Examples.appRotations rfl rfl
    (by rw [hrot]; norm_num [glm.quat.IsUnit])
    (by norm_num [glm.quat.IsUnit, Examples.session0])
    (by norm_num [glm.quat.IsUnit, Examples.session0])
    hpure1 hpure2
  ⟨h.2.1, h.2.2.2.2⟩

end CinderTangoApp

/-! ## Map selection on a list of separators only -/

/-- On a string made of delimiters only `strtok_r` finds no token. -/
theorem strtok_r_all_delims (delim : Char) (str : List Char) (h : ∀ c ∈ str, c = delim) :
    strtok_r str delim = (none, []) := by
  have hd : str.dropWhile (fun c => decide (c = delim)) = [] := by
    induction str with
    | nil => rfl
    | cons c cs ih =>
      have hc : c = delim := h c (List.mem_cons_self _ _)
      have ih' := ih (fun x hx => h x (List.mem_cons_of_mem _ hx))
      simp [List.dropWhile, hc, ih']
  simp [strtok_r, hd]

namespace CinderTango

/-- C21.  For every non-empty UUID list string made of commas only, with every
service and configuration call succeeding, tokenising yields no entry and
`SetConfig` returns false: `cur_uuid` and the rest of the session are unchanged and
no `config_load_area_description_UUID` call is made (the calls issued are the three
`setBool` calls and the version query that precede the map selection). -/
theorem SetConfig_comma_only_list {K : Type} (svc : ConfigService)
    (is_auto_recovery : Bool) (s : CinderTango K) (uuid_list : List Char)
    (hne : uuid_list ≠ []) (hcommas : ∀ c ∈ uuid_list, c = ',')
    (hcfg : svc.getConfig = true) (hbool : ∀ key value, svc.setBool key value = TANGO_SUCCESS)
    (hevent : svc.connectOnTangoEvent = TANGO_SUCCESS)
    (hlist : svc.getAreaDescriptionUUIDList = (TANGO_SUCCESS, some uuid_list))
    (_hstring : ∀ key value, svc.setString key value = TANGO_SUCCESS) :
    parse_uuid_loop (uuid_list.length + 1) (strtok_r uuid_list ',').1
        (strtok_r uuid_list ',').2 [] = [] ∧
    SetConfig svc is_auto_recovery s =
      some (false, s,
        [ConfigCall.setBool "config_enable_color_camera" true,
         ConfigCall.setBool "config_enable_auto_recovery" is_auto_recovery,
         ConfigCall.setBool "config_enable_low_latency_imu_integration" true,
         ConfigCall.getString "tango_service_library_version"]) := by
  have htok := strtok_r_all_delims ',' uuid_list hcommas
  have hloop : parse_uuid_loop (uuid_list.length + 1) (strtok_r uuid_list ',').1
      (strtok_r uuid_list ',').2 [] = [] := by
    rw [htok]
    rfl
  refine ⟨hloop, ?_⟩
  unfold SetConfig
  simp only [hcfg, hbool, hevent, hlist, hloop]
  simp [hne]

/-- C21 at a concrete input: the list ",,,". -/
theorem SetConfig_comma_only_list_witness :
    SetConfig Examples.cfgCommas true Examples.session0 =
      some (false, Examples.session0,
        [ConfigCall.setBool "config_enable_color_camera" true,
         ConfigCall.setBool "config_enable_auto_recovery" true,
         ConfigCall.setBool "config_enable_low_latency_imu_integration" true,
         ConfigCall.getString "tango_service_library_version"]) :=
  (SetConfig_comma_only_list Examples.cfgCommas true Examples.session0 ",,,".toList
    (by decide) (by decide) rfl (fun _ _ => rfl) rfl rfl (fun _ _ => rfl)).2

end CinderTango
